import Mathlib

/-!
# Artery EFC flash driver (`src/flash/nor/artery.c`)

A shallow embedding of the driver: the device catalogue, the geometry probe, the
register access layer, the unlock/lock sequences, the status polls, and the erase
and write engines.  Target memory accesses are answered by a transport that is a
function of the accesses issued so far; every function threads the list of accesses
it has issued, so that theorems can speak about which registers were touched and in
which order.
-/

namespace Artery

/-! ## Hardware constants (the `#define`s of the driver) -/

def MCU_DEVICE_ID_ADDR : Nat := 0xE0042000
def FLASH_SIZE_ADDR : Nat := 0x1FFFF7E0
def DEVICE_UID_ADDR : Nat := 0x1FFFF7E8
def MASK_VERSION_ADDR : Nat := 0x1FFFF7F1
def FLASH_BASE_ADDR : Nat := 0x08000000
def FLASH_BASE_BANK2_4032K : Nat := 0x08200000
def FLASH_BASE_BANK2_1024K : Nat := 0x08080000

def OTP_BANK_BASE_ADDR : Nat := 0x1FFFC000

def EFC_BASE : Nat := 0x40023C00
def EFC_BASE_BANK2 : Nat := EFC_BASE + 0x40

def EFC_CTRL_REG : Nat := 0x10
def EFC_PRGM_BIT : Nat := 1 <<< 0
def EFC_PGERS_BIT : Nat := 1 <<< 1
def EFC_BANKERS_BIT : Nat := 1 <<< 2
def EFC_USD_PRGM_BIT : Nat := 1 <<< 4
def EFC_USD_ERS_BIT : Nat := 1 <<< 5
def EFC_RSTR_BIT : Nat := 1 <<< 6
def EFC_LOCK_BIT : Nat := 1 <<< 7
def EFC_USD_UNLOCK_BIT : Nat := 1 <<< 9
def EFC_FCKEY_REG : Nat := 0x04
def EFC_USD_UNLOCK_REG : Nat := 0x08
def EFC_KEY1 : Nat := 0x45670123
def EFC_KEY2 : Nat := 0xCDEF89AB
def EFC_RDPRTEN : Nat := 0x00A5
def EFC_STS_REG : Nat := 0x0C
def EFC_BSY_BIT : Nat := 1 <<< 0
def EFC_PRGMERR_BIT : Nat := 1 <<< 2
def EFC_EPPERR_BIT : Nat := 1 <<< 4
def EFC_PRCDN_BIT : Nat := 1 <<< 5
def EFC_ADDR_REG : Nat := 0x14

def FLASH_ERASE_TIMEOUT : Int := 100
def FLSAH_MASS_ERASE_TIMEOUT : Int := 100 * 1000
def FLASH_WRITE_TIMEOUT : Int := 10

/-! ## Result codes

The driver returns the integer codes of the host tool.  Their declarations live in
headers outside `artery.c`; the values below are the ones those headers give. -/

/-- Modelled from the spec: the success code of every operation (declared outside
`artery.c`). -/
def ERROR_OK : Int := 0
/-- Modelled from the spec: the generic failure code, used for `Timeout`,
`ProtectionViolation`, `ProgramError` and `UnsupportedBank` (declared outside
`artery.c`). -/
def ERROR_FAIL : Int := -4
/-- Modelled from the spec: `TargetNotHalted` (declared outside `artery.c`). -/
def ERROR_TARGET_NOT_HALTED : Int := -304
/-- Modelled from the spec: `UnlockFailed` (declared outside `artery.c`). -/
def ERROR_TARGET_FAILURE : Int := -305
/-- Modelled from the spec: `UnalignedAccess` (declared outside `artery.c`). -/
def ERROR_TARGET_UNALIGNED_ACCESS : Int := -306
/-- Modelled from the spec: `TargetNotExamined` (declared outside `artery.c`). -/
def ERROR_TARGET_NOT_EXAMINED : Int := -311
/-- Modelled from the spec: `InvalidBank` (declared outside `artery.c`). -/
def ERROR_FLASH_BANK_INVALID : Int := -900

/-! ## Data model -/

structure artery_flash_bank where
  probed : Bool
  flash_regs_base : Nat
deriving DecidableEq, Repr

structure artery_chip_info where
  chip_id : Nat
  flash_size_kB : Nat
  sector_size : Nat
  chip_name : Option String
deriving DecidableEq, Repr

/-- Modelled from the spec: the run state of the target; the driver only asks whether
it is `TARGET_HALTED` (declared outside `artery.c`). -/
inductive target_state
  | TARGET_UNKNOWN
  | TARGET_RUNNING
  | TARGET_HALTED
  | TARGET_RESET
  | TARGET_DEBUG_RUNNING
deriving DecidableEq, Repr

/-- Modelled from the spec: the target handle, reduced to the two predicates the driver
consults, "examined" and "halted" (declared outside `artery.c`). -/
structure target where
  examined : Bool
  state : target_state
deriving DecidableEq, Repr

/-- Modelled from the spec: one entry of a bank's sector table,
`{offset, size, erased_state, protected_state}`; the two states are `-1` for unknown
(declared outside `artery.c`). -/
structure flash_sector where
  offset : Nat
  size : Nat
  is_erased : Int
  is_protected : Int
deriving DecidableEq, Repr, Inhabited

/-- Modelled from the spec: the bank descriptor (declared outside `artery.c`).  A `NULL`
table is the empty list. -/
structure flash_bank where
  target : target
  driver_priv : artery_flash_bank
  base : Nat
  size : Nat
  num_sectors : Nat
  sectors : List flash_sector
  num_prot_blocks : Nat
  prot_blocks : List flash_sector
deriving DecidableEq, Repr

/-! ## Memory transport -/

/-- One request made to the debug transport (or a cooperative sleep between polls). -/
inductive Access
  | read_u32 (address : Nat)
  | read_u16 (address : Nat)
  | write_u32 (address : Nat) (value : Nat)
  | write_u16 (address : Nat) (value : Nat)
  | write_u8 (address : Nat) (value : Nat)
  | write_memory (address : Nat) (size : Nat) (count : Nat) (data : List Nat)
  | alive_sleep (ms : Nat)
deriving DecidableEq, Repr

/-- The transport's answer to one request: its result code and, for a read, the value
it left in the destination variable. -/
structure Reply where
  retval : Int
  value : Nat
deriving DecidableEq, Repr

/-- A transport answers each request as a function of the requests issued before it. -/
abbrev Transport := List Access → Access → Reply

/-- Result of a register or memory read: code, value, accesses issued so far. -/
structure ReadResult where
  retval : Int
  value : Nat
  trace : List Access
deriving DecidableEq, Repr

/-- Result of an operation: code and accesses issued so far. -/
structure Result where
  retval : Int
  trace : List Access
deriving DecidableEq, Repr

/-- Modelled from the spec: `read32(addr) -> Result<value, TransportError>`. -/
def target_read_u32 (tp : Transport) (address : Nat) (tr : List Access) : ReadResult :=
  let r := tp tr (Access.read_u32 address)
  ⟨r.retval, r.value % 2 ^ 32, tr ++ [Access.read_u32 address]⟩

/-- Modelled from the spec: `read16(addr) -> Result<value, TransportError>`. -/
def target_read_u16 (tp : Transport) (address : Nat) (tr : List Access) : ReadResult :=
  let r := tp tr (Access.read_u16 address)
  ⟨r.retval, r.value % 2 ^ 16, tr ++ [Access.read_u16 address]⟩

/-- Modelled from the spec: `write32(addr, value) -> Result<(), TransportError>`. -/
def target_write_u32 (tp : Transport) (address value : Nat) (tr : List Access) : Result :=
  ⟨(tp tr (Access.write_u32 address value)).retval, tr ++ [Access.write_u32 address value]⟩

/-- Modelled from the spec: `write16(addr, value) -> Result<(), TransportError>`. -/
def target_write_u16 (tp : Transport) (address value : Nat) (tr : List Access) : Result :=
  ⟨(tp tr (Access.write_u16 address value)).retval, tr ++ [Access.write_u16 address value]⟩

/-- Modelled from the spec: `write8(addr, value) -> Result<(), TransportError>`. -/
def target_write_u8 (tp : Transport) (address value : Nat) (tr : List Access) : Result :=
  ⟨(tp tr (Access.write_u8 address value)).retval, tr ++ [Access.write_u8 address value]⟩

/-- Modelled from the spec: `write_block(addr, bytes) -> Result<(), TransportError>`,
called with an element size and an element count. -/
def target_write_memory (tp : Transport) (address size count : Nat) (data : List Nat)
    (tr : List Access) : Result :=
  ⟨(tp tr (Access.write_memory address size count data)).retval,
    tr ++ [Access.write_memory address size count data]⟩

/-- Modelled from the spec: the fixed short sleep between two polls. -/
def alive_sleep (ms : Nat) (tr : List Access) : List Access :=
  tr ++ [Access.alive_sleep ms]

/-! ## Device catalogue -/

def known_artery_chips : List artery_chip_info := [
  artery_chip_info.mk 0xF0050340 1024 2048 (some "AR8F403CGT6-A"),
  artery_chip_info.mk 0xF0050340 1024 2048 (some "AR8F403CGT6"),
  artery_chip_info.mk 0x70050242 256 2048 (some "AT32F403ACCT7"),
  artery_chip_info.mk 0x70050243 256 2048 (some "AT32F403ACCU7"),
  artery_chip_info.mk 0x700502CF 512 2048 (some "AT32F403ACET7"),
  artery_chip_info.mk 0x700502D0 512 2048 (some "AT32F403ACEU7"),
  artery_chip_info.mk 0x70050346 1024 2048 (some "AT32F403ACGT7"),
  artery_chip_info.mk 0x70050347 1024 2048 (some "AT32F403ACGU7"),
  artery_chip_info.mk 0x70050241 256 2048 (some "AT32F403ARCT7"),
  artery_chip_info.mk 0x700502CE 512 2048 (some "AT32F403ARET7"),
  artery_chip_info.mk 0x70050345 1024 2048 (some "AT32F403ARGT7"),
  artery_chip_info.mk 0x70050240 256 2048 (some "AT32F403AVCT7"),
  artery_chip_info.mk 0x700502CD 512 2048 (some "AT32F403AVET7"),
  artery_chip_info.mk 0x70050344 1024 2048 (some "AT32F403AVGT7"),
  artery_chip_info.mk 0xF0050355 1024 2048 (some "AT32F403AVGW"),
  artery_chip_info.mk 0x700301CF 128 1024 (some "AT32F403CBT6"),
  artery_chip_info.mk 0x70050243 256 2048 (some "AT32F403CCT6"),
  artery_chip_info.mk 0x7005024E 256 2048 (some "AT32F403CCU6"),
  artery_chip_info.mk 0x700502CB 512 2048 (some "AT32F403CET6"),
  artery_chip_info.mk 0x700502CD 512 2048 (some "AT32F403CEU6"),
  artery_chip_info.mk 0x70050347 1024 2048 (some "AT32F403CGT6"),
  artery_chip_info.mk 0x7005034C 1024 2048 (some "AT32F403CGU6"),
  artery_chip_info.mk 0x70050242 256 2048 (some "AT32F403RCT6"),
  artery_chip_info.mk 0x700502CA 512 2048 (some "AT32F403RET6"),
  artery_chip_info.mk 0x70050346 1024 2048 (some "AT32F403RGT6"),
  artery_chip_info.mk 0x70050241 256 2048 (some "AT32F403VCT6"),
  artery_chip_info.mk 0x700502C9 512 2048 (some "AT32F403VET6"),
  artery_chip_info.mk 0x70050345 1024 2048 (some "AT32F403VGT6"),
  artery_chip_info.mk 0x70050240 256 2048 (some "AT32F403ZCT6"),
  artery_chip_info.mk 0x700502C8 512 2048 (some "AT32F403ZET6"),
  artery_chip_info.mk 0x70050344 1024 2048 (some "AT32F403ZGT6"),
  artery_chip_info.mk 0x70050254 256 2048 (some "AT32F407AVCT7"),
  artery_chip_info.mk 0x70050353 1024 2048 (some "AT32F407AVGT7"),
  artery_chip_info.mk 0x7005024A 256 2048 (some "AT32F407RCT7"),
  artery_chip_info.mk 0x700502D2 512 2048 (some "AT32F407RET7"),
  artery_chip_info.mk 0x7005034C 1024 2048 (some "AT32F407RGT7"),
  artery_chip_info.mk 0x70050249 256 2048 (some "AT32F407VCT7"),
  artery_chip_info.mk 0x700502D1 512 2048 (some "AT32F407VET7"),
  artery_chip_info.mk 0x7005034B 1024 2048 (some "AT32F407VGT7"),
  artery_chip_info.mk 0x70030106 64 1024 (some "AT32F413C8T7"),
  artery_chip_info.mk 0x700301C3 128 1024 (some "AT32F413CBT7"),
  artery_chip_info.mk 0x700301CA 128 1024 (some "AT32F413CBU7"),
  artery_chip_info.mk 0x70030242 256 2048 (some "AT32F413CCT7"),
  artery_chip_info.mk 0x70030247 256 2048 (some "AT32F413CCU7"),
  artery_chip_info.mk 0x700301C5 128 1024 (some "AT32F413KBU7-4"),
  artery_chip_info.mk 0x70030244 256 2048 (some "AT32F413KCU7-4"),
  artery_chip_info.mk 0x700301C1 128 1024 (some "AT32F413RBT7"),
  artery_chip_info.mk 0x70030240 256 2048 (some "AT32F413RCT7"),
  artery_chip_info.mk 0x700301CB 128 1024 (some "AT32F413TBU7"),
  artery_chip_info.mk 0x70030109 64 1024 (some "AT32F415C8T7"),
  artery_chip_info.mk 0x700301C5 128 1024 (some "AT32F415CBT7"),
  artery_chip_info.mk 0x700301CD 128 1024 (some "AT32F415CBU7"),
  artery_chip_info.mk 0x70030241 256 2048 (some "AT32F415CCT7"),
  artery_chip_info.mk 0x7003024C 256 2048 (some "AT32F415CCU7"),
  artery_chip_info.mk 0x7003010A 64 1024 (some "AT32F415K8U7-4"),
  artery_chip_info.mk 0x700301C6 128 1024 (some "AT32F415KBU7-4"),
  artery_chip_info.mk 0x70030242 256 2048 (some "AT32F415KCU7-4"),
  artery_chip_info.mk 0x7003010B 64 1024 (some "AT32F415R8T7-7"),
  artery_chip_info.mk 0x70030108 64 1024 (some "AT32F415R8T7"),
  artery_chip_info.mk 0x700301C7 128 1024 (some "AT32F415RBT7-7"),
  artery_chip_info.mk 0x700301C4 128 1024 (some "AT32F415RBT7"),
  artery_chip_info.mk 0x700301CF 128 1024 (some "AT32F415RBW"),
  artery_chip_info.mk 0x70030243 256 2048 (some "AT32F415RCT7-7"),
  artery_chip_info.mk 0x70030240 256 2048 (some "AT32F415RCT7"),
  artery_chip_info.mk 0x7003024E 256 2048 (some "AT32F415RCW"),
  artery_chip_info.mk 0x5001000C 16 1024 (some "AT32F421C4T7"),
  artery_chip_info.mk 0x50020086 32 1024 (some "AT32F421C6T7"),
  artery_chip_info.mk 0x50020100 64 1024 (some "AT32F421C8T7"),
  artery_chip_info.mk 0xD0020100 64 1024 (some "AT32F421C8W-YY"),
  artery_chip_info.mk 0x50020117 64 1024 (some "AT32F421C8W"),
  artery_chip_info.mk 0x50010011 16 1024 (some "AT32F421F4P7"),
  artery_chip_info.mk 0x50010010 16 1024 (some "AT32F421F4U7"),
  artery_chip_info.mk 0x5002008B 32 1024 (some "AT32F421F6P7"),
  artery_chip_info.mk 0x5002008A 32 1024 (some "AT32F421F6U7"),
  artery_chip_info.mk 0x50020105 64 1024 (some "AT32F421F8P7"),
  artery_chip_info.mk 0x50020104 64 1024 (some "AT32F421F8U7"),
  artery_chip_info.mk 0x50010014 16 1024 (some "AT32F421G4U7"),
  artery_chip_info.mk 0x50020093 32 1024 (some "AT32F421G6U7"),
  artery_chip_info.mk 0x50020112 64 1024 (some "AT32F421G8U7"),
  artery_chip_info.mk 0x5001000D 16 1024 (some "AT32F421K4T7"),
  artery_chip_info.mk 0x5001000F 16 1024 (some "AT32F421K4U7-4"),
  artery_chip_info.mk 0x5001000E 16 1024 (some "AT32F421K4U7"),
  artery_chip_info.mk 0x50020087 32 1024 (some "AT32F421K6T7"),
  artery_chip_info.mk 0x50020089 32 1024 (some "AT32F421K6U7-4"),
  artery_chip_info.mk 0x50020088 32 1024 (some "AT32F421K6U7"),
  artery_chip_info.mk 0x50020101 64 1024 (some "AT32F421K8T7"),
  artery_chip_info.mk 0x50020103 64 1024 (some "AT32F421K8U7-4"),
  artery_chip_info.mk 0x50020102 64 1024 (some "AT32F421K8U7"),
  artery_chip_info.mk 0x50010016 16 1024 (some "AT32F421PF4P7"),
  artery_chip_info.mk 0x50020115 64 1024 (some "AT32F421PF8P7"),
  artery_chip_info.mk 0x7003210B 64 1024 (some "AT32F423C8T7"),
  artery_chip_info.mk 0x7003210E 64 1024 (some "AT32F423C8U7"),
  artery_chip_info.mk 0x700A21CA 128 1024 (some "AT32F423CBT7"),
  artery_chip_info.mk 0x700A21CD 128 1024 (some "AT32F423CBU7"),
  artery_chip_info.mk 0x700A3249 256 2048 (some "AT32F423CCT7"),
  artery_chip_info.mk 0x700A324C 256 2048 (some "AT32F423CCU7"),
  artery_chip_info.mk 0x70032115 64 1024 (some "AT32F423K8U7-4"),
  artery_chip_info.mk 0x700A21D4 128 1024 (some "AT32F423KBU7-4"),
  artery_chip_info.mk 0x700A3253 256 2048 (some "AT32F423KCU7-4"),
  artery_chip_info.mk 0x70032108 64 1024 (some "AT32F423R8T7-7"),
  artery_chip_info.mk 0x70032105 64 1024 (some "AT32F423R8T7"),
  artery_chip_info.mk 0x700A21C7 128 1024 (some "AT32F423RBT7-7"),
  artery_chip_info.mk 0x700A21C4 128 1024 (some "AT32F423RBT7"),
  artery_chip_info.mk 0x700A3246 256 2048 (some "AT32F423RCT7-7"),
  artery_chip_info.mk 0x700A3243 256 2048 (some "AT32F423RCT7"),
  artery_chip_info.mk 0x70032112 64 1024 (some "AT32F423T8U7"),
  artery_chip_info.mk 0x700A21D1 128 1024 (some "AT32F423TBU7"),
  artery_chip_info.mk 0x700A3250 256 2048 (some "AT32F423TCU7"),
  artery_chip_info.mk 0x70032102 64 1024 (some "AT32F423V8T7"),
  artery_chip_info.mk 0x700A21C1 128 1024 (some "AT32F423VBT7"),
  artery_chip_info.mk 0x700A3240 256 2048 (some "AT32F423VCT7"),
  artery_chip_info.mk 0x50092087 32 1024 (some "AT32F425C6T7"),
  artery_chip_info.mk 0x5009208A 32 1024 (some "AT32F425C6U7"),
  artery_chip_info.mk 0x50092106 64 1024 (some "AT32F425C8T7"),
  artery_chip_info.mk 0x50092109 64 1024 (some "AT32F425C8U7"),
  artery_chip_info.mk 0x50092093 32 1024 (some "AT32F425F6P7"),
  artery_chip_info.mk 0x50092112 64 1024 (some "AT32F425F8P7"),
  artery_chip_info.mk 0x50092096 32 1024 (some "AT32F425G6U7"),
  artery_chip_info.mk 0x50092115 64 1024 (some "AT32F425G8U7"),
  artery_chip_info.mk 0x5009208D 32 1024 (some "AT32F425K6T7"),
  artery_chip_info.mk 0x50092090 32 1024 (some "AT32F425K6U7-4"),
  artery_chip_info.mk 0x5009210C 64 1024 (some "AT32F425K8T7"),
  artery_chip_info.mk 0x5009210F 64 1024 (some "AT32F425K8U7-4"),
  artery_chip_info.mk 0x50092084 32 1024 (some "AT32F425R6T7-7"),
  artery_chip_info.mk 0x50092081 32 1024 (some "AT32F425R6T7"),
  artery_chip_info.mk 0x50092103 64 1024 (some "AT32F425R8T7-7"),
  artery_chip_info.mk 0x50092100 64 1024 (some "AT32F425R8T7"),
  artery_chip_info.mk 0x7008449A 192 4096 (some "AT32F435CCT7-W"),
  artery_chip_info.mk 0x7008324B 256 2048 (some "AT32F435CCT7"),
  artery_chip_info.mk 0x7008449D 192 4096 (some "AT32F435CCU7-W"),
  artery_chip_info.mk 0x7008324E 256 2048 (some "AT32F435CCU7"),
  artery_chip_info.mk 0x700844D9 960 4096 (some "AT32F435CGT7-W"),
  artery_chip_info.mk 0x7008334A 1024 2048 (some "AT32F435CGT7"),
  artery_chip_info.mk 0x700844DC 960 4096 (some "AT32F435CGU7-W"),
  artery_chip_info.mk 0x7008334D 1024 2048 (some "AT32F435CGU7"),
  artery_chip_info.mk 0x70084558 4032 4096 (some "AT32F435CMT7-E"),
  artery_chip_info.mk 0x70084549 4032 4096 (some "AT32F435CMT7"),
  artery_chip_info.mk 0x7008455B 4032 4096 (some "AT32F435CMU7-E"),
  artery_chip_info.mk 0x7008454C 4032 4096 (some "AT32F435CMU7"),
  artery_chip_info.mk 0x70083248 256 2048 (some "AT32F435RCT7"),
  artery_chip_info.mk 0x70083347 1024 2048 (some "AT32F435RGT7"),
  artery_chip_info.mk 0x70084546 4032 4096 (some "AT32F435RMT7"),
  artery_chip_info.mk 0x70083245 256 2048 (some "AT32F435VCT7"),
  artery_chip_info.mk 0x70083344 1024 2048 (some "AT32F435VGT7"),
  artery_chip_info.mk 0x70084543 4032 4096 (some "AT32F435VMT7"),
  artery_chip_info.mk 0x70083242 256 2048 (some "AT32F435ZCT7"),
  artery_chip_info.mk 0x70083341 1024 2048 (some "AT32F435ZGT7"),
  artery_chip_info.mk 0x70084540 4032 4096 (some "AT32F435ZMT7"),
  artery_chip_info.mk 0x70083257 256 2048 (some "AT32F437RCT7"),
  artery_chip_info.mk 0x70083356 1024 2048 (some "AT32F437RGT7"),
  artery_chip_info.mk 0x70084555 4032 4096 (some "AT32F437RMT7"),
  artery_chip_info.mk 0x70083254 256 2048 (some "AT32F437VCT7"),
  artery_chip_info.mk 0x70083353 1024 2048 (some "AT32F437VGT7"),
  artery_chip_info.mk 0x70084552 4032 4096 (some "AT32F437VMT7"),
  artery_chip_info.mk 0x70083251 256 2048 (some "AT32F437ZCT7"),
  artery_chip_info.mk 0x70083350 1024 2048 (some "AT32F437ZGT7"),
  artery_chip_info.mk 0x7008454F 4032 4096 (some "AT32F437ZMT7"),
  artery_chip_info.mk 0x70030109 64 1024 (some "AT32FEBKC8T7"),
  artery_chip_info.mk 0x10012006 16 1024 (some "AT32L021C4T7"),
  artery_chip_info.mk 0x1001208D 32 1024 (some "AT32L021C6T7"),
  artery_chip_info.mk 0x10012114 64 1024 (some "AT32L021C8T7"),
  artery_chip_info.mk 0x10012001 16 1024 (some "AT32L021F4P7"),
  artery_chip_info.mk 0x10012002 16 1024 (some "AT32L021F4U7"),
  artery_chip_info.mk 0x10012088 32 1024 (some "AT32L021F6P7"),
  artery_chip_info.mk 0x10012089 32 1024 (some "AT32L021F6U7"),
  artery_chip_info.mk 0x1001210F 64 1024 (some "AT32L021F8P7"),
  artery_chip_info.mk 0x10012110 64 1024 (some "AT32L021F8U7"),
  artery_chip_info.mk 0x10012000 16 1024 (some "AT32L021G4U7"),
  artery_chip_info.mk 0x10012087 32 1024 (some "AT32L021G6U7"),
  artery_chip_info.mk 0x1001210E 64 1024 (some "AT32L021G8U7"),
  artery_chip_info.mk 0x10012005 16 1024 (some "AT32L021K4T7"),
  artery_chip_info.mk 0x10012003 16 1024 (some "AT32L021K4U7-4"),
  artery_chip_info.mk 0x10012004 16 1024 (some "AT32L021K4U7"),
  artery_chip_info.mk 0x1001208C 32 1024 (some "AT32L021K6T7"),
  artery_chip_info.mk 0x1001208A 32 1024 (some "AT32L021K6U7-4"),
  artery_chip_info.mk 0x1001208B 32 1024 (some "AT32L021K6U7"),
  artery_chip_info.mk 0x10012113 64 1024 (some "AT32L021K8T7"),
  artery_chip_info.mk 0x10012111 64 1024 (some "AT32L021K8U7-4"),
  artery_chip_info.mk 0x10012112 64 1024 (some "AT32L021K8U7"),
  artery_chip_info.mk 0x70030250 256 2048 (some "AT32WB415CCU7-7"),
  artery_chip_info.mk 0xF00301C2 128 1024 (some "KC9060"),
  artery_chip_info.mk 0 0 0 (none)
]

/-- The scan of `artery_find_chip_from_id` from a position of the table onwards. -/
def artery_find_chip_from_id_loop (id : Nat) : List artery_chip_info → Option artery_chip_info
  | [] => none
  | curr_chip :: rest =>
    if curr_chip.chip_id ≠ 0 ∨ curr_chip.chip_name ≠ none then
      if curr_chip.chip_id = id then some curr_chip
      else artery_find_chip_from_id_loop id rest
    else none

/-- Catalogue lookup; `none` is `ERROR_FAIL`, `some chip_info` is `ERROR_OK`. -/
def artery_find_chip_from_id (id : Nat) : Option artery_chip_info :=
  artery_find_chip_from_id_loop id known_artery_chips

def artery_guess_sector_size_from_flash_size (flash_size_kb : Int) : Int :=
  if Int.land flash_size_kb (flash_size_kb - 1) ≠ 0 then 4096
  else if flash_size_kb ≤ 128 then 1024
  else 2048

def artery_is_otp (bank : flash_bank) : Bool :=
  bank.base == OTP_BANK_BASE_ADDR

/-! ## Geometry resolver -/

/-- The sector table filled by the allocation loop of `artery_probe`. -/
def artery_probe_sectors (num_sectors sector_size : Nat) : List flash_sector :=
  (List.range num_sectors).map fun i =>
    flash_sector.mk ((i * sector_size) % 2 ^ 32) sector_size (-1) (-1)

/-- Result of a probe: code, the bank as the probe left it, accesses issued so far, and
the value of the local `sector_size` when the probe returned (`0` while it is unset). -/
structure ProbeResult where
  retval : Int
  bank : flash_bank
  trace : List Access
  sector_size : Nat
deriving DecidableEq, Repr

/-- The catalogue lookup and sector-size resolution of `artery_probe` ("look up chip id
in known chip db"); the pair is (`read_flash_size_in_kb`, `sector_size`). -/
def artery_probe_sector_size (device_id read_flash_size_in_kb : Nat) (flash_is_unknown : Bool) :
    Nat × Nat :=
  match artery_find_chip_from_id device_id with
  | some chip_info =>
    let read_flash_size_in_kb :=
      if flash_is_unknown then chip_info.flash_size_kB % 2 ^ 16 else read_flash_size_in_kb
    /- known flash size matches read flash size. Trust known sector size -/
    if read_flash_size_in_kb = chip_info.flash_size_kB then
      (read_flash_size_in_kb, chip_info.sector_size)
    /- Known flash size does not match read flash size. Guess sector size -/
    else
      (read_flash_size_in_kb,
        (artery_guess_sector_size_from_flash_size read_flash_size_in_kb).toNat % 2 ^ 32)
  /- Unknown chip. Guess sector size -/
  | none =>
    (read_flash_size_in_kb,
      (artery_guess_sector_size_from_flash_size read_flash_size_in_kb).toNat % 2 ^ 32)

/-- The base-address dispatch of `artery_probe`; the triple is (bank with base address
and register base settled, `sector_size`, `bank_size`), `none` is the unsupported base. -/
def artery_probe_geometry (bank : flash_bank) (read_flash_size_in_kb sector_size : Nat) :
    Option (flash_bank × Nat × Nat) :=
  if bank.base = OTP_BANK_BASE_ADDR then
    /- User area/option bytes -/
    let bank := { bank with driver_priv := { bank.driver_priv with flash_regs_base := EFC_BASE } }
    if read_flash_size_in_kb = 4032 ∨ read_flash_size_in_kb = 448 then
      some (bank, 4 <<< 10, 4 <<< 10)
    else
      /- for 1024K and 256K -/
      some (bank, 512, 512)
  else if bank.base = FLASH_BASE_ADDR then
    /- Bank 1 -/
    let bank := { bank with driver_priv := { bank.driver_priv with flash_regs_base := EFC_BASE } }
    if read_flash_size_in_kb = 4032 then
      some (bank, sector_size, 2048 <<< 10)
    else if read_flash_size_in_kb = 1024 then
      some (bank, sector_size, 512 <<< 10)
    else
      /- For 448K and 256K -/
      some (bank, sector_size, read_flash_size_in_kb)
  else if bank.base = FLASH_BASE_BANK2_4032K ∨ bank.base = FLASH_BASE_BANK2_1024K then
    /- Bank 2 -/
    let bank :=
      { bank with driver_priv := { bank.driver_priv with flash_regs_base := EFC_BASE_BANK2 } }
    if read_flash_size_in_kb = 4032 then
      let bank :=
        if bank.base ≠ FLASH_BASE_BANK2_4032K then
          { bank with base := FLASH_BASE_BANK2_4032K }
        else bank
      some (bank, sector_size, 1984 <<< 10)
    else if read_flash_size_in_kb = 1024 then
      let bank :=
        if bank.base ≠ FLASH_BASE_BANK2_1024K then
          { bank with base := FLASH_BASE_BANK2_1024K }
        else bank
      some (bank, sector_size, 512 <<< 10)
    else
      /- Chip has no second bank -/
      some (bank, sector_size, 0)
  else
    none

/-- The end of `artery_probe`: bank size, sector count, sector table, probed flag. -/
def artery_probe_finish (bank : flash_bank) (sector_size bank_size : Nat) : flash_bank :=
  let bank := { bank with size := bank_size }
  let bank : flash_bank :=
    if bank_size ≠ 0 then
      let num_sectors := bank_size / sector_size
      let bank := { bank with num_sectors := num_sectors }
      if num_sectors ≠ 0 then
        { bank with sectors := artery_probe_sectors num_sectors sector_size }
      else bank
    else bank
  { bank with driver_priv := { bank.driver_priv with probed := true } }

def artery_probe (tp : Transport) (bank : flash_bank) (tr : List Access) : ProbeResult :=
  let bank : flash_bank :=
    { bank with
      driver_priv := { bank.driver_priv with probed := false }
      num_sectors := 0
      sectors := []
      num_prot_blocks := 0
      prot_blocks := [] }
  if !bank.target.examined then
    ⟨ERROR_TARGET_NOT_EXAMINED, bank, tr, 0⟩
  else
    /- Read device ID -/
    let rd_id := target_read_u32 tp MCU_DEVICE_ID_ADDR tr
    let device_id := rd_id.value
    if rd_id.retval ≠ ERROR_OK then
      ⟨rd_id.retval, bank, rd_id.trace, 0⟩
    else
      /- get flash size from target. -/
      let rd_size := target_read_u16 tp FLASH_SIZE_ADDR rd_id.trace
      let tr := rd_size.trace
      let read_flash_size_in_kb := rd_size.value
      let flash_is_unknown : Bool :=
        rd_size.retval ≠ ERROR_OK || read_flash_size_in_kb == 0xffff || read_flash_size_in_kb == 0
      let sized := artery_probe_sector_size device_id read_flash_size_in_kb flash_is_unknown
      let read_flash_size_in_kb := sized.1
      let sector_size := sized.2
      let bank : flash_bank :=
        if bank.base = 0x0 then { bank with base := FLASH_BASE_ADDR } else bank
      match artery_probe_geometry bank read_flash_size_in_kb sector_size with
      | none => ⟨ERROR_FAIL, bank, tr, sector_size⟩
      | some (bank, sector_size, bank_size) =>
        ⟨ERROR_OK, artery_probe_finish bank sector_size bank_size, tr, sector_size⟩

def artery_auto_probe (tp : Transport) (bank : flash_bank) (tr : List Access) : ProbeResult :=
  if bank.driver_priv.probed then ⟨ERROR_OK, bank, tr, 0⟩
  else artery_probe tp bank tr

/-! ## Register access layer -/

def artery_get_flash_reg (bank : flash_bank) (reg_offset : Nat) : Nat :=
  (reg_offset + bank.driver_priv.flash_regs_base) % 2 ^ 32

def artery_read_flash_reg (tp : Transport) (bank : flash_bank) (reg_offset : Nat)
    (tr : List Access) : ReadResult :=
  let reg_addr := artery_get_flash_reg bank reg_offset
  target_read_u32 tp reg_addr tr

def artery_write_flash_reg (tp : Transport) (bank : flash_bank) (reg_offset value : Nat)
    (tr : List Access) : Result :=
  let reg_addr := artery_get_flash_reg bank reg_offset
  target_write_u32 tp reg_addr (value % 2 ^ 32) tr

/-! ## Unlock / lock -/

def artery_unlock_flash (tp : Transport) (bank : flash_bank) (tr : List Access) : Result :=
  let rd := artery_read_flash_reg tp bank EFC_CTRL_REG tr
  if rd.retval ≠ ERROR_OK then ⟨rd.retval, rd.trace⟩
  else if rd.value &&& EFC_LOCK_BIT = 0 then ⟨ERROR_OK, rd.trace⟩
  else
    /- unlock flash registers -/
    let w1 := artery_write_flash_reg tp bank EFC_FCKEY_REG EFC_KEY1 rd.trace
    if w1.retval ≠ ERROR_OK then w1
    else
      let w2 := artery_write_flash_reg tp bank EFC_FCKEY_REG EFC_KEY2 w1.trace
      if w2.retval ≠ ERROR_OK then w2
      else
        let rd2 := artery_read_flash_reg tp bank EFC_CTRL_REG w2.trace
        if rd2.retval ≠ ERROR_OK then ⟨rd2.retval, rd2.trace⟩
        else if rd2.value &&& EFC_LOCK_BIT ≠ 0 then ⟨ERROR_TARGET_FAILURE, rd2.trace⟩
        else ⟨ERROR_OK, rd2.trace⟩

/-- The `do ... while (timeout--)` poll of `artery_unlock_user`; the counter is the value
of `timeout` when the body is entered. -/
def artery_unlock_user_poll (tp : Transport) (bank : flash_bank) :
    Nat → List Access → Result
  | 0, tr =>
    let rd := artery_read_flash_reg tp bank EFC_CTRL_REG tr
    if rd.retval ≠ ERROR_OK then ⟨rd.retval, rd.trace⟩
    else if rd.value &&& EFC_USD_UNLOCK_BIT = EFC_USD_UNLOCK_BIT then ⟨ERROR_OK, rd.trace⟩
    else ⟨ERROR_TARGET_FAILURE, rd.trace⟩
  | timeout + 1, tr =>
    let rd := artery_read_flash_reg tp bank EFC_CTRL_REG tr
    if rd.retval ≠ ERROR_OK then ⟨rd.retval, rd.trace⟩
    else if rd.value &&& EFC_USD_UNLOCK_BIT = EFC_USD_UNLOCK_BIT then ⟨ERROR_OK, rd.trace⟩
    else artery_unlock_user_poll tp bank timeout rd.trace

def artery_unlock_user (tp : Transport) (bank : flash_bank) (tr : List Access) : Result :=
  let timeout := 1000
  let rd := artery_read_flash_reg tp bank EFC_CTRL_REG tr
  if rd.retval ≠ ERROR_OK then ⟨rd.retval, rd.trace⟩
  else if rd.value &&& EFC_USD_UNLOCK_BIT = EFC_USD_UNLOCK_BIT then ⟨ERROR_OK, rd.trace⟩
  else
    /- unlock flash registers -/
    let w1 := artery_write_flash_reg tp bank EFC_FCKEY_REG EFC_KEY1 rd.trace
    if w1.retval ≠ ERROR_OK then w1
    else
      let w2 := artery_write_flash_reg tp bank EFC_FCKEY_REG EFC_KEY2 w1.trace
      if w2.retval ≠ ERROR_OK then w2
      else
        /- unlock user area registers -/
        let w3 := artery_write_flash_reg tp bank EFC_USD_UNLOCK_REG EFC_KEY1 w2.trace
        if w3.retval ≠ ERROR_OK then w3
        else
          let w4 := artery_write_flash_reg tp bank EFC_USD_UNLOCK_REG EFC_KEY2 w3.trace
          if w4.retval ≠ ERROR_OK then w4
          else artery_unlock_user_poll tp bank timeout w4.trace

def artery_unlock (tp : Transport) (bank : flash_bank) (tr : List Access) : Result :=
  if artery_is_otp bank then artery_unlock_user tp bank tr
  else artery_unlock_flash tp bank tr

def artery_lock (tp : Transport) (bank : flash_bank) (tr : List Access) : Result :=
  if artery_is_otp bank then artery_write_flash_reg tp bank EFC_CTRL_REG 0 tr
  else artery_write_flash_reg tp bank EFC_CTRL_REG EFC_LOCK_BIT tr

/-! ## Status polls -/

/-- The `for (;;)` poll shared by both waits; the counter is `timeout` clipped at zero,
so `timeout-- <= 0` holds exactly when it is `0`.  A return from inside the loop carries
status `none`; a `break` carries the status word that was read. -/
def artery_wait_status_busy_loop (tp : Transport) (bank : flash_bank) :
    Nat → List Access → Result × Option Nat
  | 0, tr =>
    let rd := artery_read_flash_reg tp bank EFC_STS_REG tr
    if rd.retval ≠ ERROR_OK then (⟨rd.retval, rd.trace⟩, none)
    else if rd.value &&& EFC_BSY_BIT = 0 then (⟨rd.retval, rd.trace⟩, some rd.value)
    else (⟨ERROR_FAIL, rd.trace⟩, none)
  | timeout + 1, tr =>
    let rd := artery_read_flash_reg tp bank EFC_STS_REG tr
    if rd.retval ≠ ERROR_OK then (⟨rd.retval, rd.trace⟩, none)
    else if rd.value &&& EFC_BSY_BIT = 0 then (⟨rd.retval, rd.trace⟩, some rd.value)
    else artery_wait_status_busy_loop tp bank timeout (alive_sleep 1 rd.trace)

/-- Only wait while busy. -/
def artery_wait_status_busy (tp : Transport) (bank : flash_bank) (timeout : Int)
    (tr : List Access) : Result :=
  (artery_wait_status_busy_loop tp bank timeout.toNat tr).1

/-- Wait while busy and check STS for errors. -/
def artery_wait_status_busy_and_check (tp : Transport) (bank : flash_bank) (timeout : Int)
    (tr : List Access) : Result :=
  match artery_wait_status_busy_loop tp bank timeout.toNat tr with
  | (r, none) => r
  | (r, some status) =>
    let retval := r.retval
    let retval := if status &&& EFC_EPPERR_BIT ≠ 0 then ERROR_FAIL else retval
    /- Clear but report errors -/
    let retval := if status &&& EFC_PRGMERR_BIT ≠ 0 then ERROR_FAIL else retval
    ⟨retval, r.trace⟩

/-! ## Erase engine -/

def artery_mass_erase (tp : Transport) (bank : flash_bank) (tr : List Access) : Result :=
  if bank.target.state ≠ target_state.TARGET_HALTED then ⟨ERROR_TARGET_NOT_HALTED, tr⟩
  else if artery_is_otp bank then ⟨ERROR_FLASH_BANK_INVALID, tr⟩
  else
    let u := artery_unlock tp bank tr
    if u.retval ≠ ERROR_OK then u
    else
      /- Wait for flash not busy -/
      let w := artery_wait_status_busy tp bank FLASH_ERASE_TIMEOUT u.trace
      if w.retval ≠ ERROR_OK then w
      else
        /- Clear status register beforehand -/
        let c := artery_write_flash_reg tp bank EFC_STS_REG
          (EFC_PRCDN_BIT ||| EFC_PRGMERR_BIT ||| EFC_EPPERR_BIT) w.trace
        let m := artery_write_flash_reg tp bank EFC_CTRL_REG EFC_BANKERS_BIT c.trace
        if m.retval ≠ ERROR_OK then m
        else
          /- Set the RSTR bit in the FLASH_CTRLx register -/
          let s := artery_write_flash_reg tp bank EFC_CTRL_REG
            (EFC_BANKERS_BIT ||| EFC_RSTR_BIT) m.trace
          if s.retval ≠ ERROR_OK then s
          else
            /- Check operation status -/
            let k := artery_wait_status_busy_and_check tp bank FLASH_ERASE_TIMEOUT s.trace
            if k.retval ≠ ERROR_OK then k
            else
              /- Re-lock flash -/
              artery_lock tp bank k.trace

/-- The erase mode written to the control register for one sector. -/
def artery_erase_mode (bank : flash_bank) : Nat :=
  if artery_is_otp bank then EFC_USD_ERS_BIT ||| EFC_USD_UNLOCK_BIT else EFC_PGERS_BIT

/-- The register writes of one iteration of the sector loop of `artery_erase`, up to and
including the write that sets the RSTR bit. -/
def artery_erase_start (tp : Transport) (bank : flash_bank) (i : Nat) (tr : List Access) :
    Result :=
  /- Clear status register beforehand -/
  let c := artery_write_flash_reg tp bank EFC_STS_REG
    (EFC_PRCDN_BIT ||| EFC_PRGMERR_BIT ||| EFC_EPPERR_BIT) tr
  /- Set the PGERS or USDERS bit in the FLASH_CTRLx register -/
  let m := artery_write_flash_reg tp bank EFC_CTRL_REG (artery_erase_mode bank) c.trace
  if m.retval ≠ ERROR_OK then m
  else
    let a : Result :=
      if !artery_is_otp bank then
        /- Select the page to be erased with the FLASH_ADDRx register -/
        let eraseAddress := (bank.base + (bank.sectors.getD i default).offset) % 2 ^ 64
        artery_write_flash_reg tp bank EFC_ADDR_REG eraseAddress m.trace
      else ⟨ERROR_OK, m.trace⟩
    if a.retval ≠ ERROR_OK then a
    else
      /- Set the RSTR bit in the FLASH_CTRLx register -/
      artery_write_flash_reg tp bank EFC_CTRL_REG (artery_erase_mode bank ||| EFC_RSTR_BIT) a.trace

/-- The sector loop of `artery_erase`: the first argument is the number of indices left
in `[i, last]`.  A code other than `ERROR_OK` is a return from inside the loop. -/
def artery_erase_loop (tp : Transport) (bank : flash_bank) :
    Nat → Nat → List Access → Result
  | 0, _, tr => ⟨ERROR_OK, tr⟩
  | n + 1, i, tr =>
    let s := artery_erase_start tp bank i tr
    if s.retval ≠ ERROR_OK then s
    else
      /- Check operation status -/
      let k := artery_wait_status_busy_and_check tp bank FLASH_ERASE_TIMEOUT s.trace
      if k.retval ≠ ERROR_OK then k
      else artery_erase_loop tp bank n (i + 1) k.trace

/-- Sector erase over `[first, last]`; `none` is the failed `assert` on the range. -/
def artery_erase (tp : Transport) (bank : flash_bank) (first last : Nat) (tr : List Access) :
    Option Result :=
  if ¬ (first ≤ last ∧ last < bank.num_sectors) then none
  else if bank.target.state ≠ target_state.TARGET_HALTED then some ⟨ERROR_TARGET_NOT_HALTED, tr⟩
  else
    let u := artery_unlock tp bank tr
    if u.retval ≠ ERROR_OK then some u
    else
      /- Wait for flash not busy -/
      let w := artery_wait_status_busy tp bank FLASH_ERASE_TIMEOUT u.trace
      if w.retval ≠ ERROR_OK then some w
      else
        let l := artery_erase_loop tp bank (last + 1 - first) first w.trace
        if l.retval ≠ ERROR_OK then some l
        else
          /- Re-lock flash -/
          some (artery_lock tp bank l.trace)

/-! ## Write engine

The write loops compare 32-bit counters against `count - 1` and `count - 3`, which wrap
for small `count`; they are therefore run with a bound on the number of iterations of
each loop.  `retval = none` means the bound was reached before the function returned. -/

/-- How a bounded loop ended: it ran to its exit test, it returned from inside the body,
or it used up its iteration bound. -/
inductive LoopExit
  | done (bytes_written write_address : Nat) (trace : List Access)
  | ret (retval : Int) (trace : List Access)
  | out_of_fuel (trace : List Access)
deriving DecidableEq, Repr

/-- Result of a bounded run: `none` when the iteration bound was reached. -/
structure Run where
  retval : Option Int
  trace : List Access
deriving DecidableEq, Repr

/-- The halfword loop of `artery_write_user`.  `data` counts the halfwords the pointer
`data` has advanced over the buffer; the host reads `*data` little-endian. -/
def artery_write_user_loop (tp : Transport) (bank : flash_bank) (buffer : List Nat)
    (count : Nat) : Nat → Nat → Nat → Nat → List Access → LoopExit
  | 0, bytes_written, write_address, _, tr =>
    if bytes_written < (count + 2 ^ 32 - 1) % 2 ^ 32 then LoopExit.out_of_fuel tr
    else LoopExit.done bytes_written write_address tr
  | fuel + 1, bytes_written, write_address, data, tr =>
    if bytes_written < (count + 2 ^ 32 - 1) % 2 ^ 32 then
      /- Set the PRGM bit = 1 in FLASH_CTRL, keep USD unlock -/
      let c := artery_write_flash_reg tp bank EFC_CTRL_REG
        (EFC_USD_PRGM_BIT ||| EFC_USD_UNLOCK_BIT) tr
      if c.retval ≠ ERROR_OK then LoopExit.ret c.retval c.trace
      else
        /- Write word to flash -/
        let w := target_write_u16 tp write_address
          (buffer.getD (2 * data) 0 + 256 * buffer.getD (2 * data + 1) 0) c.trace
        if w.retval ≠ ERROR_OK then LoopExit.ret w.retval w.trace
        else
          /- Check operation status -/
          let k := artery_wait_status_busy_and_check tp bank FLASH_WRITE_TIMEOUT w.trace
          if k.retval ≠ ERROR_OK then LoopExit.ret k.retval k.trace
          else
            artery_write_user_loop tp bank buffer count fuel
              ((bytes_written + 2) % 2 ^ 32) ((write_address + 2) % 2 ^ 64) (data + 1) k.trace
    else LoopExit.done bytes_written write_address tr

def artery_write_user (fuel : Nat) (tp : Transport) (bank : flash_bank) (buffer : List Nat)
    (offset count : Nat) (tr : List Access) : Run :=
  let write_address := (bank.base + offset) % 2 ^ 64
  let bytes_written := 0
  let data := 0
  if bank.target.state ≠ target_state.TARGET_HALTED then ⟨some ERROR_TARGET_NOT_HALTED, tr⟩
  else
    let u := artery_unlock tp bank tr
    if u.retval ≠ ERROR_OK then ⟨some u.retval, u.trace⟩
    else if offset &&& 0x01 ≠ 0 ∨ count &&& 0x01 ≠ 0 then
      ⟨some ERROR_TARGET_UNALIGNED_ACCESS, u.trace⟩
    else
      /- Clear status register beforehand -/
      let c := artery_write_flash_reg tp bank EFC_STS_REG
        (EFC_PRCDN_BIT ||| EFC_PRGMERR_BIT ||| EFC_EPPERR_BIT) u.trace
      /- First write half-word by half-word, as it provides the highest write speed -/
      match artery_write_user_loop tp bank buffer count fuel bytes_written write_address data
          c.trace with
      | LoopExit.ret retval t => ⟨some retval, t⟩
      | LoopExit.out_of_fuel t => ⟨none, t⟩
      | LoopExit.done _ _ t =>
        /- Re-lock flash -/
        let l := artery_lock tp bank t
        ⟨some l.retval, l.trace⟩

/-- One single-byte programming unit of `artery_write`: program bit, byte, checked wait. -/
def artery_write_byte (tp : Transport) (bank : flash_bank) (buffer : List Nat)
    (bytes_written write_address : Nat) (tr : List Access) : Result :=
  /- Set the PRGM bit = 1 in FLASH_CTRL -/
  let c := artery_write_flash_reg tp bank EFC_CTRL_REG EFC_PRGM_BIT tr
  if c.retval ≠ ERROR_OK then c
  else
    /- Write byte to flash -/
    let w := target_write_u8 tp write_address (buffer.getD bytes_written 0) c.trace
    if w.retval ≠ ERROR_OK then w
    else
      /- Check operation status -/
      artery_wait_status_busy_and_check tp bank FLASH_WRITE_TIMEOUT w.trace

/-- One four-byte programming unit of `artery_write`: program bit, one 4-byte transfer
from `buffer + bytes_written`, checked wait. -/
def artery_write_word (tp : Transport) (bank : flash_bank) (buffer : List Nat)
    (bytes_written write_address : Nat) (tr : List Access) : Result :=
  /- Set the PRGM bit = 1 in FLASH_CTRL -/
  let c := artery_write_flash_reg tp bank EFC_CTRL_REG EFC_PRGM_BIT tr
  if c.retval ≠ ERROR_OK then c
  else
    /- Write word to flash -/
    let w := target_write_memory tp write_address 4 1
      ((buffer.drop bytes_written).take 4) c.trace
    if w.retval ≠ ERROR_OK then w
    else
      /- Check operation status -/
      artery_wait_status_busy_and_check tp bank FLASH_WRITE_TIMEOUT w.trace

/-- Write byte by byte until we align to a word. -/
def artery_write_lead_loop (tp : Transport) (bank : flash_bank) (buffer : List Nat)
    (count : Nat) : Nat → Nat → Nat → List Access → LoopExit
  | 0, bytes_written, write_address, tr =>
    if bytes_written < count ∧ write_address &&& 0x03 ≠ 0 then LoopExit.out_of_fuel tr
    else LoopExit.done bytes_written write_address tr
  | fuel + 1, bytes_written, write_address, tr =>
    if bytes_written < count ∧ write_address &&& 0x03 ≠ 0 then
      let r := artery_write_byte tp bank buffer bytes_written write_address tr
      if r.retval ≠ ERROR_OK then LoopExit.ret r.retval r.trace
      else
        artery_write_lead_loop tp bank buffer count fuel
          ((bytes_written + 1) % 2 ^ 32) ((write_address + 1) % 2 ^ 64) r.trace
    else LoopExit.done bytes_written write_address tr

/-- First write word by word, as it provides the highest write speed. -/
def artery_write_word_loop (tp : Transport) (bank : flash_bank) (buffer : List Nat)
    (count : Nat) : Nat → Nat → Nat → List Access → LoopExit
  | 0, bytes_written, write_address, tr =>
    if bytes_written < (count + 2 ^ 32 - 3) % 2 ^ 32 then LoopExit.out_of_fuel tr
    else LoopExit.done bytes_written write_address tr
  | fuel + 1, bytes_written, write_address, tr =>
    if bytes_written < (count + 2 ^ 32 - 3) % 2 ^ 32 then
      let r := artery_write_word tp bank buffer bytes_written write_address tr
      if r.retval ≠ ERROR_OK then LoopExit.ret r.retval r.trace
      else
        artery_write_word_loop tp bank buffer count fuel
          ((bytes_written + 4) % 2 ^ 32) ((write_address + 4) % 2 ^ 64) r.trace
    else LoopExit.done bytes_written write_address tr

/-- Write potential last bytes. -/
def artery_write_tail_loop (tp : Transport) (bank : flash_bank) (buffer : List Nat)
    (count : Nat) : Nat → Nat → Nat → List Access → LoopExit
  | 0, bytes_written, write_address, tr =>
    if bytes_written < count then LoopExit.out_of_fuel tr
    else LoopExit.done bytes_written write_address tr
  | fuel + 1, bytes_written, write_address, tr =>
    if bytes_written < count then
      let r := artery_write_byte tp bank buffer bytes_written write_address tr
      if r.retval ≠ ERROR_OK then LoopExit.ret r.retval r.trace
      else
        artery_write_tail_loop tp bank buffer count fuel
          ((bytes_written + 1) % 2 ^ 32) ((write_address + 1) % 2 ^ 64) r.trace
    else LoopExit.done bytes_written write_address tr

/-- The driver's write entry point; `count` is a 32-bit value, `fuel` bounds the number
of iterations of each loop. -/
def artery_write (fuel : Nat) (tp : Transport) (bank : flash_bank) (buffer : List Nat)
    (offset count : Nat) (tr : List Access) : Run :=
  let write_address := (bank.base + offset) % 2 ^ 64
  let bytes_written := 0
  if artery_is_otp bank then artery_write_user fuel tp bank buffer offset count tr
  else if bank.target.state ≠ target_state.TARGET_HALTED then
    ⟨some ERROR_TARGET_NOT_HALTED, tr⟩
  else
    let u := artery_unlock tp bank tr
    if u.retval ≠ ERROR_OK then ⟨some u.retval, u.trace⟩
    else
      match artery_write_lead_loop tp bank buffer count fuel bytes_written write_address
          u.trace with
      | LoopExit.ret retval t => ⟨some retval, t⟩
      | LoopExit.out_of_fuel t => ⟨none, t⟩
      | LoopExit.done bytes_written write_address t =>
        match artery_write_word_loop tp bank buffer count fuel bytes_written write_address
            t with
        | LoopExit.ret retval t => ⟨some retval, t⟩
        | LoopExit.out_of_fuel t => ⟨none, t⟩
        | LoopExit.done bytes_written write_address t =>
          match artery_write_tail_loop tp bank buffer count fuel bytes_written write_address
              t with
          | LoopExit.ret retval t => ⟨some retval, t⟩
          | LoopExit.out_of_fuel t => ⟨none, t⟩
          | LoopExit.done _ _ t =>
            /- Re-lock flash -/
            let l := artery_lock tp bank t
            ⟨some l.retval, l.trace⟩

/-! ## Specification-side definitions and scenario inputs -/

/-- The end-of-table marker: zero id and no name (the negated loop condition of
`artery_find_chip_from_id`). -/
def is_sentinel (c : artery_chip_info) : Bool :=
  c.chip_id == 0 && c.chip_name.isNone

/-- A transport on which every access succeeds, the device-id register reads `id`, the
flash-size register reads `size_kb`, and every other read yields zero (control register
unlocked, status register idle without error flags). -/
def scenario_transport (id size_kb : Nat) : Transport := fun _ a =>
  match a with
  | Access.read_u32 address =>
    if address = MCU_DEVICE_ID_ADDR then ⟨ERROR_OK, id⟩ else ⟨ERROR_OK, 0⟩
  | Access.read_u16 _ => ⟨ERROR_OK, size_kb⟩
  | _ => ⟨ERROR_OK, 0⟩

/-- A freshly configured bank at `base` on an examined, halted target. -/
def scenario_bank (base : Nat) : flash_bank :=
  ⟨⟨true, target_state.TARGET_HALTED⟩, ⟨false, 0⟩, base, 0, 0, [], 0, []⟩

/-- A transport on which every access succeeds, the control register of the primary
controller block reads `ctrl`, and every other read yields zero. -/
def scenario_transport_ctrl (ctrl : Nat) : Transport := fun _ a =>
  match a with
  | Access.read_u32 address =>
    if address = EFC_BASE + EFC_CTRL_REG then ⟨ERROR_OK, ctrl⟩ else ⟨ERROR_OK, 0⟩
  | _ => ⟨ERROR_OK, 0⟩

/-- A transport on which every access succeeds and every read yields zero, except that
the status register of the primary controller block shows the protection-error flag once
`n` accesses have been issued. -/
def scenario_transport_sts_error (n : Nat) : Transport := fun h a =>
  match a with
  | Access.read_u32 address =>
    if address = EFC_BASE + EFC_STS_REG ∧ n ≤ h.length then ⟨ERROR_OK, EFC_EPPERR_BIT⟩
    else ⟨ERROR_OK, 0⟩
  | _ => ⟨ERROR_OK, 0⟩

/-- A probed main bank 1 of four 1024-byte sectors on an examined, halted target. -/
def scenario_bank_main : flash_bank :=
  ⟨⟨true, target_state.TARGET_HALTED⟩, ⟨true, EFC_BASE⟩, FLASH_BASE_ADDR, 4096, 4,
    artery_probe_sectors 4 1024, 0, []⟩

/-- A probed option-area bank of one 512-byte sector on an examined, halted target. -/
def scenario_bank_otp : flash_bank :=
  ⟨⟨true, target_state.TARGET_HALTED⟩, ⟨true, EFC_BASE⟩, OTP_BANK_BASE_ADDR, 512, 1,
    artery_probe_sectors 1 512, 0, []⟩

/-- Every transport access succeeds. -/
def TransportSucceeds (tp : Transport) : Prop :=
  ∀ (h : List Access) (a : Access), (tp h a).retval = ERROR_OK

/-- Every read of the bank's status register shows it idle and free of error flags:
busy, protection-error and program-error bits are all clear. -/
def StatusIdle (tp : Transport) (bank : flash_bank) : Prop :=
  ∀ h : List Access,
    ((tp h (Access.read_u32 (artery_get_flash_reg bank EFC_STS_REG))).value % 2 ^ 32)
      &&& (EFC_BSY_BIT ||| EFC_PRGMERR_BIT ||| EFC_EPPERR_BIT) = 0

/-- The accesses of one four-byte programming unit on an idle controller: the program
bit is written to the control register, then the bytes of the buffer from
`bytes_written` on go to `write_address` in one transfer of element size 4 and count 1,
then the checked wait reads the status register once. -/
def write_word_accesses (bank : flash_bank) (buffer : List Nat)
    (bytes_written write_address : Nat) : List Access :=
  [Access.write_u32 (artery_get_flash_reg bank EFC_CTRL_REG) EFC_PRGM_BIT,
    Access.write_memory write_address 4 1 ((buffer.drop bytes_written).take 4),
    Access.read_u32 (artery_get_flash_reg bank EFC_STS_REG)]

/-- The number of leading single-byte writes for a start address `a`. -/
def write_lead (a : Nat) : Nat := (4 - a % 4) % 4

/-- The bank as `artery_probe` leaves it after its opening statements: probed flag
cleared, sector table and protection blocks discarded. -/
def probe_reset (bank : flash_bank) : flash_bank :=
  { bank with
    driver_priv := { bank.driver_priv with probed := false }
    num_sectors := 0
    sectors := []
    num_prot_blocks := 0
    prot_blocks := [] }

/-- The part of `artery_probe` that follows the sector-size resolution, as a function of
the flash size and sector size it resolved: base default, base-address dispatch, sector
table. -/
def probe_resolve (bank : flash_bank) (read_flash_size_in_kb sector_size : Nat)
    (tr : List Access) : ProbeResult :=
  let bank : flash_bank :=
    if bank.base = 0x0 then { bank with base := FLASH_BASE_ADDR } else bank
  match artery_probe_geometry bank read_flash_size_in_kb sector_size with
  | none => ⟨ERROR_FAIL, bank, tr, sector_size⟩
  | some (bank, sector_size, bank_size) =>
    ⟨ERROR_OK, artery_probe_finish bank sector_size bank_size, tr, sector_size⟩

/-- The flag `flash_is_unknown` of `artery_probe` for a reply to the flash-size read. -/
def probe_flash_is_unknown (reply : Reply) : Bool :=
  reply.retval ≠ ERROR_OK || reply.value % 2 ^ 16 == 0xffff || reply.value % 2 ^ 16 == 0

/-- A probed bank of four sectors configured at a base address the driver does not
support. -/
def scenario_bank_unsupported : flash_bank :=
  { scenario_bank_main with base := 0x20000000 }

/-- The probed main bank 1 on a target that is running, not halted. -/
def scenario_bank_running : flash_bank :=
  { scenario_bank_main with target := ⟨true, target_state.TARGET_RUNNING⟩ }

/-- The probed option-area bank on a target that is running, not halted. -/
def scenario_bank_otp_running : flash_bank :=
  { scenario_bank_otp with target := ⟨true, target_state.TARGET_RUNNING⟩ }

/-- The transport's reply to the device-id read of a probe started after `tr`. -/
def probe_id_reply (tp : Transport) (tr : List Access) : Reply :=
  tp tr (Access.read_u32 MCU_DEVICE_ID_ADDR)

/-- The transport's reply to the flash-size read of a probe started after `tr`. -/
def probe_size_reply (tp : Transport) (tr : List Access) : Reply :=
  tp (tr ++ [Access.read_u32 MCU_DEVICE_ID_ADDR]) (Access.read_u16 FLASH_SIZE_ADDR)

/-- The device id a probe started after `tr` reads (a 32-bit value). -/
def probe_device_id (tp : Transport) (tr : List Access) : Nat :=
  (probe_id_reply tp tr).value % 2 ^ 32

/-- The 16-bit value the flash-size read of a probe started after `tr` leaves in
`read_flash_size_in_kb`. -/
def probe_read_size (tp : Transport) (tr : List Access) : Nat :=
  (probe_size_reply tp tr).value % 2 ^ 16

/-- The flash size in kB a probe started after `tr` works with once the catalogue has
been consulted: the final value of `read_flash_size_in_kb`. -/
def probe_flash_size (tp : Transport) (tr : List Access) : Nat :=
  (artery_probe_sector_size (probe_device_id tp tr) (probe_read_size tp tr)
    (probe_flash_is_unknown (probe_size_reply tp tr))).1

/-- The sector size a probe started after `tr` resolves from catalogue and heuristic,
before the base-address dispatch. -/
def probe_sector_size (tp : Transport) (tr : List Access) : Nat :=
  (artery_probe_sector_size (probe_device_id tp tr) (probe_read_size tp tr)
    (probe_flash_is_unknown (probe_size_reply tp tr))).2

/-- The accesses of one halfword programming unit of the option-area write on an idle
controller: user-program plus user-unlock bits (`0x210`) are written to the control
register, then halfword `data` of the buffer (little-endian) goes to `write_address`,
then the checked wait reads the status register once. -/
def write_halfword_accesses (bank : flash_bank) (buffer : List Nat)
    (data write_address : Nat) : List Access :=
  [Access.write_u32 (artery_get_flash_reg bank EFC_CTRL_REG) 0x210,
    Access.write_u16 write_address
      (buffer.getD (2 * data) 0 + 256 * buffer.getD (2 * data + 1) 0),
    Access.read_u32 (artery_get_flash_reg bank EFC_STS_REG)]

/-- The accesses of `n` consecutive halfword units: unit `j` programs halfword `data + j`
of the buffer at address `write_address + 2 * j` (modulo `2 ^ 64`). -/
def write_halfwords_accesses (bank : flash_bank) (buffer : List Nat)
    (data write_address n : Nat) : List Access :=
  ((List.range n).map fun j =>
    write_halfword_accesses bank buffer (data + j) ((write_address + 2 * j) % 2 ^ 64)).flatten

/-- A transport on which exactly the access `bad` fails, with `ERROR_FAIL`, whenever it
is issued; every other access succeeds and every read yields zero. -/
def scenario_transport_failing (bad : Access) : Transport := fun _ a =>
  if a = bad then ⟨ERROR_FAIL, 0⟩ else ⟨ERROR_OK, 0⟩

/-- The write that clears the three status flags: `0x34` to the bank's status
register. -/
def status_clear (bank : flash_bank) : Access :=
  Access.write_u32 (artery_get_flash_reg bank EFC_STS_REG) 0x34

/-- An access whose failure the driver must act on: any transport access except the
status-flag clear write (an `alive_sleep` is not a transport access). -/
def Checked (bank : flash_bank) (a : Access) : Prop :=
  a ≠ status_clear bank ∧ ∀ ms, a ≠ Access.alive_sleep ms

/-- The run from `tr0` to `tr1` with result `retval` stops at the first failed access:
`tr1` extends `tr0`, and any checked access issued after `tr0` on which the transport
reports a failure is the last access of the run, its code being the result. -/
def FailStop (tp : Transport) (bank : flash_bank) (tr0 : List Access) (retval : Option Int)
    (tr1 : List Access) : Prop :=
  ∃ ext, tr1 = tr0 ++ ext ∧
    ∀ pre a post, ext = pre ++ a :: post → Checked bank a →
      (tp (tr0 ++ pre) a).retval ≠ ERROR_OK →
      post = [] ∧ retval = some (tp (tr0 ++ pre) a).retval

/-- Fail-stop reading of the exit of a bounded loop started at trace `tr`: a return from
the body carries its code; the other exits saw no failed checked access. -/
def LoopFailStop (tp : Transport) (bank : flash_bank) (tr : List Access) : LoopExit → Prop
  | LoopExit.ret rv t => FailStop tp bank tr (some rv) t
  | LoopExit.out_of_fuel t => FailStop tp bank tr (some ERROR_OK) t
  | LoopExit.done _ _ t => FailStop tp bank tr (some ERROR_OK) t

/-- The read of the bank's status register. -/
def status_read (bank : flash_bank) : Access :=
  Access.read_u32 (artery_get_flash_reg bank EFC_STS_REG)

/-- The read of the bank's control register. -/
def ctrl_read (bank : flash_bank) : Access :=
  Access.read_u32 (artery_get_flash_reg bank EFC_CTRL_REG)

/-- A write of `value` to the bank's control register. -/
def ctrl_write (bank : flash_bank) (value : Nat) : Access :=
  Access.write_u32 (artery_get_flash_reg bank EFC_CTRL_REG) value

/-- The accesses of `k` busy rounds of a wait: each round is one status read followed by
the one-millisecond sleep. -/
def wait_rounds (bank : flash_bank) (k : Nat) : List Access :=
  (List.replicate k [status_read bank, Access.alive_sleep 1]).flatten

/-- The status read number `k` (counting from 0) of a wait started at trace `tr`: it is
issued after `k` busy rounds. -/
def wait_read (tp : Transport) (bank : flash_bank) (tr : List Access) (k : Nat) :
    ReadResult :=
  artery_read_flash_reg tp bank EFC_STS_REG (tr ++ wait_rounds bank k)

/-- Status read number `k` of the wait succeeds and shows the busy bit set. -/
def wait_read_busy (tp : Transport) (bank : flash_bank) (tr : List Access) (k : Nat) :
    Prop :=
  (wait_read tp bank tr k).retval = ERROR_OK ∧
    (wait_read tp bank tr k).value &&& EFC_BSY_BIT ≠ 0

/-- Status read number `k` of the wait succeeds and shows the busy bit clear. -/
def wait_read_idle (tp : Transport) (bank : flash_bank) (tr : List Access) (k : Nat) :
    Prop :=
  (wait_read tp bank tr k).retval = ERROR_OK ∧
    (wait_read tp bank tr k).value &&& EFC_BSY_BIT = 0

instance (tp : Transport) (bank : flash_bank) (tr : List Access) (k : Nat) :
    Decidable (wait_read_busy tp bank tr k) := by
  unfold wait_read_busy
  exact inferInstance

instance (tp : Transport) (bank : flash_bank) (tr : List Access) (k : Nat) :
    Decidable (wait_read_idle tp bank tr k) := by
  unfold wait_read_idle
  exact inferInstance

/-- A transport on which every access succeeds and every read yields zero, except that
the status register of the primary controller block shows busy on the `n` status reads
that follow the first one. -/
def scenario_transport_busy (n : Nat) : Transport := fun h a =>
  if a = Access.read_u32 (EFC_BASE + EFC_STS_REG) ∧ 1 ≤ h.count a ∧ h.count a ≤ n then
    ⟨ERROR_OK, EFC_BSY_BIT⟩
  else ⟨ERROR_OK, 0⟩

/-- The value of the last status read of a wait that ended with trace `trace`: the read
is the last access of the trace, so it was answered on the trace without it. -/
def last_status (tp : Transport) (bank : flash_bank) (trace : List Access) : Nat :=
  (artery_read_flash_reg tp bank EFC_STS_REG trace.dropLast).value

/-- Modelled from the spec: `wait_not_busy_and_check` runs the same polling loop as
`wait_not_busy`, then, after busy clears, inspects the protection-violation flag and the
program-error flag of the status it read; either flag is a failure. -/
def wait_not_busy_and_check (tp : Transport) (bank : flash_bank) (timeout : Int)
    (tr : List Access) : Result :=
  let w := artery_wait_status_busy tp bank timeout tr
  if w.retval ≠ ERROR_OK then w
  else if last_status tp bank w.trace &&& EFC_EPPERR_BIT ≠ 0 then ⟨ERROR_FAIL, w.trace⟩
  else if last_status tp bank w.trace &&& EFC_PRGMERR_BIT ≠ 0 then ⟨ERROR_FAIL, w.trace⟩
  else w

/-- The write that re-locks the bank: `0` to the control register for the option area,
the lock bit (`0x80`) for a main bank. -/
def lock_write (bank : flash_bank) : Access :=
  ctrl_write bank (if bank.base = OTP_BANK_BASE_ADDR then 0 else 0x80)

/-- The register writes that start the erase of sector `i`: status-flag clear, erase
mode, (main banks only) the sector's address truncated to the register width, erase mode
plus start bit.  The mode is the page-erase bit `0x02` for a main bank and user-erase
plus user-unlock `0x220` for the option area. -/
def erase_start_accesses (bank : flash_bank) (i : Nat) : List Access :=
  if bank.base = OTP_BANK_BASE_ADDR then
    [status_clear bank, ctrl_write bank 0x220, ctrl_write bank 0x260]
  else
    [status_clear bank, ctrl_write bank 0x02,
      Access.write_u32 (artery_get_flash_reg bank EFC_ADDR_REG)
        ((bank.base + (bank.sectors.getD i default).offset) % 2 ^ 32),
      ctrl_write bank 0x42]

/-- The accesses of the erase of sector `i` on an idle controller: the start writes, then
the checked wait reads the status register once. -/
def erase_sector_accesses (bank : flash_bank) (i : Nat) : List Access :=
  erase_start_accesses bank i ++ [status_read bank]

/-- The accesses of the erase of the `n` sectors `first, first + 1, ...` in increasing
order. -/
def erase_accesses (bank : flash_bank) (first n : Nat) : List Access :=
  ((List.range n).map fun j => erase_sector_accesses bank (first + j)).flatten

/-- A write of `value` to the bank's key register, at register base + `0x04`. -/
def key_write (bank : flash_bank) (value : Nat) : Access :=
  Access.write_u32 ((bank.driver_priv.flash_regs_base + 0x04) % 2 ^ 32) value

/-- A write of `value` to the bank's user-unlock register, at register base + `0x08`. -/
def usd_unlock_write (bank : flash_bank) (value : Nat) : Access :=
  Access.write_u32 ((bank.driver_priv.flash_regs_base + 0x08) % 2 ^ 32) value

/-- The accesses of the option-area unlock before it polls: the first control-register
read, key1 then key2 to the key register, key1 then key2 to the user-unlock register. -/
def unlock_user_writes (bank : flash_bank) : List Access :=
  [ctrl_read bank, key_write bank 0x45670123, key_write bank 0xCDEF89AB,
    usd_unlock_write bank 0x45670123, usd_unlock_write bank 0xCDEF89AB]

/-- The control-register read number `k` (counting from 0) of a poll started at trace
`tr`: it is issued after `k` reads that did not end the poll. -/
def poll_read (tp : Transport) (bank : flash_bank) (tr : List Access) (k : Nat) :
    ReadResult :=
  artery_read_flash_reg tp bank EFC_CTRL_REG (tr ++ List.replicate k (ctrl_read bank))

/-- A transport on which every access succeeds and every read yields zero, except that
the control register of the primary controller block shows the user-unlock bit once `m`
accesses have been issued. -/
def scenario_transport_ctrl_after (m : Nat) : Transport := fun h a =>
  match a with
  | Access.read_u32 address =>
    if address = EFC_BASE + EFC_CTRL_REG ∧ m ≤ h.length then ⟨ERROR_OK, EFC_USD_UNLOCK_BIT⟩
    else ⟨ERROR_OK, 0⟩
  | _ => ⟨ERROR_OK, 0⟩

/-- The accesses added to trace `tr0` to reach `tr1` do not include the bank's lock
write. -/
def NoLockWrite (bank : flash_bank) (tr0 tr1 : List Access) : Prop :=
  ∃ ext, tr1 = tr0 ++ ext ∧ lock_write bank ∉ ext

theorem find_loop_append_sentinel (id : Nat) (s : artery_chip_info) (hs : is_sentinel s = true) :
    ∀ l : List artery_chip_info, (∀ c ∈ l, is_sentinel c = false) →
      artery_find_chip_from_id_loop id (l ++ [s]) = l.find? (fun c => c.chip_id == id) := by
  intro l
  induction l with
  | nil =>
    intro _
    have h0 : s.chip_id = 0 ∧ s.chip_name = none := by
      simpa [is_sentinel, Option.isNone_iff_eq_none] using hs
    simp [artery_find_chip_from_id_loop, h0.1, h0.2]
  | cons c l ih =>
    intro hl
    have hc : is_sentinel c = false := hl c (List.mem_cons_self c l)
    have hc2 : c.chip_id ≠ 0 ∨ c.chip_name ≠ none := by
      by_contra hcon
      push_neg at hcon
      simp [is_sentinel, hcon.1, hcon.2] at hc
    have ih2 := ih (fun d hd => hl d (List.mem_cons_of_mem c hd))
    simp only [List.cons_append, artery_find_chip_from_id_loop, if_pos hc2]
    by_cases hid : c.chip_id = id
    · simp [hid, List.find?_cons]
    · simp [hid, List.find?_cons, ih2]

set_option maxRecDepth 100000 in
theorem known_artery_chips_split :
    known_artery_chips =
      known_artery_chips.filter (fun c => !is_sentinel c) ++ [artery_chip_info.mk 0 0 0 none] := by
  decide

theorem find_chip_eq_find (id : Nat) :
    artery_find_chip_from_id id =
      (known_artery_chips.filter (fun c => !is_sentinel c)).find? (fun c => c.chip_id == id) := by
  unfold artery_find_chip_from_id
  conv_lhs => rw [known_artery_chips_split]
  apply find_loop_append_sentinel id _ (by decide)
  intro c hc
  simpa using (List.mem_filter.mp hc).2

set_option maxRecDepth 100000 in
/-- C3: for every id, `artery_find_chip_from_id` yields the first record, in table order,
among the non-sentinel records of `known_artery_chips` whose `chip_id` is `id`; it
succeeds exactly when such a record exists.  Id `0x70030109` yields "AT32F415C8T7" (not
the later alias "AT32FEBKC8T7"); ids `0` and `0xDEADBEEF` fail. -/
theorem C3_find_chip_first_match :
    (∀ id : Nat, artery_find_chip_from_id id =
      (known_artery_chips.filter (fun c => !is_sentinel c)).find? (fun c => c.chip_id == id)) ∧
    (∀ id : Nat, (artery_find_chip_from_id id).isSome = true ↔
      ∃ c ∈ known_artery_chips, is_sentinel c = false ∧ c.chip_id = id) ∧
    artery_find_chip_from_id 0x70030109 =
      some (artery_chip_info.mk 0x70030109 64 1024 (some "AT32F415C8T7")) ∧
    artery_chip_info.mk 0x70030109 64 1024 (some "AT32FEBKC8T7") ∈ known_artery_chips ∧
    artery_find_chip_from_id 0 = none ∧
    artery_find_chip_from_id 0xDEADBEEF = none := by
  refine ⟨find_chip_eq_find, ?_, by decide, by decide, by decide, by decide⟩
  intro id
  rw [find_chip_eq_find, List.find?_isSome]
  constructor
  · rintro ⟨c, hc, hid⟩
    have := List.mem_filter.mp hc
    exact ⟨c, this.1, by simpa using this.2, by simpa using hid⟩
  · rintro ⟨c, hc, hs, hid⟩
    exact ⟨c, List.mem_filter.mpr ⟨hc, by simp [hs]⟩, by simp [hid]⟩

/-! ### Sector-size heuristic -/

theorem land_zero_negOne : Int.land 0 (0 - 1) = 0 := by
  show ((Nat.ldiff 0 0 : Nat) : Int) = 0
  simp [Nat.ldiff]

theorem land_cast_pred (n : Nat) (h : 0 < n) :
    Int.land (n : Int) ((n : Int) - 1) = ((n &&& (n - 1) : Nat) : Int) := by
  obtain ⟨m, rfl⟩ : ∃ m, n = m + 1 := ⟨n - 1, by omega⟩
  have hm : ((m + 1 : Nat) : Int) - 1 = (m : Int) := by push_cast; ring
  rw [hm]
  rfl

theorem and_even_pred (m : Nat) (h : 0 < m) :
    (2 * m) &&& (2 * m - 1) = 2 * (m &&& (m - 1)) := by
  have h1 : 2 * m = Nat.bit false m := by simp [Nat.bit_val]
  have h2 : 2 * m - 1 = Nat.bit true (m - 1) := by simp [Nat.bit_val]; omega
  rw [h2, h1, Nat.land_bit]
  simp [Nat.bit_val]

theorem and_odd_pred (m : Nat) : (2 * m + 1) &&& (2 * m + 1 - 1) = 2 * m := by
  have h1 : 2 * m + 1 = Nat.bit true m := by simp [Nat.bit_val]
  have h2 : 2 * m + 1 - 1 = Nat.bit false m := by simp [Nat.bit_val]
  rw [h2, h1, Nat.land_bit]
  simp [Nat.bit_val]

theorem and_pred_eq_zero_iff (n : Nat) (h : 0 < n) :
    n &&& (n - 1) = 0 ↔ ∃ k, n = 2 ^ k := by
  induction n using Nat.strong_induction_on with
  | _ n ih =>
    rcases Nat.even_or_odd' n with ⟨m, hm | hm⟩
    · subst hm
      have hm0 : 0 < m := by omega
      rw [and_even_pred m hm0]
      have := ih m (by omega) hm0
      constructor
      · intro h0
        obtain ⟨k, hk⟩ := this.mp (by omega)
        exact ⟨k + 1, by rw [hk, pow_succ]; ring⟩
      · rintro ⟨k, hk⟩
        cases k with
        | zero => omega
        | succ k =>
          have : m = 2 ^ k := by rw [pow_succ] at hk; omega
          have := (ih m (by omega) hm0).mpr ⟨k, this⟩
          omega
    · subst hm
      rw [and_odd_pred m]
      constructor
      · intro h0
        exact ⟨0, by simp; omega⟩
      · rintro ⟨k, hk⟩
        cases k with
        | zero => simp at hk; omega
        | succ k => rw [pow_succ] at hk; omega

theorem guess_of_not_pow (n : Nat) (h : 0 < n) (hp : ¬ ∃ k, n = 2 ^ k) :
    artery_guess_sector_size_from_flash_size (n : Int) = 4096 := by
  unfold artery_guess_sector_size_from_flash_size
  rw [land_cast_pred n h]
  have h0 : n &&& (n - 1) ≠ 0 := fun h0 => hp ((and_pred_eq_zero_iff n h).mp h0)
  rw [if_pos]
  exact_mod_cast h0

theorem guess_of_pow (n : Nat) (hp : ∃ k, n = 2 ^ k) :
    artery_guess_sector_size_from_flash_size (n : Int) = if n ≤ 128 then 1024 else 2048 := by
  have h : 0 < n := by
    obtain ⟨k, hk⟩ := hp
    rw [hk]; exact Nat.pos_pow_of_pos k (by decide)
  unfold artery_guess_sector_size_from_flash_size
  rw [land_cast_pred n h]
  have h0 : n &&& (n - 1) = 0 := (and_pred_eq_zero_iff n h).mpr hp
  rw [h0]
  by_cases hle : n ≤ 128
  · have : (n : Int) ≤ 128 := by exact_mod_cast hle
    simp [hle, this]
  · have : ¬ (n : Int) ≤ 128 := by exact_mod_cast hle
    simp [hle, this]

theorem guess_zero : artery_guess_sector_size_from_flash_size 0 = 1024 := by
  unfold artery_guess_sector_size_from_flash_size
  rw [land_zero_negOne]
  simp

/-- C4 (counterexample): `0` is not a power of two, yet the heuristic returns 1024 for a
flash size of `0`, not 4096. -/
theorem C4_guess_zero_counterexample :
    (¬ ∃ k : Nat, (0 : Nat) = 2 ^ k) ∧
    artery_guess_sector_size_from_flash_size ((0 : Nat) : Int) ≠ 4096 := by
  refine ⟨?_, ?_⟩
  · rintro ⟨k, hk⟩
    have := Nat.pos_pow_of_pos k (show 0 < 2 by decide)
    omega
  · rw [show (((0 : Nat) : Int)) = 0 from rfl, guess_zero]
    decide

/-- C4 (amended): for every `flash_size_kb` in `1..65535` the heuristic returns 4096 if
`flash_size_kb` is not a power of two, 1024 if it is a power of two and at most 128, and
2048 if it is a power of two above 128; for `flash_size_kb = 0` it returns 1024. -/
theorem C4_guess_sector_size (flash_size_kb : Nat) (hrange : flash_size_kb ≤ 65535) :
    (flash_size_kb = 0 → artery_guess_sector_size_from_flash_size flash_size_kb = 1024) ∧
    (0 < flash_size_kb → (¬ ∃ k, flash_size_kb = 2 ^ k) →
      artery_guess_sector_size_from_flash_size flash_size_kb = 4096) ∧
    ((∃ k, flash_size_kb = 2 ^ k) → flash_size_kb ≤ 128 →
      artery_guess_sector_size_from_flash_size flash_size_kb = 1024) ∧
    ((∃ k, flash_size_kb = 2 ^ k) → 128 < flash_size_kb →
      artery_guess_sector_size_from_flash_size flash_size_kb = 2048) := by
  refine ⟨?_, ?_, ?_, ?_⟩
  · intro h0
    subst h0
    exact guess_zero
  · intro hpos hnp
    exact guess_of_not_pow _ hpos hnp
  · intro hp hle
    rw [guess_of_pow _ hp, if_pos hle]
  · intro hp hgt
    rw [guess_of_pow _ hp, if_neg (by omega)]

theorem not_pow_333 : ¬ ∃ k, 333 = 2 ^ k := by
  rintro ⟨k, hk⟩
  rcases Nat.lt_or_ge k 9 with h | h
  · interval_cases k <;> omega
  · have := Nat.pow_le_pow_right (show 0 < 2 by decide) h
    omega

theorem C4_guess_sector_size_witness :
    (333 : Nat) ≤ 65535 ∧ artery_guess_sector_size_from_flash_size (333 : Nat) = 4096 :=
  ⟨by decide, (C4_guess_sector_size 333 (by decide)).2.1 (by decide) not_pow_333⟩


/-! ### Geometry resolver -/

theorem probe_sector_size_fst_lt (device_id rf : Nat) (unknown : Bool) (h : rf < 2 ^ 16) :
    (artery_probe_sector_size device_id rf unknown).1 < 2 ^ 16 := by
  have hm : ∀ x : Nat, x % 2 ^ 16 < 2 ^ 16 := fun x => Nat.mod_lt _ (by decide)
  unfold artery_probe_sector_size
  split
  · simp only []
    split_ifs <;> simp only [] <;> first | exact h | exact hm _
  · exact h

theorem probe_geometry_frame (bank b : flash_bank) (rf S S' bs : Nat)
    (h : artery_probe_geometry bank rf S = some (b, S', bs)) :
    b.target = bank.target ∧ b.num_sectors = bank.num_sectors ∧ b.sectors = bank.sectors ∧
      b.num_prot_blocks = bank.num_prot_blocks ∧ b.prot_blocks = bank.prot_blocks ∧
      b.size = bank.size ∧ b.driver_priv.probed = bank.driver_priv.probed := by
  unfold artery_probe_geometry at h
  split_ifs at h <;> simp only [Option.some.injEq, Prod.mk.injEq] at h <;>
    (obtain ⟨rfl, -, -⟩ := h; first | (split_ifs <;> simp) | simp)

theorem probe_geometry_size_lt (bank b : flash_bank) (rf S S' bs : Nat) (hrf : rf < 2 ^ 16)
    (h : artery_probe_geometry bank rf S = some (b, S', bs)) : bs < 2 ^ 32 := by
  unfold artery_probe_geometry at h
  split_ifs at h <;> simp only [Option.some.injEq, Prod.mk.injEq] at h <;>
    (obtain ⟨-, -, rfl⟩ := h; norm_num at hrf ⊢; first | omega | skip)

theorem probe_sectors_length (n S : Nat) : (artery_probe_sectors n S).length = n := by
  simp [artery_probe_sectors]

theorem probe_sectors_getElem? (n S i : Nat) (h : i < n) :
    (artery_probe_sectors n S)[i]? = some (flash_sector.mk ((i * S) % 2 ^ 32) S (-1) (-1)) := by
  simp [artery_probe_sectors, List.getElem?_map, List.getElem?_range h]

/-- A successful probe is the final stage applied to a bank whose table was reset, with a
bank size below `2 ^ 32`. -/
theorem probe_ok_eq (tp : Transport) (bank : flash_bank) (tr : List Access)
    (hok : (artery_probe tp bank tr).retval = ERROR_OK) :
    ∃ b S bs, bs < 2 ^ 32 ∧ b.num_sectors = 0 ∧ b.sectors = [] ∧
      (artery_probe tp bank tr).bank = artery_probe_finish b S bs ∧
      (artery_probe tp bank tr).sector_size = S := by
  unfold artery_probe at hok ⊢
  simp only [] at hok ⊢
  by_cases h1 : (!bank.target.examined) = true
  · rw [if_pos h1] at hok
    simp [ERROR_TARGET_NOT_EXAMINED, ERROR_OK] at hok
  · rw [if_neg h1] at hok ⊢
    by_cases h2 : (target_read_u32 tp MCU_DEVICE_ID_ADDR tr).retval ≠ ERROR_OK
    · rw [if_pos h2] at hok
      exact absurd hok h2
    · rw [if_neg h2] at hok ⊢
      generalize hgeo : artery_probe_geometry _ _ _ = g at hok ⊢
      match g, hgeo with
      | none, _ => simp [ERROR_FAIL, ERROR_OK] at hok
      | some (b, S, bs), hgeo =>
        have hfr := probe_geometry_frame _ _ _ _ _ _ hgeo
        have hlt := probe_geometry_size_lt _ _ _ _ _ _
          (probe_sector_size_fst_lt _ _ _ (Nat.mod_lt _ (by decide))) hgeo
        refine ⟨b, S, bs, hlt, ?_, ?_, rfl, rfl⟩
        · rw [hfr.2.1]; split_ifs <;> rfl
        · rw [hfr.2.2.1]; split_ifs <;> rfl

theorem probe_finish_fields (b : flash_bank) (S bs : Nat) (h0 : b.num_sectors = 0)
    (h1 : b.sectors = []) :
    (artery_probe_finish b S bs).size = bs ∧
    (artery_probe_finish b S bs).num_sectors = (if bs ≠ 0 then bs / S else 0) ∧
    (artery_probe_finish b S bs).sectors =
      (if bs ≠ 0 then artery_probe_sectors (bs / S) S else []) := by
  unfold artery_probe_finish
  by_cases hbs : bs = 0
  · simp [hbs, h0, h1]
  · by_cases hn : bs / S = 0
    · simp [hbs, hn, h1, artery_probe_sectors]
    · simp [hbs, hn]



set_option maxRecDepth 100000 in
/-- C1 (code defect): with device id `0x70030109` and reported size 64 the probe of main
bank 1 (base `0x08000000`, or base `0` defaulted to it) succeeds with catalogue match
"AT32F415C8T7" and sector size 1024, but stores the size unscaled: the bank is 64 bytes
and its sector table is empty, instead of 65536 bytes and 64 sectors. -/
theorem C1_probe_bank1_size_unscaled :
    artery_find_chip_from_id 0x70030109 =
      some (artery_chip_info.mk 0x70030109 64 1024 (some "AT32F415C8T7")) ∧
    artery_probe (scenario_transport 0x70030109 64) (scenario_bank FLASH_BASE_ADDR) [] =
      ⟨ERROR_OK,
        ⟨⟨true, target_state.TARGET_HALTED⟩, ⟨true, EFC_BASE⟩, FLASH_BASE_ADDR, 64, 0, [], 0, []⟩,
        [Access.read_u32 MCU_DEVICE_ID_ADDR, Access.read_u16 FLASH_SIZE_ADDR], 1024⟩ ∧
    artery_probe (scenario_transport 0x70030109 64) (scenario_bank 0) [] =
      ⟨ERROR_OK,
        ⟨⟨true, target_state.TARGET_HALTED⟩, ⟨true, EFC_BASE⟩, FLASH_BASE_ADDR, 64, 0, [], 0, []⟩,
        [Access.read_u32 MCU_DEVICE_ID_ADDR, Access.read_u16 FLASH_SIZE_ADDR], 1024⟩ := by
  decide

/-- C2: after every successful probe that leaves the bank with nonzero size,
`num_sectors * sector_size <= size`, the table has `num_sectors` entries, and entry `i`
has offset `i * sector_size`, size `sector_size`, and erased and protected states both
unknown (`-1`). -/
theorem C2_probe_sector_table (tp : Transport) (bank : flash_bank) (tr : List Access)
    (hok : (artery_probe tp bank tr).retval = ERROR_OK)
    (hsize : (artery_probe tp bank tr).bank.size ≠ 0) :
    (artery_probe tp bank tr).bank.num_sectors * (artery_probe tp bank tr).sector_size
        ≤ (artery_probe tp bank tr).bank.size ∧
    (artery_probe tp bank tr).bank.sectors.length = (artery_probe tp bank tr).bank.num_sectors ∧
    ∀ i, i < (artery_probe tp bank tr).bank.num_sectors →
      (artery_probe tp bank tr).bank.sectors[i]? =
        some (flash_sector.mk (i * (artery_probe tp bank tr).sector_size)
          (artery_probe tp bank tr).sector_size (-1) (-1)) := by
  obtain ⟨b, S, bs, hlt, h0, h1, hb, hS⟩ := probe_ok_eq tp bank tr hok
  obtain ⟨f1, f2, f3⟩ := probe_finish_fields b S bs h0 h1
  rw [hb, f1] at hsize
  rw [hb, hS]
  rw [f1, f2, f3, if_pos hsize, if_pos hsize]
  have hle : bs / S * S ≤ bs := Nat.div_mul_le_self bs S
  refine ⟨hle, probe_sectors_length _ _, ?_⟩
  intro i hi
  rw [probe_sectors_getElem? _ _ _ hi]
  have hlt2 : i * S < 2 ^ 32 := by
    have : i * S ≤ bs / S * S := Nat.mul_le_mul_right S (Nat.le_of_lt hi)
    omega
  rw [Nat.mod_eq_of_lt hlt2]

set_option maxRecDepth 100000 in
theorem C2_probe_sector_table_witness :
    (artery_probe (scenario_transport 0x70084549 4032) (scenario_bank FLASH_BASE_ADDR) []).retval
      = ERROR_OK ∧
    (artery_probe (scenario_transport 0x70084549 4032) (scenario_bank FLASH_BASE_ADDR) []).bank.size
      ≠ 0 ∧
    (artery_probe (scenario_transport 0x70084549 4032) (scenario_bank FLASH_BASE_ADDR)
      []).bank.sectors[3]? = some (flash_sector.mk (3 * 4096) 4096 (-1) (-1)) :=
  ⟨by decide, by decide,
    (C2_probe_sector_table (scenario_transport 0x70084549 4032) (scenario_bank FLASH_BASE_ADDR) []
      (by decide) (by decide)).2.2 3 (by decide)⟩

set_option maxRecDepth 100000 in
theorem probe_sector_size_70084549 :
    artery_probe_sector_size 0x70084549 4032 false = (4032, 4096) := by
  decide

set_option maxRecDepth 100000 in
/-- C5 (counterexample): with device id `0x70084549` and reported size 4032 kB the sector
size is 4096, not 2048; bank 1 has 512 sectors, not 1024, and bank 2 has 496 sectors,
not 992. -/
theorem C5_probe_4032k_counterexample :
    (artery_probe (scenario_transport 0x70084549 4032) (scenario_bank FLASH_BASE_ADDR)
      []).sector_size = 4096 ∧
    (artery_probe (scenario_transport 0x70084549 4032) (scenario_bank FLASH_BASE_ADDR)
      []).bank.num_sectors = 512 ∧
    (artery_probe (scenario_transport 0x70084549 4032) (scenario_bank FLASH_BASE_BANK2_4032K)
      []).sector_size = 4096 ∧
    (artery_probe (scenario_transport 0x70084549 4032) (scenario_bank FLASH_BASE_BANK2_4032K)
      []).bank.num_sectors = 496 := by
  decide

/-- C5 (amended): with device id `0x70084549` and reported flash size 4032 kB, probing
main bank 1 yields size 2048 kB with sector size 4096 and 512 sectors, and probing bank 2
at the dual-bank-large base `0x08200000` yields size 1984 kB with sector size 4096 and
496 sectors. -/
theorem C5_probe_4032k (tp : Transport) (bank : flash_bank) (tr : List Access)
    (hex : bank.target.examined = true)
    (hid : tp tr (Access.read_u32 MCU_DEVICE_ID_ADDR) = ⟨ERROR_OK, 0x70084549⟩)
    (hsz : tp (tr ++ [Access.read_u32 MCU_DEVICE_ID_ADDR]) (Access.read_u16 FLASH_SIZE_ADDR)
      = ⟨ERROR_OK, 4032⟩)
    (hbase : bank.base = FLASH_BASE_ADDR ∨ bank.base = FLASH_BASE_BANK2_4032K) :
    (artery_probe tp bank tr).retval = ERROR_OK ∧
    (artery_probe tp bank tr).sector_size = 4096 ∧
    (artery_probe tp bank tr).bank.base = bank.base ∧
    (artery_probe tp bank tr).bank.size =
      (if bank.base = FLASH_BASE_ADDR then 2048 * 1024 else 1984 * 1024) ∧
    (artery_probe tp bank tr).bank.num_sectors =
      (if bank.base = FLASH_BASE_ADDR then 512 else 496) ∧
    (artery_probe tp bank tr).bank.sectors.length =
      (if bank.base = FLASH_BASE_ADDR then 512 else 496) := by
  have hprobe : artery_probe tp bank tr =
      ⟨ERROR_OK,
        artery_probe_finish
          { bank with
            driver_priv := ⟨false,
              if bank.base = FLASH_BASE_ADDR then EFC_BASE else EFC_BASE_BANK2⟩
            num_sectors := 0, sectors := [], num_prot_blocks := 0, prot_blocks := [] }
          4096 (if bank.base = FLASH_BASE_ADDR then 2048 * 1024 else 1984 * 1024),
        tr ++ [Access.read_u32 MCU_DEVICE_ID_ADDR, Access.read_u16 FLASH_SIZE_ADDR], 4096⟩ := by
    unfold artery_probe
    simp only [target_read_u32, target_read_u16, hid, hsz, hex]
    rw [show (0x70084549 % 2 ^ 32 : Nat) = 0x70084549 from by decide,
      show (4032 % 2 ^ 16 : Nat) = 4032 from by decide]
    rw [show (decide ((ERROR_OK : Int) ≠ ERROR_OK) || (4032 : Nat) == 0xffff || (4032 : Nat) == 0)
      = false from by decide, probe_sector_size_70084549]
    rcases hbase with hb | hb
    · simp [artery_probe_geometry, hb, FLASH_BASE_ADDR, OTP_BANK_BASE_ADDR]
    · simp [artery_probe_geometry, hb, FLASH_BASE_ADDR, OTP_BANK_BASE_ADDR,
        FLASH_BASE_BANK2_4032K]
  rw [hprobe]
  rcases hbase with hb | hb
  · simp [artery_probe_finish, hb, probe_sectors_length]
  · simp [artery_probe_finish, hb, probe_sectors_length, FLASH_BASE_ADDR, FLASH_BASE_BANK2_4032K]

theorem C5_probe_4032k_witness :
    (scenario_bank FLASH_BASE_BANK2_4032K).target.examined = true ∧
    ((scenario_bank FLASH_BASE_BANK2_4032K).base = FLASH_BASE_ADDR ∨
      (scenario_bank FLASH_BASE_BANK2_4032K).base = FLASH_BASE_BANK2_4032K) ∧
    (artery_probe (scenario_transport 0x70084549 4032) (scenario_bank FLASH_BASE_BANK2_4032K)
      []).bank.size = 1984 * 1024 ∧
    (artery_probe (scenario_transport 0x70084549 4032) (scenario_bank FLASH_BASE_BANK2_4032K)
      []).bank.num_sectors = 496 :=
  ⟨rfl, Or.inr rfl,
    (C5_probe_4032k (scenario_transport 0x70084549 4032) (scenario_bank FLASH_BASE_BANK2_4032K)
      [] rfl rfl rfl (Or.inr rfl)).2.2.2.1,
    (C5_probe_4032k (scenario_transport 0x70084549 4032) (scenario_bank FLASH_BASE_BANK2_4032K)
      [] rfl rfl rfl (Or.inr rfl)).2.2.2.2.1⟩


/-! ### Bit tests -/

theorem and_two_pow_eq_zero_iff (v i : Nat) : v &&& 2 ^ i = 0 ↔ v.testBit i = false := by
  constructor
  · intro h
    have := congrArg (fun x => x.testBit i) h
    simpa [Nat.testBit_and, Nat.testBit_two_pow_self] using this
  · intro h
    apply Nat.eq_of_testBit_eq
    intro j
    rw [Nat.testBit_and, Nat.testBit_two_pow, Nat.zero_testBit]
    by_cases hij : i = j
    · subst hij; simp [h]
    · simp [hij]

theorem and_two_pow_eq_self_iff (v i : Nat) : v &&& 2 ^ i = 2 ^ i ↔ v.testBit i = true := by
  constructor
  · intro h
    have := congrArg (fun x => x.testBit i) h
    simpa [Nat.testBit_and, Nat.testBit_two_pow_self] using this
  · intro h
    apply Nat.eq_of_testBit_eq
    intro j
    rw [Nat.testBit_and, Nat.testBit_two_pow]
    by_cases hij : i = j
    · subst hij; simp [h]
    · simp [hij]

/-! ### Unlock -/

/-- C10: unlock is idempotent in both variants.  If the first control-register read
succeeds and shows the lock bit (bit 7) clear for a main bank, or the user-unlock bit
(bit 9) set for the option area, `artery_unlock` returns success after exactly that one
read: the only access it adds is the control-register read, so no key is written. -/
theorem C10_unlock_idempotent (tp : Transport) (bank : flash_bank) (tr : List Access)
    (hread : (artery_read_flash_reg tp bank EFC_CTRL_REG tr).retval = ERROR_OK)
    (hbit :
      (artery_is_otp bank = false ∧
        (artery_read_flash_reg tp bank EFC_CTRL_REG tr).value.testBit 7 = false) ∨
      (artery_is_otp bank = true ∧
        (artery_read_flash_reg tp bank EFC_CTRL_REG tr).value.testBit 9 = true)) :
    artery_unlock tp bank tr =
      ⟨ERROR_OK, tr ++ [Access.read_u32 (artery_get_flash_reg bank EFC_CTRL_REG)]⟩ := by
  unfold artery_unlock
  rcases hbit with ⟨hotp, hbit⟩ | ⟨hotp, hbit⟩
  · rw [hotp, if_neg (by decide)]
    have hb : (artery_read_flash_reg tp bank EFC_CTRL_REG tr).value &&& EFC_LOCK_BIT = 0 :=
      (and_two_pow_eq_zero_iff _ 7).mpr hbit
    unfold artery_unlock_flash
    simp only []
    rw [if_neg (not_not.mpr hread), if_pos hb]
    rfl
  · rw [hotp, if_pos rfl]
    have hb : (artery_read_flash_reg tp bank EFC_CTRL_REG tr).value &&& EFC_USD_UNLOCK_BIT
        = EFC_USD_UNLOCK_BIT := (and_two_pow_eq_self_iff _ 9).mpr hbit
    unfold artery_unlock_user
    simp only []
    rw [if_neg (not_not.mpr hread), if_pos hb]
    rfl

theorem C10_unlock_idempotent_witness :
    (artery_read_flash_reg (scenario_transport_ctrl 0x200) scenario_bank_otp EFC_CTRL_REG
      []).retval = ERROR_OK ∧
    artery_is_otp scenario_bank_otp = true ∧
    (artery_read_flash_reg (scenario_transport_ctrl 0x200) scenario_bank_otp EFC_CTRL_REG
      []).value.testBit 9 = true ∧
    artery_unlock (scenario_transport_ctrl 0x200) scenario_bank_otp [] =
      ⟨ERROR_OK, [Access.read_u32 0x40023C10]⟩ :=
  ⟨by decide, by decide, by decide,
    C10_unlock_idempotent (scenario_transport_ctrl 0x200) scenario_bank_otp [] (by decide)
      (Or.inr ⟨by decide, by decide⟩)⟩

/-! ### Option-area write: alignment check -/

theorem write_otp_eq (fuel : Nat) (tp : Transport) (bank : flash_bank) (buffer : List Nat)
    (offset count : Nat) (tr : List Access) (hotp : bank.base = OTP_BANK_BASE_ADDR) :
    artery_write fuel tp bank buffer offset count tr =
      artery_write_user fuel tp bank buffer offset count tr := by
  unfold artery_write
  simp [artery_is_otp, hotp]

theorem unlock_otp_eq (tp : Transport) (bank : flash_bank) (tr : List Access)
    (hotp : bank.base = OTP_BANK_BASE_ADDR) :
    artery_unlock tp bank tr = artery_unlock_user tp bank tr := by
  unfold artery_unlock
  simp [artery_is_otp, hotp]

set_option maxRecDepth 100000 in
/-- C8 (counterexample): an option-area write with odd offset on an already unlocked
option area fails with `ERROR_TARGET_UNALIGNED_ACCESS` only after the control register
has been read by the unlock step. -/
theorem C8_write_user_unaligned_counterexample :
    artery_write 0 (scenario_transport_ctrl 0x200) scenario_bank_otp [0xAA, 0x55] 1 2 [] =
      ⟨some ERROR_TARGET_UNALIGNED_ACCESS, [Access.read_u32 (EFC_BASE + EFC_CTRL_REG)]⟩ := by
  decide

/-- C8 (amended): for every option-area write (bank base `0x1FFFC000`) on a halted target
in which offset is odd or count is odd, the write first runs the option-area unlock
sequence; if that fails its error is returned, otherwise the write fails with
`ERROR_TARGET_UNALIGNED_ACCESS`; in both cases the accesses issued are exactly those of
the unlock sequence (no status clear, no programming, no re-lock). -/
theorem C8_write_user_unaligned (fuel : Nat) (tp : Transport) (bank : flash_bank)
    (buffer : List Nat) (offset count : Nat) (tr : List Access)
    (hotp : bank.base = OTP_BANK_BASE_ADDR)
    (hhalt : bank.target.state = target_state.TARGET_HALTED)
    (hodd : offset % 2 = 1 ∨ count % 2 = 1) :
    artery_write fuel tp bank buffer offset count tr =
      ⟨some (if (artery_unlock_user tp bank tr).retval = ERROR_OK
          then ERROR_TARGET_UNALIGNED_ACCESS else (artery_unlock_user tp bank tr).retval),
        (artery_unlock_user tp bank tr).trace⟩ := by
  rw [write_otp_eq fuel tp bank buffer offset count tr hotp]
  unfold artery_write_user
  simp only []
  rw [if_neg (not_not.mpr hhalt), unlock_otp_eq tp bank tr hotp]
  by_cases hu : (artery_unlock_user tp bank tr).retval = ERROR_OK
  · rw [if_neg (not_not.mpr hu), if_pos hu, if_pos]
    simp only [Nat.and_one_is_mod]
    omega
  · rw [if_pos hu, if_neg hu]

set_option maxRecDepth 100000 in
theorem C8_write_user_unaligned_witness :
    scenario_bank_otp.base = OTP_BANK_BASE_ADDR ∧
    scenario_bank_otp.target.state = target_state.TARGET_HALTED ∧
    ((2 : Nat) % 2 = 1 ∨ (3 : Nat) % 2 = 1) ∧
    artery_write 0 (scenario_transport_ctrl 0x200) scenario_bank_otp [1, 2, 3] 2 3 [] =
      ⟨some ERROR_TARGET_UNALIGNED_ACCESS, [Access.read_u32 0x40023C10]⟩ :=
  ⟨rfl, rfl, Or.inr rfl,
    C8_write_user_unaligned 0 (scenario_transport_ctrl 0x200) scenario_bank_otp [1, 2, 3] 2 3 []
      rfl rfl (Or.inr rfl)⟩


/-! ### Status polls -/

theorem wait_loop_trace_ends (tp : Transport) (bank : flash_bank) :
    ∀ (n : Nat) (tr : List Access), ∃ pre,
      (artery_wait_status_busy_loop tp bank n tr).1.trace =
        pre ++ [Access.read_u32 (artery_get_flash_reg bank EFC_STS_REG)] := by
  intro n
  induction n with
  | zero =>
    intro tr
    refine ⟨tr, ?_⟩
    simp only [artery_wait_status_busy_loop]
    split_ifs <;> rfl
  | succ n ih =>
    intro tr
    simp only [artery_wait_status_busy_loop]
    split_ifs
    · exact ⟨tr, rfl⟩
    · exact ⟨tr, rfl⟩
    · exact ih _

theorem wait_and_check_trace (tp : Transport) (bank : flash_bank) (timeout : Int)
    (tr : List Access) :
    (artery_wait_status_busy_and_check tp bank timeout tr).trace =
      (artery_wait_status_busy_loop tp bank timeout.toNat tr).1.trace := by
  unfold artery_wait_status_busy_and_check
  split <;> rename_i h <;> rw [h]

/-! ### Sector erase -/

theorem erase_loop_add (tp : Transport) (bank : flash_bank) :
    ∀ (a b i : Nat) (tr : List Access),
      artery_erase_loop tp bank (a + b) i tr =
        if (artery_erase_loop tp bank a i tr).retval ≠ ERROR_OK then
          artery_erase_loop tp bank a i tr
        else artery_erase_loop tp bank b (i + a) (artery_erase_loop tp bank a i tr).trace := by
  intro a
  induction a with
  | zero =>
    intro b i tr
    simp [artery_erase_loop]
  | succ a ih =>
    intro b i tr
    rw [show a + 1 + b = (a + b) + 1 from by omega]
    simp only [artery_erase_loop]
    by_cases hs : (artery_erase_start tp bank i tr).retval ≠ ERROR_OK
    · simp only [if_pos hs]
    · simp only [if_neg hs]
      by_cases hk : (artery_wait_status_busy_and_check tp bank FLASH_ERASE_TIMEOUT
          (artery_erase_start tp bank i tr).trace).retval ≠ ERROR_OK
      · simp only [if_pos hk]
      · simp only [if_neg hk]
        rw [ih, show i + 1 + a = i + (a + 1) from by omega]

/-- C9: if, in `artery_erase` over `[first, last]`, every step before the checked wait of
sector `k` succeeded (unlock, first wait, the iterations for `first..k-1`, and the
register writes for sector `k`) and that checked wait returns an error, then
`artery_erase` returns exactly the result of that wait: its error code, and the accesses
issued up to the end of that wait.  The last access is therefore a status-register read:
nothing is written for sectors `k+1..last` and the control register is not written to
re-lock. -/
theorem C9_erase_abort (tp : Transport) (bank : flash_bank) (first k last : Nat)
    (tr trk : List Access)
    (hrange : first ≤ k ∧ k ≤ last ∧ last < bank.num_sectors)
    (hhalt : bank.target.state = target_state.TARGET_HALTED)
    (hunlock : (artery_unlock tp bank tr).retval = ERROR_OK)
    (hwait : (artery_wait_status_busy tp bank FLASH_ERASE_TIMEOUT
      (artery_unlock tp bank tr).trace).retval = ERROR_OK)
    (hprev : artery_erase_loop tp bank (k - first) first
      (artery_wait_status_busy tp bank FLASH_ERASE_TIMEOUT (artery_unlock tp bank tr).trace).trace
        = ⟨ERROR_OK, trk⟩)
    (hstart : (artery_erase_start tp bank k trk).retval = ERROR_OK)
    (hfail : (artery_wait_status_busy_and_check tp bank FLASH_ERASE_TIMEOUT
      (artery_erase_start tp bank k trk).trace).retval ≠ ERROR_OK) :
    artery_erase tp bank first last tr =
      some (artery_wait_status_busy_and_check tp bank FLASH_ERASE_TIMEOUT
        (artery_erase_start tp bank k trk).trace) ∧
    ∃ pre, (artery_wait_status_busy_and_check tp bank FLASH_ERASE_TIMEOUT
        (artery_erase_start tp bank k trk).trace).trace =
      pre ++ [Access.read_u32 (artery_get_flash_reg bank EFC_STS_REG)] := by
  obtain ⟨h1, h2, h3⟩ := hrange
  refine ⟨?_, ?_⟩
  · unfold artery_erase
    rw [if_neg (not_not.mpr ⟨by omega, h3⟩), if_neg (not_not.mpr hhalt)]
    simp only []
    rw [if_neg (not_not.mpr hunlock), if_neg (not_not.mpr hwait)]
    have hloop : artery_erase_loop tp bank (last + 1 - first) first
        (artery_wait_status_busy tp bank FLASH_ERASE_TIMEOUT
          (artery_unlock tp bank tr).trace).trace =
        artery_wait_status_busy_and_check tp bank FLASH_ERASE_TIMEOUT
          (artery_erase_start tp bank k trk).trace := by
      rw [show last + 1 - first = (k - first) + ((last - k) + 1) from by omega,
        erase_loop_add, hprev]
      simp only [ne_eq, not_true_eq_false, if_false]
      rw [show first + (k - first) = k from by omega]
      simp only [artery_erase_loop]
      rw [if_neg (not_not.mpr hstart), if_pos hfail]
    rw [hloop, if_pos hfail]
  · rw [wait_and_check_trace]
    exact wait_loop_trace_ends tp bank _ _

set_option maxRecDepth 100000 in
theorem C9_erase_abort_witness :
    ((0 : Nat) ≤ 1 ∧ (1 : Nat) ≤ 2 ∧ 2 < scenario_bank_main.num_sectors) ∧
    scenario_bank_main.target.state = target_state.TARGET_HALTED ∧
    artery_erase (scenario_transport_sts_error 7) scenario_bank_main 0 2 [] =
      some ⟨ERROR_FAIL,
        [Access.read_u32 0x40023C10, Access.read_u32 0x40023C0C,
          Access.write_u32 0x40023C0C 0x34, Access.write_u32 0x40023C10 0x02,
          Access.write_u32 0x40023C14 0x08000000, Access.write_u32 0x40023C10 0x42,
          Access.read_u32 0x40023C0C,
          Access.write_u32 0x40023C0C 0x34, Access.write_u32 0x40023C10 0x02,
          Access.write_u32 0x40023C14 0x08000400, Access.write_u32 0x40023C10 0x42,
          Access.read_u32 0x40023C0C]⟩ :=
  ⟨by decide, rfl,
    (C9_erase_abort (scenario_transport_sts_error 7) scenario_bank_main 0 1 2 []
      [Access.read_u32 0x40023C10, Access.read_u32 0x40023C0C,
        Access.write_u32 0x40023C0C 0x34, Access.write_u32 0x40023C10 0x02,
        Access.write_u32 0x40023C14 0x08000000, Access.write_u32 0x40023C10 0x42,
        Access.read_u32 0x40023C0C]
      (by decide) rfl (by decide) (by decide) (by decide) (by decide) (by decide)).1.trans
      (by decide)⟩


/-! ### Main-bank write -/

theorem and_mask_zero (v : Nat)
    (h : v &&& (EFC_BSY_BIT ||| EFC_PRGMERR_BIT ||| EFC_EPPERR_BIT) = 0) :
    v &&& EFC_BSY_BIT = 0 ∧ v &&& EFC_EPPERR_BIT = 0 ∧ v &&& EFC_PRGMERR_BIT = 0 := by
  have hb : ∀ i, v.testBit i = true →
      (EFC_BSY_BIT ||| EFC_PRGMERR_BIT ||| EFC_EPPERR_BIT).testBit i = false := by
    intro i hi
    have := congrArg (fun x => x.testBit i) h
    simpa [Nat.testBit_and, hi] using this
  refine ⟨?_, ?_, ?_⟩
  · refine (and_two_pow_eq_zero_iff v 0).mpr ?_
    by_contra hc
    have := hb 0 (by simpa using hc)
    revert this; decide
  · refine (and_two_pow_eq_zero_iff v 4).mpr ?_
    by_contra hc
    have := hb 4 (by simpa using hc)
    revert this; decide
  · refine (and_two_pow_eq_zero_iff v 2).mpr ?_
    by_contra hc
    have := hb 2 (by simpa using hc)
    revert this; decide

/-- On an idle, error-free status register a checked wait is one successful status
read, whatever the timeout. -/
theorem checked_wait_idle (tp : Transport) (bank : flash_bank) (timeout : Int)
    (tr : List Access) (hok : TransportSucceeds tp) (hidle : StatusIdle tp bank) :
    artery_wait_status_busy_and_check tp bank timeout tr =
      ⟨ERROR_OK, tr ++ [Access.read_u32 (artery_get_flash_reg bank EFC_STS_REG)]⟩ := by
  obtain ⟨h1, h2, h3⟩ := and_mask_zero _ (hidle tr)
  simp only [Nat.reducePow] at h1 h2 h3
  have hr := hok tr (Access.read_u32 (artery_get_flash_reg bank EFC_STS_REG))
  have hloop : artery_wait_status_busy_loop tp bank timeout.toNat tr =
      (⟨ERROR_OK, tr ++ [Access.read_u32 (artery_get_flash_reg bank EFC_STS_REG)]⟩,
        some ((tp tr (Access.read_u32 (artery_get_flash_reg bank EFC_STS_REG))).value
          % 2 ^ 32)) := by
    cases timeout.toNat <;>
      simp [artery_wait_status_busy_loop, artery_read_flash_reg, target_read_u32, hr, h1]
  unfold artery_wait_status_busy_and_check
  rw [hloop]
  simp [h2, h3]

theorem write_word_idle (tp : Transport) (bank : flash_bank) (buffer : List Nat)
    (bw wa : Nat) (tr : List Access) (hok : TransportSucceeds tp)
    (hidle : StatusIdle tp bank) :
    artery_write_word tp bank buffer bw wa tr =
      ⟨ERROR_OK, tr ++ write_word_accesses bank buffer bw wa⟩ := by
  unfold artery_write_word
  simp [artery_write_flash_reg, target_write_u32, target_write_memory, hok _ _,
    checked_wait_idle tp bank _ _ hok hidle, write_word_accesses, EFC_PRGM_BIT]


theorem and_three (x : Nat) : x &&& 0x03 = x % 4 := Nat.and_pow_two_sub_one_eq_mod x 2

theorem lock_idle (tp : Transport) (bank : flash_bank) (tr : List Access)
    (hmain : bank.base ≠ OTP_BANK_BASE_ADDR) (hok : TransportSucceeds tp) :
    artery_lock tp bank tr =
      ⟨ERROR_OK, tr ++ [Access.write_u32 (artery_get_flash_reg bank EFC_CTRL_REG) EFC_LOCK_BIT]⟩ := by
  unfold artery_lock
  simp [artery_is_otp, hmain, artery_write_flash_reg, target_write_u32, hok _ _, EFC_LOCK_BIT]

theorem scenario_transport_ctrl_succeeds (ctrl : Nat) :
    TransportSucceeds (scenario_transport_ctrl ctrl) := by
  intro h a
  cases a <;> simp only [scenario_transport_ctrl]
  split_ifs <;> rfl

theorem scenario_transport_ctrl_idle (ctrl : Nat) :
    StatusIdle (scenario_transport_ctrl ctrl) scenario_bank_main := by
  intro h
  simp [scenario_transport_ctrl, artery_get_flash_reg, scenario_bank_main, EFC_STS_REG,
    EFC_BASE, EFC_CTRL_REG]

theorem word_loop_runaway (tp : Transport) (bank : flash_bank) (buffer : List Nat)
    (count : Nat) (hok : TransportSucceeds tp) (hidle : StatusIdle tp bank) (hc : count < 3) :
    ∀ (fuel bw wa : Nat) (tr : List Access), bw % 4 = 0 → bw < 2 ^ 32 →
      ∃ t, artery_write_word_loop tp bank buffer count fuel bw wa tr =
        LoopExit.out_of_fuel (tr ++ t) ∧
        (0 < fuel → ∃ t2, t = write_word_accesses bank buffer bw wa ++ t2) := by
  intro fuel
  induction fuel with
  | zero =>
    intro bw wa tr h4 hlt
    have hcond : bw < (count + 2 ^ 32 - 3) % 2 ^ 32 := by
      simp only [Nat.reducePow] at *; omega
    refine ⟨[], ?_, fun h => absurd h (by decide)⟩
    simp only [artery_write_word_loop, if_pos hcond, List.append_nil]
  | succ f ih =>
    intro bw wa tr h4 hlt
    have hcond : bw < (count + 2 ^ 32 - 3) % 2 ^ 32 := by
      simp only [Nat.reducePow] at *; omega
    obtain ⟨t, ht, -⟩ := ih ((bw + 4) % 2 ^ 32) ((wa + 4) % 2 ^ 64)
      (tr ++ write_word_accesses bank buffer bw wa)
      (by simp only [Nat.reducePow] at *; omega) (Nat.mod_lt _ (by decide))
    refine ⟨write_word_accesses bank buffer bw wa ++ t, ?_, fun _ => ⟨t, rfl⟩⟩
    simp only [artery_write_word_loop, if_pos hcond,
      write_word_idle tp bank buffer bw wa tr hok hidle, ne_eq, not_true_eq_false, if_false, ht,
      List.append_assoc]

theorem write_runaway (tp : Transport) (bank : flash_bank) (buffer : List Nat)
    (offset count fuel : Nat) (tr : List Access) (hfuel : 0 < fuel)
    (hc : count < 3) (haligned : (bank.base + offset) % 4 = 0)
    (hmain : bank.base ≠ OTP_BANK_BASE_ADDR)
    (hhalt : bank.target.state = target_state.TARGET_HALTED)
    (hunlock : (artery_unlock tp bank tr).retval = ERROR_OK)
    (hok : TransportSucceeds tp) (hidle : StatusIdle tp bank) :
    (artery_write fuel tp bank buffer offset count tr).retval = none ∧
    Access.write_memory ((bank.base + offset) % 2 ^ 64) 4 1 (buffer.take 4) ∈
      (artery_write fuel tp bank buffer offset count tr).trace := by
  have hwa0 : (bank.base + offset) % 2 ^ 64 < 2 ^ 64 := Nat.mod_lt _ (by decide)
  have hm : write_lead ((bank.base + offset) % 2 ^ 64) = 0 := by
    unfold write_lead
    simp only [Nat.reducePow]
    omega
  have h4 : (bank.base + offset) % 2 ^ 64 % 4 = 0 := by
    simp only [Nat.reducePow]; omega
  have hcond : ¬ (0 < count ∧ (bank.base + offset) % 2 ^ 64 &&& 0x03 ≠ 0) := by
    rw [and_three, h4]; simp
  have e1 : artery_write_lead_loop tp bank buffer count fuel 0
      ((bank.base + offset) % 2 ^ 64) (artery_unlock tp bank tr).trace =
      LoopExit.done 0 ((bank.base + offset) % 2 ^ 64) (artery_unlock tp bank tr).trace := by
    cases fuel <;> simp only [artery_write_lead_loop, if_neg hcond]
  obtain ⟨t, e2, hfirst⟩ := word_loop_runaway tp bank buffer count hok hidle hc fuel 0
    ((bank.base + offset) % 2 ^ 64) (artery_unlock tp bank tr).trace rfl (by decide)
  obtain ⟨t2, rfl⟩ := hfirst hfuel
  unfold artery_write
  simp only [artery_is_otp, beq_iff_eq, hmain, if_false, hhalt, ne_eq, not_true_eq_false,
    hunlock, e1, e2]
  refine ⟨trivial, ?_⟩
  simp [write_word_accesses]

/-- C6 (code defect): for `count = 1` and for `count = 0` at a word-aligned address, with
every access succeeding and the status register idle, `artery_write` issues a 4-byte
transfer although fewer than 4 bytes remain, and it does not return within any number of
loop iterations: the bound `count - 3` of the word loop wraps around. -/
theorem C6_write_short_count_runs_away :
    ∀ fuel : Nat,
      (artery_write (fuel + 1) (scenario_transport_ctrl 0) scenario_bank_main [0xAA] 0 1
        []).retval = none ∧
      Access.write_memory FLASH_BASE_ADDR 4 1 [0xAA] ∈
        (artery_write (fuel + 1) (scenario_transport_ctrl 0) scenario_bank_main [0xAA] 0 1
          []).trace ∧
      (artery_write (fuel + 1) (scenario_transport_ctrl 0) scenario_bank_main [] 0 0
        []).retval = none ∧
      Access.write_memory FLASH_BASE_ADDR 4 1 [] ∈
        (artery_write (fuel + 1) (scenario_transport_ctrl 0) scenario_bank_main [] 0 0
          []).trace := by
  intro fuel
  have h1 := write_runaway (scenario_transport_ctrl 0) scenario_bank_main [0xAA] 0 1 (fuel + 1)
    [] (Nat.succ_pos fuel) (by decide) (by decide) (by decide) rfl (by decide)
    (scenario_transport_ctrl_succeeds 0) (scenario_transport_ctrl_idle 0)
  have h0 := write_runaway (scenario_transport_ctrl 0) scenario_bank_main [] 0 0 (fuel + 1)
    [] (Nat.succ_pos fuel) (by decide) (by decide) (by decide) rfl (by decide)
    (scenario_transport_ctrl_succeeds 0) (scenario_transport_ctrl_idle 0)
  exact ⟨h1.1, h1.2, h0.1, h0.2⟩


/-! ### Probe: stages -/

/-- The probe, written over its stages: precondition, device-id read, flash-size read
with sector-size resolution, then geometry and table. -/
theorem probe_eq (tp : Transport) (bank : flash_bank) (tr : List Access) :
    artery_probe tp bank tr =
      if bank.target.examined = false then
        ⟨ERROR_TARGET_NOT_EXAMINED, probe_reset bank, tr, 0⟩
      else if (tp tr (Access.read_u32 MCU_DEVICE_ID_ADDR)).retval ≠ ERROR_OK then
        ⟨(tp tr (Access.read_u32 MCU_DEVICE_ID_ADDR)).retval, probe_reset bank,
          tr ++ [Access.read_u32 MCU_DEVICE_ID_ADDR], 0⟩
      else
        probe_resolve (probe_reset bank)
          (artery_probe_sector_size ((tp tr (Access.read_u32 MCU_DEVICE_ID_ADDR)).value % 2 ^ 32)
            ((tp (tr ++ [Access.read_u32 MCU_DEVICE_ID_ADDR])
              (Access.read_u16 FLASH_SIZE_ADDR)).value % 2 ^ 16)
            (probe_flash_is_unknown (tp (tr ++ [Access.read_u32 MCU_DEVICE_ID_ADDR])
              (Access.read_u16 FLASH_SIZE_ADDR)))).1
          (artery_probe_sector_size ((tp tr (Access.read_u32 MCU_DEVICE_ID_ADDR)).value % 2 ^ 32)
            ((tp (tr ++ [Access.read_u32 MCU_DEVICE_ID_ADDR])
              (Access.read_u16 FLASH_SIZE_ADDR)).value % 2 ^ 16)
            (probe_flash_is_unknown (tp (tr ++ [Access.read_u32 MCU_DEVICE_ID_ADDR])
              (Access.read_u16 FLASH_SIZE_ADDR)))).2
          (tr ++ [Access.read_u32 MCU_DEVICE_ID_ADDR, Access.read_u16 FLASH_SIZE_ADDR]) := by
  unfold artery_probe
  by_cases h1 : bank.target.examined = false
  · simp [h1, probe_reset]
  · by_cases h2 : (tp tr (Access.read_u32 MCU_DEVICE_ID_ADDR)).retval ≠ ERROR_OK
    · simp [h1, h2, probe_reset, target_read_u32]
    · simp only [h1, h2, if_false]
      simp [probe_reset, target_read_u32, target_read_u16, h1, h2, probe_resolve,
        probe_flash_is_unknown]

theorem bank_base_eta (b : flash_bank) (x : Nat) (h : b.base = x) :
    ({ b with base := x } : flash_bank) = b := by
  obtain ⟨tg, dp, base, sz, ns, secs, npb, pb⟩ := b
  simp only at h
  rw [h]

theorem bank_base_normalize (d : flash_bank) (x : Nat) :
    (if d.base ≠ x then { d with base := x } else d) = { d with base := x } := by
  by_cases h : d.base = x
  · rw [if_neg (not_not.mpr h), bank_base_eta d x h]
  · rw [if_pos h]

theorem probe_geometry_otp (c : flash_bank) (R S : Nat) (hc : c.base = OTP_BANK_BASE_ADDR) :
    artery_probe_geometry c R S =
      some ({ c with driver_priv := { c.driver_priv with flash_regs_base := EFC_BASE } },
        (if R = 4032 ∨ R = 448 then 4 <<< 10 else 512),
        (if R = 4032 ∨ R = 448 then 4 <<< 10 else 512)) := by
  unfold artery_probe_geometry
  rw [if_pos hc]
  by_cases hR : R = 4032 ∨ R = 448
  · rw [if_pos hR, if_pos hR]
  · rw [if_neg hR, if_neg hR]

theorem probe_geometry_bank1 (c : flash_bank) (R S : Nat) (hc : c.base = FLASH_BASE_ADDR) :
    artery_probe_geometry c R S =
      some ({ c with driver_priv := { c.driver_priv with flash_regs_base := EFC_BASE } }, S,
        if R = 4032 then 2048 <<< 10 else if R = 1024 then 512 <<< 10 else R) := by
  have hn : c.base ≠ OTP_BANK_BASE_ADDR := by rw [hc]; decide
  unfold artery_probe_geometry
  rw [if_neg hn, if_pos hc]
  by_cases h1 : R = 4032
  · rw [if_pos h1, if_pos h1]
  · rw [if_neg h1, if_neg h1]
    by_cases h2 : R = 1024
    · rw [if_pos h2, if_pos h2]
    · rw [if_neg h2, if_neg h2]

theorem probe_geometry_bank2 (c : flash_bank) (R S : Nat)
    (hc : c.base = FLASH_BASE_BANK2_4032K ∨ c.base = FLASH_BASE_BANK2_1024K) :
    artery_probe_geometry c R S =
      some ({ c with
          base := if R = 4032 then FLASH_BASE_BANK2_4032K
            else if R = 1024 then FLASH_BASE_BANK2_1024K else c.base
          driver_priv := { c.driver_priv with flash_regs_base := EFC_BASE_BANK2 } }, S,
        if R = 4032 then 1984 <<< 10 else if R = 1024 then 512 <<< 10 else 0) := by
  have h3 : c.base ≠ OTP_BANK_BASE_ADDR := by rcases hc with hc | hc <;> rw [hc] <;> decide
  have h4 : c.base ≠ FLASH_BASE_ADDR := by rcases hc with hc | hc <;> rw [hc] <;> decide
  unfold artery_probe_geometry
  rw [if_neg h3, if_neg h4, if_pos hc]
  by_cases h1 : R = 4032
  · rw [if_pos h1, if_pos h1, if_pos h1]
    exact congrArg (fun d => some (d, S, 1984 <<< 10)) (bank_base_normalize _ _)
  · rw [if_neg h1, if_neg h1, if_neg h1]
    by_cases h2 : R = 1024
    · rw [if_pos h2, if_pos h2, if_pos h2]
      exact congrArg (fun d => some (d, S, 512 <<< 10)) (bank_base_normalize _ _)
    · rw [if_neg h2, if_neg h2, if_neg h2]

theorem probe_geometry_unsupported (c : flash_bank) (R S : Nat)
    (h1 : c.base ≠ FLASH_BASE_ADDR) (h2 : c.base ≠ FLASH_BASE_BANK2_4032K)
    (h3 : c.base ≠ FLASH_BASE_BANK2_1024K) (h4 : c.base ≠ OTP_BANK_BASE_ADDR) :
    artery_probe_geometry c R S = none := by
  unfold artery_probe_geometry
  rw [if_neg h4, if_neg h1, if_neg (not_or.mpr ⟨h2, h3⟩)]

theorem probe_resolve_otp (b : flash_bank) (R S : Nat) (tr : List Access)
    (hb : b.base = OTP_BANK_BASE_ADDR) :
    probe_resolve b R S tr =
      ⟨ERROR_OK,
        artery_probe_finish
          { b with driver_priv := { b.driver_priv with flash_regs_base := EFC_BASE } }
          (if R = 4032 ∨ R = 448 then 4 <<< 10 else 512)
          (if R = 4032 ∨ R = 448 then 4 <<< 10 else 512),
        tr, if R = 4032 ∨ R = 448 then 4 <<< 10 else 512⟩ := by
  have h0 : b.base ≠ 0 := by rw [hb]; decide
  have e1 : (if b.base = 0x0 then { b with base := FLASH_BASE_ADDR } else b) = b := if_neg h0
  unfold probe_resolve
  simp only []
  rw [e1, probe_geometry_otp b R S hb]

theorem probe_resolve_bank1 (b : flash_bank) (R S : Nat) (tr : List Access)
    (hb : b.base = 0 ∨ b.base = FLASH_BASE_ADDR) :
    probe_resolve b R S tr =
      ⟨ERROR_OK,
        artery_probe_finish
          { b with
            base := FLASH_BASE_ADDR
            driver_priv := { b.driver_priv with flash_regs_base := EFC_BASE } }
          S (if R = 4032 then 2048 <<< 10 else if R = 1024 then 512 <<< 10 else R),
        tr, S⟩ := by
  have e1 : (if b.base = 0x0 then { b with base := FLASH_BASE_ADDR } else b) =
      { b with base := FLASH_BASE_ADDR } := by
    rcases hb with hb | hb
    · rw [if_pos hb]
    · have hne : b.base ≠ 0 := by rw [hb]; decide
      rw [if_neg hne, bank_base_eta b _ hb]
  unfold probe_resolve
  simp only []
  rw [e1, probe_geometry_bank1 _ R S rfl]

theorem probe_resolve_bank2 (b : flash_bank) (R S : Nat) (tr : List Access)
    (hb : b.base = FLASH_BASE_BANK2_4032K ∨ b.base = FLASH_BASE_BANK2_1024K) :
    probe_resolve b R S tr =
      ⟨ERROR_OK,
        artery_probe_finish
          { b with
            base := if R = 4032 then FLASH_BASE_BANK2_4032K
              else if R = 1024 then FLASH_BASE_BANK2_1024K else b.base
            driver_priv := { b.driver_priv with flash_regs_base := EFC_BASE_BANK2 } }
          S (if R = 4032 then 1984 <<< 10 else if R = 1024 then 512 <<< 10 else 0),
        tr, S⟩ := by
  have h0 : b.base ≠ 0 := by rcases hb with hb | hb <;> rw [hb] <;> decide
  have e1 : (if b.base = 0x0 then { b with base := FLASH_BASE_ADDR } else b) = b := if_neg h0
  unfold probe_resolve
  simp only []
  rw [e1, probe_geometry_bank2 b R S hb]

theorem probe_resolve_unsupported (b : flash_bank) (R S : Nat) (tr : List Access)
    (h0 : b.base ≠ 0) (h1 : b.base ≠ FLASH_BASE_ADDR) (h2 : b.base ≠ FLASH_BASE_BANK2_4032K)
    (h3 : b.base ≠ FLASH_BASE_BANK2_1024K) (h4 : b.base ≠ OTP_BANK_BASE_ADDR) :
    probe_resolve b R S tr = ⟨ERROR_FAIL, b, tr, S⟩ := by
  have e1 : (if b.base = 0x0 then { b with base := FLASH_BASE_ADDR } else b) = b := if_neg h0
  unfold probe_resolve
  simp only []
  rw [e1, probe_geometry_unsupported b R S h1 h2 h3 h4]


theorem probe_finish_probed (b : flash_bank) (S bs : Nat) :
    (artery_probe_finish b S bs).driver_priv.probed = true := rfl

theorem probe_finish_base (b : flash_bank) (S bs : Nat) :
    (artery_probe_finish b S bs).base = b.base := by
  unfold artery_probe_finish
  simp only []
  split_ifs <;> rfl

theorem probe_finish_regs (b : flash_bank) (S bs : Nat) :
    (artery_probe_finish b S bs).driver_priv.flash_regs_base = b.driver_priv.flash_regs_base := by
  unfold artery_probe_finish
  simp only []
  split_ifs <;> rfl

/-- The base addresses `artery_probe` accepts. -/
theorem probe_resolve_cases (b : flash_bank) (R S : Nat) (tr : List Access) :
    (probe_resolve b R S tr = ⟨ERROR_FAIL, b, tr, S⟩ ∧
      b.base ≠ 0 ∧ b.base ≠ FLASH_BASE_ADDR ∧ b.base ≠ FLASH_BASE_BANK2_4032K ∧
      b.base ≠ FLASH_BASE_BANK2_1024K ∧ b.base ≠ OTP_BANK_BASE_ADDR) ∨
    ((b.base = 0 ∨ b.base = FLASH_BASE_ADDR ∨ b.base = FLASH_BASE_BANK2_4032K ∨
        b.base = FLASH_BASE_BANK2_1024K ∨ b.base = OTP_BANK_BASE_ADDR) ∧
      ∃ c S2 bs, c.num_sectors = b.num_sectors ∧ c.sectors = b.sectors ∧
        probe_resolve b R S tr = ⟨ERROR_OK, artery_probe_finish c S2 bs, tr, S2⟩) := by
  by_cases h0 : b.base = 0
  · exact Or.inr ⟨Or.inl h0, _, _, _, by rfl, by rfl, probe_resolve_bank1 b R S tr (Or.inl h0)⟩
  by_cases h1 : b.base = FLASH_BASE_ADDR
  · exact Or.inr ⟨Or.inr (Or.inl h1), _, _, _, by rfl, by rfl,
      probe_resolve_bank1 b R S tr (Or.inr h1)⟩
  by_cases h2 : b.base = FLASH_BASE_BANK2_4032K
  · exact Or.inr ⟨Or.inr (Or.inr (Or.inl h2)), _, _, _, by rfl, by rfl,
      probe_resolve_bank2 b R S tr (Or.inl h2)⟩
  by_cases h3 : b.base = FLASH_BASE_BANK2_1024K
  · exact Or.inr ⟨Or.inr (Or.inr (Or.inr (Or.inl h3))), _, _, _, by rfl, by rfl,
      probe_resolve_bank2 b R S tr (Or.inr h3)⟩
  by_cases h4 : b.base = OTP_BANK_BASE_ADDR
  · exact Or.inr ⟨Or.inr (Or.inr (Or.inr (Or.inr h4))), _, _, _, by rfl, by rfl,
      probe_resolve_otp b R S tr h4⟩
  · exact Or.inl ⟨probe_resolve_unsupported b R S tr h0 h1 h2 h3 h4, h0, h1, h2, h3, h4⟩

/-- The bank is probed after a probe exactly when the probe returned success. -/
theorem probe_probed_iff (tp : Transport) (bank : flash_bank) (tr : List Access) :
    (artery_probe tp bank tr).bank.driver_priv.probed = true ↔
      (artery_probe tp bank tr).retval = ERROR_OK := by
  have e1 : ERROR_TARGET_NOT_EXAMINED ≠ ERROR_OK := by decide
  have e2 : ERROR_FAIL ≠ ERROR_OK := by decide
  have eb : (false = true) → False := Bool.false_ne_true
  rw [probe_eq]
  by_cases h1 : bank.target.examined = false
  · rw [if_pos h1]
    exact ⟨fun h => (eb h).elim, fun h => absurd h e1⟩
  · rw [if_neg h1]
    by_cases h2 : (tp tr (Access.read_u32 MCU_DEVICE_ID_ADDR)).retval ≠ ERROR_OK
    · rw [if_pos h2]
      exact ⟨fun h => (eb h).elim, fun h => absurd h h2⟩
    · rw [if_neg h2]
      rcases probe_resolve_cases (probe_reset bank) _ _ _ with ⟨he, -⟩ | ⟨-, c, S2, bs, -, -, he⟩
      · rw [he]
        exact ⟨fun h => (eb h).elim, fun h => absurd h e2⟩
      · rw [he]
        exact ⟨fun _ => rfl, fun _ => probe_finish_probed _ _ _⟩

/-- C18: whenever `artery_probe` fails, the bank is left unprobed with an empty sector
table (`num_sectors = 0`), whatever its state was before the call, and the bank is
probed after a call exactly when that call returned success.  The failures are: target
not examined (`ERROR_TARGET_NOT_EXAMINED`), a failed device-id read (that transport
error), and a base address other than `0`, `0x08000000`, `0x08200000`, `0x08080000` or
`0x1FFFC000` (`ERROR_FAIL`); in every other case the probe succeeds. -/
theorem C18_probe_failure (tp : Transport) (bank : flash_bank) (tr : List Access) :
    ((artery_probe tp bank tr).retval ≠ ERROR_OK →
      (artery_probe tp bank tr).bank.driver_priv.probed = false ∧
      (artery_probe tp bank tr).bank.num_sectors = 0 ∧
      (artery_probe tp bank tr).bank.sectors = []) ∧
    ((artery_probe tp bank tr).bank.driver_priv.probed = true ↔
      (artery_probe tp bank tr).retval = ERROR_OK) ∧
    (bank.target.examined = false →
      (artery_probe tp bank tr).retval = ERROR_TARGET_NOT_EXAMINED) ∧
    (bank.target.examined = true →
      (tp tr (Access.read_u32 MCU_DEVICE_ID_ADDR)).retval ≠ ERROR_OK →
      (artery_probe tp bank tr).retval = (tp tr (Access.read_u32 MCU_DEVICE_ID_ADDR)).retval) ∧
    (bank.target.examined = true →
      (tp tr (Access.read_u32 MCU_DEVICE_ID_ADDR)).retval = ERROR_OK →
      ((artery_probe tp bank tr).retval = ERROR_FAIL ↔
        (bank.base ≠ 0 ∧ bank.base ≠ FLASH_BASE_ADDR ∧ bank.base ≠ FLASH_BASE_BANK2_4032K ∧
          bank.base ≠ FLASH_BASE_BANK2_1024K ∧ bank.base ≠ OTP_BANK_BASE_ADDR)) ∧
      ((artery_probe tp bank tr).retval = ERROR_OK ↔
        (bank.base = 0 ∨ bank.base = FLASH_BASE_ADDR ∨ bank.base = FLASH_BASE_BANK2_4032K ∨
          bank.base = FLASH_BASE_BANK2_1024K ∨ bank.base = OTP_BANK_BASE_ADDR))) := by
  have e1 : ERROR_TARGET_NOT_EXAMINED ≠ ERROR_OK := by decide
  have e2 : ERROR_FAIL ≠ ERROR_OK := by decide
  have e3 : ERROR_OK ≠ ERROR_FAIL := by decide
  have eb : (false = true) → False := Bool.false_ne_true
  rw [probe_eq]
  by_cases h1 : bank.target.examined = false
  · rw [if_pos h1]
    have hne : bank.target.examined ≠ true := by rw [h1]; exact Bool.false_ne_true
    exact ⟨fun _ => ⟨rfl, rfl, rfl⟩, ⟨fun h => (eb h).elim, fun h => absurd h e1⟩, fun _ => rfl,
      fun h => absurd h hne, fun h => absurd h hne⟩
  · rw [if_neg h1]
    by_cases h2 : (tp tr (Access.read_u32 MCU_DEVICE_ID_ADDR)).retval ≠ ERROR_OK
    · rw [if_pos h2]
      exact ⟨fun _ => ⟨rfl, rfl, rfl⟩, ⟨fun h => (eb h).elim, fun h => absurd h h2⟩,
        fun h => absurd h h1, fun _ _ => rfl, fun _ h => absurd h h2⟩
    · rw [if_neg h2]
      have hcase := probe_resolve_cases (probe_reset bank)
        (artery_probe_sector_size ((tp tr (Access.read_u32 MCU_DEVICE_ID_ADDR)).value % 2 ^ 32)
          ((tp (tr ++ [Access.read_u32 MCU_DEVICE_ID_ADDR])
            (Access.read_u16 FLASH_SIZE_ADDR)).value % 2 ^ 16)
          (probe_flash_is_unknown (tp (tr ++ [Access.read_u32 MCU_DEVICE_ID_ADDR])
            (Access.read_u16 FLASH_SIZE_ADDR)))).1
        (artery_probe_sector_size ((tp tr (Access.read_u32 MCU_DEVICE_ID_ADDR)).value % 2 ^ 32)
          ((tp (tr ++ [Access.read_u32 MCU_DEVICE_ID_ADDR])
            (Access.read_u16 FLASH_SIZE_ADDR)).value % 2 ^ 16)
          (probe_flash_is_unknown (tp (tr ++ [Access.read_u32 MCU_DEVICE_ID_ADDR])
            (Access.read_u16 FLASH_SIZE_ADDR)))).2
        (tr ++ [Access.read_u32 MCU_DEVICE_ID_ADDR, Access.read_u16 FLASH_SIZE_ADDR])
      have hbase : (probe_reset bank).base = bank.base := rfl
      rw [hbase] at hcase
      rcases hcase with ⟨he, hn⟩ | ⟨hs, c, S2, bs, -, -, he⟩
      · rw [he]
        refine ⟨fun _ => ⟨rfl, rfl, rfl⟩, ⟨fun h => (eb h).elim, fun h => absurd h e2⟩,
          fun h => absurd h h1, fun _ h => absurd h h2,
          fun _ _ => ⟨⟨fun _ => hn, fun _ => rfl⟩, ⟨fun h => absurd h e2, fun h => ?_⟩⟩⟩
        · obtain ⟨n0, n1, n2, n3, n4⟩ := hn
          rcases h with h | h | h | h | h
          · exact absurd h n0
          · exact absurd h n1
          · exact absurd h n2
          · exact absurd h n3
          · exact absurd h n4
      · rw [he]
        refine ⟨fun h => absurd rfl h, ⟨fun _ => rfl, fun _ => probe_finish_probed _ _ _⟩,
          fun h => absurd h h1, fun _ h => absurd h h2,
          fun _ _ => ⟨⟨fun h => absurd h e3, fun h => ?_⟩, ⟨fun _ => hs, fun _ => rfl⟩⟩⟩
        · obtain ⟨n0, n1, n2, n3, n4⟩ := h
          rcases hs with h | h | h | h | h
          · exact absurd h n0
          · exact absurd h n1
          · exact absurd h n2
          · exact absurd h n3
          · exact absurd h n4

set_option maxRecDepth 100000 in
theorem C18_probe_failure_witness :
    scenario_bank_unsupported.driver_priv.probed = true ∧
    scenario_bank_unsupported.num_sectors = 4 ∧
    (artery_probe (scenario_transport 0x70030109 64) scenario_bank_unsupported []).retval
      = ERROR_FAIL ∧
    (artery_probe (scenario_transport 0x70030109 64) scenario_bank_unsupported
      []).bank.driver_priv.probed = false ∧
    (artery_probe (scenario_transport 0x70030109 64) scenario_bank_unsupported
      []).bank.num_sectors = 0 ∧
    (artery_probe (scenario_transport 0x70030109 64) scenario_bank_unsupported
      []).bank.sectors = [] :=
  ⟨rfl, rfl, by decide,
    (C18_probe_failure (scenario_transport 0x70030109 64) scenario_bank_unsupported []).1
      (by decide)⟩

/-! ### Auto-probe -/

/-- C19: if the bank is already probed, `artery_auto_probe` returns success, issues no
transport access and leaves the whole bank descriptor unchanged; if it is not probed,
`artery_auto_probe` is `artery_probe`.  In particular, after a successful probe an
auto-probe of the resulting bank issues no access, whatever the transport. -/
theorem C19_auto_probe (tp : Transport) (bank : flash_bank) (tr : List Access) :
    (bank.driver_priv.probed = true →
      (artery_auto_probe tp bank tr).retval = ERROR_OK ∧
      (artery_auto_probe tp bank tr).bank = bank ∧
      (artery_auto_probe tp bank tr).trace = tr) ∧
    (bank.driver_priv.probed = false →
      artery_auto_probe tp bank tr = artery_probe tp bank tr) ∧
    ((artery_probe tp bank tr).retval = ERROR_OK →
      ∀ (tp2 : Transport) (tr2 : List Access),
        (artery_auto_probe tp2 (artery_probe tp bank tr).bank tr2).retval = ERROR_OK ∧
        (artery_auto_probe tp2 (artery_probe tp bank tr).bank tr2).bank
          = (artery_probe tp bank tr).bank ∧
        (artery_auto_probe tp2 (artery_probe tp bank tr).bank tr2).trace = tr2) := by
  have hp : ∀ (t : Transport) (b : flash_bank) (r : List Access),
      b.driver_priv.probed = true →
        (artery_auto_probe t b r).retval = ERROR_OK ∧ (artery_auto_probe t b r).bank = b ∧
          (artery_auto_probe t b r).trace = r := by
    intro t b r h
    unfold artery_auto_probe
    rw [if_pos h]
    exact ⟨rfl, rfl, rfl⟩
  refine ⟨hp tp bank tr, ?_, ?_⟩
  · intro h
    unfold artery_auto_probe
    rw [if_neg (by rw [h]; exact Bool.false_ne_true)]
  · intro hok tp2 tr2
    exact hp tp2 _ tr2 ((probe_probed_iff tp bank tr).mpr hok)

theorem C19_auto_probe_witness :
    scenario_bank_main.driver_priv.probed = true ∧
    (artery_auto_probe (scenario_transport 0x70030109 64) scenario_bank_main []).retval
      = ERROR_OK ∧
    (artery_auto_probe (scenario_transport 0x70030109 64) scenario_bank_main []).bank
      = scenario_bank_main ∧
    (artery_auto_probe (scenario_transport 0x70030109 64) scenario_bank_main []).trace = [] :=
  ⟨rfl, (C19_auto_probe (scenario_transport 0x70030109 64) scenario_bank_main []).1 rfl⟩


/-! ### Preconditions of erase and write -/

/-- C13: when the target is not halted, `artery_mass_erase`, `artery_erase` (on a valid
range) and `artery_write` (for main banks and for the option area alike) each return
`ERROR_TARGET_NOT_HALTED` without any transport access; and `artery_mass_erase` on a
halted option-area bank returns `ERROR_FLASH_BANK_INVALID` without any transport
access. -/
theorem C13_not_halted (fuel : Nat) (tp : Transport) (bank : flash_bank) (buffer : List Nat)
    (offset count first last : Nat) (tr : List Access) :
    (bank.target.state ≠ target_state.TARGET_HALTED →
      artery_mass_erase tp bank tr = ⟨ERROR_TARGET_NOT_HALTED, tr⟩ ∧
      (first ≤ last ∧ last < bank.num_sectors →
        artery_erase tp bank first last tr = some ⟨ERROR_TARGET_NOT_HALTED, tr⟩) ∧
      artery_write fuel tp bank buffer offset count tr = ⟨some ERROR_TARGET_NOT_HALTED, tr⟩ ∧
      artery_write_user fuel tp bank buffer offset count tr
        = ⟨some ERROR_TARGET_NOT_HALTED, tr⟩) ∧
    (bank.target.state = target_state.TARGET_HALTED → bank.base = OTP_BANK_BASE_ADDR →
      artery_mass_erase tp bank tr = ⟨ERROR_FLASH_BANK_INVALID, tr⟩) := by
  refine ⟨fun hn => ⟨?_, ?_, ?_, ?_⟩, fun hh hotp => ?_⟩
  · unfold artery_mass_erase
    rw [if_pos hn]
  · intro hr
    unfold artery_erase
    rw [if_neg (not_not.mpr hr), if_pos hn]
  · unfold artery_write
    simp only []
    by_cases ho : artery_is_otp bank = true
    · rw [if_pos ho]
      unfold artery_write_user
      simp only []
      rw [if_pos hn]
    · rw [if_neg ho, if_pos hn]
  · unfold artery_write_user
    simp only []
    rw [if_pos hn]
  · unfold artery_mass_erase
    have ho : artery_is_otp bank = true := by
      unfold artery_is_otp
      rw [hotp]
      exact beq_self_eq_true _
    rw [if_neg (not_not.mpr hh), if_pos ho]

theorem C13_not_halted_witness :
    scenario_bank_running.target.state ≠ target_state.TARGET_HALTED ∧
    scenario_bank_otp_running.target.state ≠ target_state.TARGET_HALTED ∧
    artery_mass_erase (scenario_transport_ctrl 0) scenario_bank_running []
      = ⟨ERROR_TARGET_NOT_HALTED, []⟩ ∧
    artery_erase (scenario_transport_ctrl 0) scenario_bank_running 0 3 []
      = some ⟨ERROR_TARGET_NOT_HALTED, []⟩ ∧
    artery_write 8 (scenario_transport_ctrl 0) scenario_bank_running [1, 2, 3, 4] 0 4 []
      = ⟨some ERROR_TARGET_NOT_HALTED, []⟩ ∧
    artery_write 8 (scenario_transport_ctrl 0) scenario_bank_otp_running [1, 2] 0 2 []
      = ⟨some ERROR_TARGET_NOT_HALTED, []⟩ ∧
    artery_mass_erase (scenario_transport_ctrl 0) scenario_bank_otp []
      = ⟨ERROR_FLASH_BANK_INVALID, []⟩ :=
  ⟨by decide, by decide,
    ((C13_not_halted 8 (scenario_transport_ctrl 0) scenario_bank_running [1, 2, 3, 4] 0 4 0 3
      []).1 (by decide)).1,
    ((C13_not_halted 8 (scenario_transport_ctrl 0) scenario_bank_running [1, 2, 3, 4] 0 4 0 3
      []).1 (by decide)).2.1 (by decide),
    ((C13_not_halted 8 (scenario_transport_ctrl 0) scenario_bank_running [1, 2, 3, 4] 0 4 0 3
      []).1 (by decide)).2.2.1,
    ((C13_not_halted 8 (scenario_transport_ctrl 0) scenario_bank_otp_running [1, 2] 0 2 0 0
      []).1 (by decide)).2.2.1,
    (C13_not_halted 8 (scenario_transport_ctrl 0) scenario_bank_otp [1, 2] 0 2 0 0 []).2
      rfl rfl⟩


/-! ### Probe: sector-size resolution -/

/-- A probe on an examined target whose device-id read succeeds is the resolution stage
applied to the flash size and sector size resolved from the two reads. -/
theorem probe_eq_resolve (tp : Transport) (bank : flash_bank) (tr : List Access)
    (hex : bank.target.examined = true) (hid : (probe_id_reply tp tr).retval = ERROR_OK) :
    artery_probe tp bank tr =
      probe_resolve (probe_reset bank) (probe_flash_size tp tr) (probe_sector_size tp tr)
        (tr ++ [Access.read_u32 MCU_DEVICE_ID_ADDR, Access.read_u16 FLASH_SIZE_ADDR]) := by
  have hid2 : ¬ (tp tr (Access.read_u32 MCU_DEVICE_ID_ADDR)).retval ≠ ERROR_OK :=
    not_not.mpr hid
  have hex2 : ¬ bank.target.examined = false := by rw [hex]; exact fun h => Bool.noConfusion h
  rw [probe_eq, if_neg hex2, if_neg hid2]
  rfl

theorem guess_values (x : Int) :
    artery_guess_sector_size_from_flash_size x = 4096 ∨
    artery_guess_sector_size_from_flash_size x = 1024 ∨
    artery_guess_sector_size_from_flash_size x = 2048 := by
  unfold artery_guess_sector_size_from_flash_size
  split_ifs
  · exact Or.inl rfl
  · exact Or.inr (Or.inl rfl)
  · exact Or.inr (Or.inr rfl)

theorem guess_toNat_mod (x : Int) :
    (artery_guess_sector_size_from_flash_size x).toNat % 2 ^ 32 =
      (artery_guess_sector_size_from_flash_size x).toNat := by
  rcases guess_values x with h | h | h <;> rw [h] <;> rfl

theorem find_chip_mem (id : Nat) (chip : artery_chip_info)
    (h : artery_find_chip_from_id id = some chip) : chip ∈ known_artery_chips := by
  rw [find_chip_eq_find] at h
  exact (List.mem_filter.mp (List.mem_of_find?_eq_some h)).1

set_option maxRecDepth 100000 in
theorem known_chips_size_lt : ∀ c ∈ known_artery_chips, c.flash_size_kB < 2 ^ 16 := by
  decide

set_option maxRecDepth 100000 in
theorem known_chips_sector_size :
    ∀ c ∈ known_artery_chips, is_sentinel c = false →
      c.sector_size = 1024 ∨ c.sector_size = 2048 ∨ c.sector_size = 4096 := by
  decide

theorem sector_size_found_unknown (id v : Nat) (chip : artery_chip_info)
    (h : artery_find_chip_from_id id = some chip) :
    artery_probe_sector_size id v true = (chip.flash_size_kB, chip.sector_size) := by
  have hlt := known_chips_size_lt chip (find_chip_mem id chip h)
  unfold artery_probe_sector_size
  rw [h]
  simp only [if_true, Nat.mod_eq_of_lt hlt]

theorem sector_size_found_equal (id v : Nat) (chip : artery_chip_info)
    (h : artery_find_chip_from_id id = some chip) (hv : v = chip.flash_size_kB) :
    artery_probe_sector_size id v false = (v, chip.sector_size) := by
  unfold artery_probe_sector_size
  rw [h]
  simp only [Bool.false_eq_true, if_false, if_pos hv]

theorem sector_size_found_differ (id v : Nat) (chip : artery_chip_info)
    (h : artery_find_chip_from_id id = some chip) (hv : v ≠ chip.flash_size_kB) :
    artery_probe_sector_size id v false =
      (v, (artery_guess_sector_size_from_flash_size v).toNat) := by
  unfold artery_probe_sector_size
  rw [h]
  simp only [Bool.false_eq_true, if_false, if_neg hv, guess_toNat_mod]

theorem sector_size_not_found (id v : Nat) (u : Bool)
    (h : artery_find_chip_from_id id = none) :
    artery_probe_sector_size id v u =
      (v, (artery_guess_sector_size_from_flash_size v).toNat) := by
  unfold artery_probe_sector_size
  rw [h]
  simp only [guess_toNat_mod]

/-- C14: in a successful probe of a main bank (base `0`, `0x08000000`, `0x08200000` or
`0x08080000`) the sector size used is the one resolved from catalogue and heuristic.
When a valid flash size (read succeeded, not `0`, not `0xFFFF`) is read, that is: the
catalogue record's sector size if the id is found and the reported size equals the
catalogue flash size; `artery_guess_sector_size_from_flash_size` of the reported size if
the id is found but the sizes differ; and the same heuristic if the id is not found.
When the flash size is unreadable and the id is found, the catalogue flash size is
adopted as the reported size and the catalogue sector size is used. -/
theorem C14_probe_sector_size (tp : Transport) (bank : flash_bank) (tr : List Access)
    (hex : bank.target.examined = true)
    (hid : (probe_id_reply tp tr).retval = ERROR_OK)
    (hmain : bank.base = 0 ∨ bank.base = FLASH_BASE_ADDR ∨
      bank.base = FLASH_BASE_BANK2_4032K ∨ bank.base = FLASH_BASE_BANK2_1024K) :
    ((artery_probe tp bank tr).retval = ERROR_OK ∧
      (artery_probe tp bank tr).sector_size = probe_sector_size tp tr) ∧
    (probe_flash_is_unknown (probe_size_reply tp tr) = false ↔
      ((probe_size_reply tp tr).retval = ERROR_OK ∧ probe_read_size tp tr ≠ 0xffff ∧
        probe_read_size tp tr ≠ 0)) ∧
    (probe_flash_is_unknown (probe_size_reply tp tr) = false →
      probe_flash_size tp tr = probe_read_size tp tr ∧
      (∀ chip, artery_find_chip_from_id (probe_device_id tp tr) = some chip →
        probe_read_size tp tr = chip.flash_size_kB →
        probe_sector_size tp tr = chip.sector_size) ∧
      (∀ chip, artery_find_chip_from_id (probe_device_id tp tr) = some chip →
        probe_read_size tp tr ≠ chip.flash_size_kB →
        probe_sector_size tp tr =
          (artery_guess_sector_size_from_flash_size (probe_read_size tp tr)).toNat) ∧
      (artery_find_chip_from_id (probe_device_id tp tr) = none →
        probe_sector_size tp tr =
          (artery_guess_sector_size_from_flash_size (probe_read_size tp tr)).toNat)) ∧
    (probe_flash_is_unknown (probe_size_reply tp tr) = true →
      ∀ chip, artery_find_chip_from_id (probe_device_id tp tr) = some chip →
        probe_flash_size tp tr = chip.flash_size_kB ∧
        probe_sector_size tp tr = chip.sector_size) := by
  refine ⟨?_, ?_, ?_, ?_⟩
  · rw [probe_eq_resolve tp bank tr hex hid]
    have hbase : (probe_reset bank).base = bank.base := rfl
    rcases hmain with h | h | h | h
    · rw [probe_resolve_bank1 _ _ _ _ (Or.inl (hbase.trans h))]
      exact ⟨rfl, rfl⟩
    · rw [probe_resolve_bank1 _ _ _ _ (Or.inr (hbase.trans h))]
      exact ⟨rfl, rfl⟩
    · rw [probe_resolve_bank2 _ _ _ _ (Or.inl (hbase.trans h))]
      exact ⟨rfl, rfl⟩
    · rw [probe_resolve_bank2 _ _ _ _ (Or.inr (hbase.trans h))]
      exact ⟨rfl, rfl⟩
  · unfold probe_flash_is_unknown probe_read_size
    simp only [Bool.or_eq_false_iff, decide_eq_false_iff_not, not_not, beq_eq_false_iff_ne,
      ne_eq, and_assoc]
  · intro hv
    unfold probe_flash_size probe_sector_size
    rw [hv]
    refine ⟨?_, ?_, ?_, ?_⟩
    · cases hf : artery_find_chip_from_id (probe_device_id tp tr) with
      | none => rw [sector_size_not_found _ _ _ hf]
      | some chip =>
        by_cases he : probe_read_size tp tr = chip.flash_size_kB
        · rw [sector_size_found_equal _ _ _ hf he]
        · rw [sector_size_found_differ _ _ _ hf he]
    · intro chip hf he
      rw [sector_size_found_equal _ _ _ hf he]
    · intro chip hf he
      rw [sector_size_found_differ _ _ _ hf he]
    · intro hf
      rw [sector_size_not_found _ _ _ hf]
  · intro hu chip hf
    unfold probe_flash_size probe_sector_size
    rw [hu, sector_size_found_unknown _ _ _ hf]
    exact ⟨rfl, rfl⟩

set_option maxRecDepth 100000 in
theorem C14_probe_sector_size_witness :
    (scenario_bank FLASH_BASE_ADDR).target.examined = true ∧
    (probe_id_reply (scenario_transport 0x70030109 256) []).retval = ERROR_OK ∧
    artery_find_chip_from_id (probe_device_id (scenario_transport 0x70030109 256) []) =
      some (artery_chip_info.mk 0x70030109 64 1024 (some "AT32F415C8T7")) ∧
    probe_read_size (scenario_transport 0x70030109 256) [] = 256 ∧
    (artery_probe (scenario_transport 0x70030109 256) (scenario_bank FLASH_BASE_ADDR)
      []).sector_size = 2048 :=
  ⟨rfl, rfl, by decide, by decide,
    ((C14_probe_sector_size (scenario_transport 0x70030109 256) (scenario_bank FLASH_BASE_ADDR)
      [] rfl rfl (Or.inr (Or.inl rfl))).1.2).trans
      ((((C14_probe_sector_size (scenario_transport 0x70030109 256)
        (scenario_bank FLASH_BASE_ADDR) [] rfl rfl (Or.inr (Or.inl rfl))).2.2.1
          (by decide)).2.2.1 (artery_chip_info.mk 0x70030109 64 1024 (some "AT32F415C8T7"))
          (by decide) (by decide)).trans (by decide))⟩


/-! ### Probe: bank 2 and option area -/

theorem probe_flash_size_valid (tp : Transport) (tr : List Access)
    (hv : probe_flash_is_unknown (probe_size_reply tp tr) = false) :
    probe_flash_size tp tr = probe_read_size tp tr := by
  unfold probe_flash_size
  rw [hv]
  cases hf : artery_find_chip_from_id (probe_device_id tp tr) with
  | none => rw [sector_size_not_found _ _ _ hf]
  | some chip =>
    by_cases he : probe_read_size tp tr = chip.flash_size_kB
    · rw [sector_size_found_equal _ _ _ hf he]
    · rw [sector_size_found_differ _ _ _ hf he]

/-- C16: probing a bank configured at either bank-2 base (`0x08200000` or `0x08080000`)
succeeds, marks the bank probed and sets the register base to the secondary controller
block (`0x40023C40`).  For a flash size of 4032 kB the bank gets size 1984 kB and base
`0x08200000`, whichever of the two bases was supplied; for 1024 kB it gets size 512 kB
and base `0x08080000`; for every other flash size it gets size 0 with zero sectors and
keeps its base.  The flash size is the value read from the flash-size register whenever
that read is valid. -/
theorem C16_probe_bank2 (tp : Transport) (bank : flash_bank) (tr : List Access)
    (hex : bank.target.examined = true)
    (hid : (probe_id_reply tp tr).retval = ERROR_OK)
    (hbase : bank.base = FLASH_BASE_BANK2_4032K ∨ bank.base = FLASH_BASE_BANK2_1024K) :
    (artery_probe tp bank tr).retval = ERROR_OK ∧
    (artery_probe tp bank tr).bank.driver_priv.probed = true ∧
    (artery_probe tp bank tr).bank.driver_priv.flash_regs_base = 0x40023C40 ∧
    (probe_flash_size tp tr = 4032 →
      (artery_probe tp bank tr).bank.size = 1984 * 1024 ∧
      (artery_probe tp bank tr).bank.base = 0x08200000) ∧
    (probe_flash_size tp tr = 1024 →
      (artery_probe tp bank tr).bank.size = 512 * 1024 ∧
      (artery_probe tp bank tr).bank.base = 0x08080000) ∧
    (probe_flash_size tp tr ≠ 4032 → probe_flash_size tp tr ≠ 1024 →
      (artery_probe tp bank tr).bank.size = 0 ∧
      (artery_probe tp bank tr).bank.num_sectors = 0 ∧
      (artery_probe tp bank tr).bank.sectors = [] ∧
      (artery_probe tp bank tr).bank.base = bank.base) ∧
    (probe_flash_is_unknown (probe_size_reply tp tr) = false →
      probe_flash_size tp tr = probe_read_size tp tr) := by
  have hb : (probe_reset bank).base = FLASH_BASE_BANK2_4032K ∨
      (probe_reset bank).base = FLASH_BASE_BANK2_1024K := hbase
  rw [probe_eq_resolve tp bank tr hex hid, probe_resolve_bank2 _ _ _ _ hb]
  have hf := fun (c : flash_bank) (h0 : c.num_sectors = 0) (h1 : c.sectors = []) (bs : Nat) =>
    probe_finish_fields c (probe_sector_size tp tr) bs h0 h1
  refine ⟨rfl, probe_finish_probed _ _ _, ?_, ?_, ?_, ?_, probe_flash_size_valid tp tr⟩
  · show (artery_probe_finish _ _ _).driver_priv.flash_regs_base = _
    rw [probe_finish_regs]; rfl
  · intro h
    show (artery_probe_finish _ _ _).size = _ ∧ (artery_probe_finish _ _ _).base = _
    rw [probe_finish_base, (hf _ rfl rfl _).1]
    simp only [if_pos h]
    exact ⟨by decide, rfl⟩
  · intro h
    have h4 : probe_flash_size tp tr ≠ 4032 := by rw [h]; decide
    show (artery_probe_finish _ _ _).size = _ ∧ (artery_probe_finish _ _ _).base = _
    rw [probe_finish_base, (hf _ rfl rfl _).1]
    simp only [if_neg h4, if_pos h]
    exact ⟨by decide, rfl⟩
  · intro h4 h1
    show (artery_probe_finish _ _ _).size = _ ∧ (artery_probe_finish _ _ _).num_sectors = _ ∧
      (artery_probe_finish _ _ _).sectors = _ ∧ (artery_probe_finish _ _ _).base = _
    rw [probe_finish_base, (hf _ rfl rfl _).1, (hf _ rfl rfl _).2.1, (hf _ rfl rfl _).2.2]
    simp only [if_neg h4, if_neg h1, ne_eq, not_true_eq_false, if_false]
    exact ⟨trivial, trivial, trivial, rfl⟩

set_option maxRecDepth 100000 in
theorem C16_probe_bank2_witness :
    (scenario_bank FLASH_BASE_BANK2_1024K).target.examined = true ∧
    (probe_id_reply (scenario_transport 0x70084549 4032) []).retval = ERROR_OK ∧
    probe_flash_size (scenario_transport 0x70084549 4032) [] = 4032 ∧
    (artery_probe (scenario_transport 0x70084549 4032) (scenario_bank FLASH_BASE_BANK2_1024K)
      []).bank.size = 1984 * 1024 ∧
    (artery_probe (scenario_transport 0x70084549 4032) (scenario_bank FLASH_BASE_BANK2_1024K)
      []).bank.base = 0x08200000 :=
  ⟨rfl, rfl, by decide,
    (C16_probe_bank2 (scenario_transport 0x70084549 4032) (scenario_bank FLASH_BASE_BANK2_1024K)
      [] rfl rfl (Or.inr rfl)).2.2.2.1 (by decide)⟩

/-- C17: probing the option-area bank (base `0x1FFFC000`) succeeds, sets the register
base to the primary controller block (`0x40023C00`) and sets bank size and sector size
both to 4096 bytes if the flash size is 4032 or 448 kB and both to 512 bytes for every
other flash size, whatever sector size catalogue or heuristic resolved; the sector table
has exactly one sector, at offset 0.  The flash size is the value read from the
flash-size register whenever that read is valid. -/
theorem C17_probe_otp (tp : Transport) (bank : flash_bank) (tr : List Access)
    (hex : bank.target.examined = true)
    (hid : (probe_id_reply tp tr).retval = ERROR_OK)
    (hbase : bank.base = OTP_BANK_BASE_ADDR) :
    (artery_probe tp bank tr).retval = ERROR_OK ∧
    (artery_probe tp bank tr).bank.driver_priv.flash_regs_base = 0x40023C00 ∧
    (artery_probe tp bank tr).bank.size =
      (if probe_flash_size tp tr = 4032 ∨ probe_flash_size tp tr = 448 then 4096 else 512) ∧
    (artery_probe tp bank tr).sector_size =
      (if probe_flash_size tp tr = 4032 ∨ probe_flash_size tp tr = 448 then 4096 else 512) ∧
    (artery_probe tp bank tr).bank.num_sectors = 1 ∧
    (artery_probe tp bank tr).bank.sectors =
      [flash_sector.mk 0
        (if probe_flash_size tp tr = 4032 ∨ probe_flash_size tp tr = 448 then 4096 else 512)
        (-1) (-1)] ∧
    (probe_flash_is_unknown (probe_size_reply tp tr) = false →
      probe_flash_size tp tr = probe_read_size tp tr) := by
  have hb : (probe_reset bank).base = OTP_BANK_BASE_ADDR := hbase
  rw [probe_eq_resolve tp bank tr hex hid, probe_resolve_otp _ _ _ _ hb]
  refine ⟨rfl, ?_, ?_, ?_, ?_, ?_, probe_flash_size_valid tp tr⟩
  · show (artery_probe_finish _ _ _).driver_priv.flash_regs_base = _
    rw [probe_finish_regs]; rfl
  · show (artery_probe_finish _ _ _).size = _
    rw [(probe_finish_fields _ _ _ rfl rfl).1]
    by_cases h : probe_flash_size tp tr = 4032 ∨ probe_flash_size tp tr = 448
    · rw [if_pos h, if_pos h]; rfl
    · rw [if_neg h, if_neg h]
  · show (if probe_flash_size tp tr = 4032 ∨ probe_flash_size tp tr = 448 then 4 <<< 10
      else 512) = _
    by_cases h : probe_flash_size tp tr = 4032 ∨ probe_flash_size tp tr = 448
    · rw [if_pos h, if_pos h]; rfl
    · rw [if_neg h, if_neg h]
  · show (artery_probe_finish _ _ _).num_sectors = _
    rw [(probe_finish_fields _ _ _ rfl rfl).2.1]
    by_cases h : probe_flash_size tp tr = 4032 ∨ probe_flash_size tp tr = 448
    · rw [if_pos h]; rfl
    · rw [if_neg h]; rfl
  · show (artery_probe_finish _ _ _).sectors = _
    rw [(probe_finish_fields _ _ _ rfl rfl).2.2]
    by_cases h : probe_flash_size tp tr = 4032 ∨ probe_flash_size tp tr = 448
    · rw [if_pos h, if_pos h]; rfl
    · rw [if_neg h, if_neg h]; rfl

set_option maxRecDepth 100000 in
theorem C17_probe_otp_witness :
    (scenario_bank OTP_BANK_BASE_ADDR).target.examined = true ∧
    (probe_id_reply (scenario_transport 0x70084549 4032) []).retval = ERROR_OK ∧
    probe_flash_size (scenario_transport 0x70084549 4032) [] = 4032 ∧
    (artery_probe (scenario_transport 0x70084549 4032) (scenario_bank OTP_BANK_BASE_ADDR)
      []).bank.sectors = [flash_sector.mk 0 4096 (-1) (-1)] :=
  ⟨rfl, rfl, by decide,
    ((C17_probe_otp (scenario_transport 0x70084549 4032) (scenario_bank OTP_BANK_BASE_ADDR)
      [] rfl rfl rfl).2.2.2.2.2.1).trans (by decide)⟩


/-! ### Probe: idempotence -/

theorem probe_finish_congr (c d : flash_bank) (S bs : Nat)
    (ht : c.target = d.target) (hbase : c.base = d.base)
    (hregs : c.driver_priv.flash_regs_base = d.driver_priv.flash_regs_base)
    (hns : c.num_sectors = d.num_sectors) (hsec : c.sectors = d.sectors)
    (hnp : c.num_prot_blocks = d.num_prot_blocks) (hpb : c.prot_blocks = d.prot_blocks) :
    artery_probe_finish c S bs = artery_probe_finish d S bs := by
  obtain ⟨tg, ⟨pr, rg⟩, base, sz, ns, secs, npb, pb⟩ := c
  obtain ⟨tg2, ⟨pr2, rg2⟩, base2, sz2, ns2, secs2, npb2, pb2⟩ := d
  simp only at ht hbase hregs hns hsec hnp hpb
  subst ht hbase hregs hns hsec hnp hpb
  unfold artery_probe_finish
  simp only []
  split_ifs <;> rfl

theorem probe_finish_target (b : flash_bank) (S bs : Nat) :
    (artery_probe_finish b S bs).target = b.target := by
  unfold artery_probe_finish
  simp only []
  split_ifs <;> rfl

theorem probe_finish_prot (b : flash_bank) (S bs : Nat) :
    (artery_probe_finish b S bs).num_prot_blocks = b.num_prot_blocks ∧
    (artery_probe_finish b S bs).prot_blocks = b.prot_blocks := by
  unfold artery_probe_finish
  simp only []
  split_ifs <;> exact ⟨rfl, rfl⟩

theorem probe_reset_idem (bank : flash_bank) : probe_reset (probe_reset bank) = probe_reset bank :=
  rfl

theorem probe_resolve_idem_bank1 (bank : flash_bank) (R S : Nat) (t t2 : List Access)
    (h : (probe_reset bank).base = 0 ∨ (probe_reset bank).base = FLASH_BASE_ADDR) :
    probe_resolve (probe_reset (probe_resolve (probe_reset bank) R S t).bank) R S t2 =
      ⟨(probe_resolve (probe_reset bank) R S t).retval,
        (probe_resolve (probe_reset bank) R S t).bank, t2,
        (probe_resolve (probe_reset bank) R S t).sector_size⟩ := by
  rw [probe_resolve_bank1 (probe_reset bank) R S t h]
  simp only []
  generalize hc : ({ probe_reset bank with
      base := FLASH_BASE_ADDR
      driver_priv := { (probe_reset bank).driver_priv with flash_regs_base := EFC_BASE } }
        : flash_bank) = c
  have hcb : c.base = FLASH_BASE_ADDR := by rw [← hc]
  have hcr : c.driver_priv.flash_regs_base = EFC_BASE := by rw [← hc]
  have hcn : c.num_sectors = 0 := by rw [← hc]; rfl
  have hcs : c.sectors = [] := by rw [← hc]; rfl
  have hcp : c.num_prot_blocks = 0 := by rw [← hc]; rfl
  have hcq : c.prot_blocks = [] := by rw [← hc]; rfl
  generalize hbs : (if R = 4032 then 2048 <<< 10 else if R = 1024 then 512 <<< 10 else R) = bs
  have hb2 : (probe_reset (artery_probe_finish c S bs)).base = FLASH_BASE_ADDR :=
    (probe_finish_base c S bs).trans hcb
  rw [probe_resolve_bank1 _ R S t2 (Or.inr hb2), hbs]
  congr 1
  apply probe_finish_congr
  · exact probe_finish_target c S bs
  · exact hcb.symm
  · exact hcr.symm
  · exact hcn.symm
  · exact hcs.symm
  · exact hcp.symm
  · exact hcq.symm

theorem probe_resolve_idem_bank2 (bank : flash_bank) (R S : Nat) (t t2 : List Access)
    (h : (probe_reset bank).base = FLASH_BASE_BANK2_4032K ∨
      (probe_reset bank).base = FLASH_BASE_BANK2_1024K) :
    probe_resolve (probe_reset (probe_resolve (probe_reset bank) R S t).bank) R S t2 =
      ⟨(probe_resolve (probe_reset bank) R S t).retval,
        (probe_resolve (probe_reset bank) R S t).bank, t2,
        (probe_resolve (probe_reset bank) R S t).sector_size⟩ := by
  rw [probe_resolve_bank2 (probe_reset bank) R S t h]
  simp only []
  generalize hx : (if R = 4032 then FLASH_BASE_BANK2_4032K
    else if R = 1024 then FLASH_BASE_BANK2_1024K else (probe_reset bank).base) = x
  have hx2 : x = FLASH_BASE_BANK2_4032K ∨ x = FLASH_BASE_BANK2_1024K := by
    rw [← hx]
    by_cases h1 : R = 4032
    · rw [if_pos h1]; exact Or.inl rfl
    · rw [if_neg h1]
      by_cases h2 : R = 1024
      · rw [if_pos h2]; exact Or.inr rfl
      · rw [if_neg h2]; exact h
  have hx3 : (if R = 4032 then FLASH_BASE_BANK2_4032K
      else if R = 1024 then FLASH_BASE_BANK2_1024K else x) = x := by
    by_cases h1 : R = 4032
    · rw [if_pos h1, ← hx, if_pos h1]
    · rw [if_neg h1]
      by_cases h2 : R = 1024
      · rw [if_pos h2, ← hx, if_neg h1, if_pos h2]
      · rw [if_neg h2]
  generalize hc : ({ probe_reset bank with
      base := x
      driver_priv := { (probe_reset bank).driver_priv with flash_regs_base := EFC_BASE_BANK2 } }
        : flash_bank) = c
  have hcb : c.base = x := by rw [← hc]
  have hcr : c.driver_priv.flash_regs_base = EFC_BASE_BANK2 := by rw [← hc]
  have hcn : c.num_sectors = 0 := by rw [← hc]; rfl
  have hcs : c.sectors = [] := by rw [← hc]; rfl
  have hcp : c.num_prot_blocks = 0 := by rw [← hc]; rfl
  have hcq : c.prot_blocks = [] := by rw [← hc]; rfl
  generalize hbs : (if R = 4032 then 1984 <<< 10 else if R = 1024 then 512 <<< 10 else 0) = bs
  have hb2 : (probe_reset (artery_probe_finish c S bs)).base = x :=
    (probe_finish_base c S bs).trans hcb
  have hb3 : (probe_reset (artery_probe_finish c S bs)).base = FLASH_BASE_BANK2_4032K ∨
      (probe_reset (artery_probe_finish c S bs)).base = FLASH_BASE_BANK2_1024K := by
    rw [hb2]; exact hx2
  rw [probe_resolve_bank2 _ R S t2 hb3, hbs, hb2, hx3]
  congr 1
  apply probe_finish_congr
  · exact probe_finish_target c S bs
  · exact hcb.symm
  · exact hcr.symm
  · exact hcn.symm
  · exact hcs.symm
  · exact hcp.symm
  · exact hcq.symm

theorem probe_resolve_idem_otp (bank : flash_bank) (R S : Nat) (t t2 : List Access)
    (h : (probe_reset bank).base = OTP_BANK_BASE_ADDR) :
    probe_resolve (probe_reset (probe_resolve (probe_reset bank) R S t).bank) R S t2 =
      ⟨(probe_resolve (probe_reset bank) R S t).retval,
        (probe_resolve (probe_reset bank) R S t).bank, t2,
        (probe_resolve (probe_reset bank) R S t).sector_size⟩ := by
  rw [probe_resolve_otp (probe_reset bank) R S t h]
  simp only []
  generalize hc : ({ probe_reset bank with
      driver_priv := { (probe_reset bank).driver_priv with flash_regs_base := EFC_BASE } }
        : flash_bank) = c
  have hcb : c.base = OTP_BANK_BASE_ADDR := by rw [← hc]; exact h
  have hcr : c.driver_priv.flash_regs_base = EFC_BASE := by rw [← hc]
  have hcn : c.num_sectors = 0 := by rw [← hc]; rfl
  have hcs : c.sectors = [] := by rw [← hc]; rfl
  have hcp : c.num_prot_blocks = 0 := by rw [← hc]; rfl
  have hcq : c.prot_blocks = [] := by rw [← hc]; rfl
  generalize hbs : (if R = 4032 ∨ R = 448 then 4 <<< 10 else 512) = bs
  have hb2 : (probe_reset (artery_probe_finish c bs bs)).base = OTP_BANK_BASE_ADDR :=
    (probe_finish_base c bs bs).trans hcb
  rw [probe_resolve_otp _ R S t2 hb2, hbs]
  congr 1
  apply probe_finish_congr
  · exact probe_finish_target c bs bs
  · exact probe_finish_base c bs bs
  · exact hcr.symm
  · exact hcn.symm
  · exact hcs.symm
  · exact hcp.symm
  · exact hcq.symm

/-- Running the resolution stage again on the bank it produced, with the same flash size
and sector size, reproduces its result. -/
theorem probe_resolve_idem (bank : flash_bank) (R S : Nat) (t t2 : List Access) :
    probe_resolve (probe_reset (probe_resolve (probe_reset bank) R S t).bank) R S t2 =
      ⟨(probe_resolve (probe_reset bank) R S t).retval,
        (probe_resolve (probe_reset bank) R S t).bank, t2,
        (probe_resolve (probe_reset bank) R S t).sector_size⟩ := by
  by_cases h0 : (probe_reset bank).base = 0
  · exact probe_resolve_idem_bank1 bank R S t t2 (Or.inl h0)
  by_cases h1 : (probe_reset bank).base = FLASH_BASE_ADDR
  · exact probe_resolve_idem_bank1 bank R S t t2 (Or.inr h1)
  by_cases h2 : (probe_reset bank).base = FLASH_BASE_BANK2_4032K
  · exact probe_resolve_idem_bank2 bank R S t t2 (Or.inl h2)
  by_cases h3 : (probe_reset bank).base = FLASH_BASE_BANK2_1024K
  · exact probe_resolve_idem_bank2 bank R S t t2 (Or.inr h3)
  by_cases h4 : (probe_reset bank).base = OTP_BANK_BASE_ADDR
  · exact probe_resolve_idem_otp bank R S t t2 h4
  · rw [probe_resolve_unsupported (probe_reset bank) R S t h0 h1 h2 h3 h4]
    simp only []
    rw [probe_reset_idem, probe_resolve_unsupported (probe_reset bank) R S t2 h0 h1 h2 h3 h4]

theorem probe_resolve_target (b : flash_bank) (R S : Nat) (t : List Access) :
    (probe_resolve b R S t).bank.target = b.target := by
  by_cases h0 : b.base = 0
  · rw [probe_resolve_bank1 b R S t (Or.inl h0)]
    exact probe_finish_target _ _ _
  by_cases h1 : b.base = FLASH_BASE_ADDR
  · rw [probe_resolve_bank1 b R S t (Or.inr h1)]
    exact probe_finish_target _ _ _
  by_cases h2 : b.base = FLASH_BASE_BANK2_4032K
  · rw [probe_resolve_bank2 b R S t (Or.inl h2)]
    exact probe_finish_target _ _ _
  by_cases h3 : b.base = FLASH_BASE_BANK2_1024K
  · rw [probe_resolve_bank2 b R S t (Or.inr h3)]
    exact probe_finish_target _ _ _
  by_cases h4 : b.base = OTP_BANK_BASE_ADDR
  · rw [probe_resolve_otp b R S t h4]
    exact probe_finish_target _ _ _
  · rw [probe_resolve_unsupported b R S t h0 h1 h2 h3 h4]

theorem probe_eq_replies (tp : Transport) (bank : flash_bank) (tr : List Access) :
    artery_probe tp bank tr =
      if bank.target.examined = false then
        ⟨ERROR_TARGET_NOT_EXAMINED, probe_reset bank, tr, 0⟩
      else if (probe_id_reply tp tr).retval ≠ ERROR_OK then
        ⟨(probe_id_reply tp tr).retval, probe_reset bank,
          tr ++ [Access.read_u32 MCU_DEVICE_ID_ADDR], 0⟩
      else
        probe_resolve (probe_reset bank) (probe_flash_size tp tr) (probe_sector_size tp tr)
          (tr ++ [Access.read_u32 MCU_DEVICE_ID_ADDR, Access.read_u16 FLASH_SIZE_ADDR]) := by
  rw [probe_eq]
  rfl

/-- C20: probe is idempotent.  For every initial bank and every pair of replies to the
device-id and flash-size reads, running `artery_probe` again on the bank the first run
left, against the same two replies, yields the same result code and the same bank
descriptor (base address, register base, size, sector count, sector table) and resolves
the same sector size. -/
theorem C20_probe_idempotent (tp tp2 : Transport) (bank : flash_bank) (tr tr2 : List Access)
    (hid : probe_id_reply tp2 tr2 = probe_id_reply tp tr)
    (hsz : probe_size_reply tp2 tr2 = probe_size_reply tp tr) :
    (artery_probe tp2 (artery_probe tp bank tr).bank tr2).retval
      = (artery_probe tp bank tr).retval ∧
    (artery_probe tp2 (artery_probe tp bank tr).bank tr2).bank
      = (artery_probe tp bank tr).bank ∧
    (artery_probe tp2 (artery_probe tp bank tr).bank tr2).sector_size
      = (artery_probe tp bank tr).sector_size := by
  have hR : probe_flash_size tp2 tr2 = probe_flash_size tp tr := by
    unfold probe_flash_size probe_device_id probe_read_size
    rw [hid, hsz]
  have hS : probe_sector_size tp2 tr2 = probe_sector_size tp tr := by
    unfold probe_sector_size probe_device_id probe_read_size
    rw [hid, hsz]
  rw [probe_eq_replies tp bank tr]
  by_cases h1 : bank.target.examined = false
  · rw [if_pos h1, probe_eq_replies tp2]
    have h1' : (probe_reset bank).target.examined = false := h1
    simp only []
    rw [if_pos h1']
    exact ⟨rfl, rfl, rfl⟩
  · rw [if_neg h1]
    by_cases h2 : (probe_id_reply tp tr).retval ≠ ERROR_OK
    · rw [if_pos h2, probe_eq_replies tp2]
      have h1' : ¬ (probe_reset bank).target.examined = false := h1
      simp only []
      rw [if_neg h1', hid, if_pos h2]
      exact ⟨rfl, rfl, rfl⟩
    · rw [if_neg h2, probe_eq_replies tp2]
      have h1' : ¬ (probe_resolve (probe_reset bank) (probe_flash_size tp tr)
          (probe_sector_size tp tr)
          (tr ++ [Access.read_u32 MCU_DEVICE_ID_ADDR,
            Access.read_u16 FLASH_SIZE_ADDR])).bank.target.examined = false := by
        rw [probe_resolve_target]; exact h1
      rw [if_neg h1', hid, if_neg h2, hR, hS, probe_resolve_idem]
      exact ⟨rfl, rfl, rfl⟩

set_option maxRecDepth 100000 in
theorem C20_probe_idempotent_witness :
    probe_id_reply (scenario_transport 0x70084549 4032) [Access.read_u32 0]
      = probe_id_reply (scenario_transport 0x70084549 4032) [] ∧
    probe_size_reply (scenario_transport 0x70084549 4032) [Access.read_u32 0]
      = probe_size_reply (scenario_transport 0x70084549 4032) [] ∧
    (artery_probe (scenario_transport 0x70084549 4032) (scenario_bank FLASH_BASE_BANK2_1024K)
      []).bank.base = FLASH_BASE_BANK2_4032K ∧
    (artery_probe (scenario_transport 0x70084549 4032)
      (artery_probe (scenario_transport 0x70084549 4032) (scenario_bank FLASH_BASE_BANK2_1024K)
        []).bank [Access.read_u32 0]).bank
      = (artery_probe (scenario_transport 0x70084549 4032)
        (scenario_bank FLASH_BASE_BANK2_1024K) []).bank :=
  ⟨rfl, rfl, by decide,
    (C20_probe_idempotent (scenario_transport 0x70084549 4032)
      (scenario_transport 0x70084549 4032) (scenario_bank FLASH_BASE_BANK2_1024K) []
      [Access.read_u32 0] rfl rfl).2.1⟩


/-! ### Probe: table length against bank size -/

theorem probe_finish_table (c : flash_bank) (S bs : Nat) (h0 : c.num_sectors = 0)
    (h1 : c.sectors = []) :
    (artery_probe_finish c S bs).sectors.length * S ≤ (artery_probe_finish c S bs).size ∧
    ((artery_probe_finish c S bs).sectors.length * S = (artery_probe_finish c S bs).size ↔
      S ∣ bs) := by
  obtain ⟨f1, -, f3⟩ := probe_finish_fields c S bs h0 h1
  rw [f1, f3]
  by_cases hbs : bs = 0
  · subst hbs
    simp
  · rw [if_pos hbs, probe_sectors_length]
    refine ⟨Nat.div_mul_le_self bs S, ⟨fun h => Dvd.intro_left _ h, fun h => ?_⟩⟩
    exact Nat.div_mul_cancel h

set_option maxRecDepth 100000 in
theorem known_chips_sector_size_filter :
    ∀ c ∈ known_artery_chips.filter (fun c => !is_sentinel c),
      c.sector_size = 1024 ∨ c.sector_size = 2048 ∨ c.sector_size = 4096 := by
  decide

theorem sector_size_values (id v : Nat) (u : Bool) :
    (artery_probe_sector_size id v u).2 = 1024 ∨ (artery_probe_sector_size id v u).2 = 2048 ∨
      (artery_probe_sector_size id v u).2 = 4096 := by
  have hg : ∀ x : Int, (artery_guess_sector_size_from_flash_size x).toNat = 1024 ∨
      (artery_guess_sector_size_from_flash_size x).toNat = 2048 ∨
      (artery_guess_sector_size_from_flash_size x).toNat = 4096 := by
    intro x
    rcases guess_values x with h | h | h <;> rw [h]
    · exact Or.inr (Or.inr rfl)
    · exact Or.inl rfl
    · exact Or.inr (Or.inl rfl)
  cases hf : artery_find_chip_from_id id with
  | none =>
    rw [sector_size_not_found _ _ _ hf]
    exact hg _
  | some chip =>
    have hc : chip.sector_size = 1024 ∨ chip.sector_size = 2048 ∨ chip.sector_size = 4096 := by
      have hm := hf
      rw [find_chip_eq_find] at hm
      exact known_chips_sector_size_filter chip (List.mem_of_find?_eq_some hm)
    cases u with
    | true =>
      rw [sector_size_found_unknown _ _ _ hf]
      exact hc
    | false =>
      by_cases he : v = chip.flash_size_kB
      · rw [sector_size_found_equal _ _ _ hf he]
        exact hc
      · rw [sector_size_found_differ _ _ _ hf he]
        exact hg _

theorem probe_ok_inv (tp : Transport) (bank : flash_bank) (tr : List Access)
    (hok : (artery_probe tp bank tr).retval = ERROR_OK) :
    bank.target.examined = true ∧ (probe_id_reply tp tr).retval = ERROR_OK := by
  rw [probe_eq_replies] at hok
  by_cases h1 : bank.target.examined = false
  · rw [if_pos h1] at hok
    have e1 : ERROR_TARGET_NOT_EXAMINED ≠ ERROR_OK := by decide
    exact absurd hok e1
  · rw [if_neg h1] at hok
    by_cases h2 : (probe_id_reply tp tr).retval ≠ ERROR_OK
    · rw [if_pos h2] at hok
      exact absurd hok h2
    · exact ⟨by simpa using h1, not_not.mp h2⟩

set_option maxRecDepth 100000 in
/-- C15 (counterexample): with an unknown device id and a reported flash size of 333 kB
the probe of main bank 1 succeeds and leaves a nonzero bank size, yet the sector table
is empty, so its length times the sector size is not the bank size. -/
theorem C15_probe_table_size_counterexample :
    (artery_probe (scenario_transport 0xDEADBEEF 333) (scenario_bank FLASH_BASE_ADDR)
      []).retval = ERROR_OK ∧
    (artery_probe (scenario_transport 0xDEADBEEF 333) (scenario_bank FLASH_BASE_ADDR)
      []).bank.size ≠ 0 ∧
    (artery_probe (scenario_transport 0xDEADBEEF 333) (scenario_bank FLASH_BASE_ADDR)
      []).bank.sectors.length *
        (artery_probe (scenario_transport 0xDEADBEEF 333) (scenario_bank FLASH_BASE_ADDR)
          []).sector_size ≠
      (artery_probe (scenario_transport 0xDEADBEEF 333) (scenario_bank FLASH_BASE_ADDR)
        []).bank.size := by
  decide

/-- C15 (amended): after every successful probe (in particular one that leaves the bank
with nonzero size), the sector table length times the sector size is at most the bank
size (the sector count is a truncating quotient), and equals it exactly when the sector
size divides the bank size.  Equality holds for the option area, for bank 2, and for main
bank 1 when the flash size is 4032 or 1024 kB. -/
theorem C15_probe_table_size (tp : Transport) (bank : flash_bank) (tr : List Access)
    (hok : (artery_probe tp bank tr).retval = ERROR_OK) :
    (artery_probe tp bank tr).bank.sectors.length * (artery_probe tp bank tr).sector_size
      ≤ (artery_probe tp bank tr).bank.size ∧
    ((artery_probe tp bank tr).bank.sectors.length * (artery_probe tp bank tr).sector_size
        = (artery_probe tp bank tr).bank.size ↔
      (artery_probe tp bank tr).sector_size ∣ (artery_probe tp bank tr).bank.size) ∧
    ((bank.base = OTP_BANK_BASE_ADDR ∨ bank.base = FLASH_BASE_BANK2_4032K ∨
        bank.base = FLASH_BASE_BANK2_1024K ∨
        ((bank.base = 0 ∨ bank.base = FLASH_BASE_ADDR) ∧
          (probe_flash_size tp tr = 4032 ∨ probe_flash_size tp tr = 1024))) →
      (artery_probe tp bank tr).bank.sectors.length * (artery_probe tp bank tr).sector_size
        = (artery_probe tp bank tr).bank.size) := by
  obtain ⟨hex, hid⟩ := probe_ok_inv tp bank tr hok
  obtain ⟨b, S, bs, -, h0, h1, hb, hS⟩ := probe_ok_eq tp bank tr hok
  obtain ⟨t1, t2⟩ := probe_finish_table b S bs h0 h1
  have hsz : (artery_probe_finish b S bs).size = bs := (probe_finish_fields b S bs h0 h1).1
  have hiff : (artery_probe tp bank tr).bank.sectors.length * (artery_probe tp bank tr).sector_size
        = (artery_probe tp bank tr).bank.size ↔
      (artery_probe tp bank tr).sector_size ∣ (artery_probe tp bank tr).bank.size := by
    rw [hb, hS, hsz]
    rw [hsz] at t2
    exact t2
  refine ⟨by rw [hb, hS]; exact t1, hiff, fun hclass => hiff.mpr ?_⟩
  have hv := sector_size_values (probe_device_id tp tr) (probe_read_size tp tr)
    (probe_flash_is_unknown (probe_size_reply tp tr))
  have hd : ∀ x : Nat, (x = 1984 <<< 10 ∨ x = 512 <<< 10 ∨ x = 2048 <<< 10 ∨ x = 0) →
      probe_sector_size tp tr ∣ x := by
    intro x hx
    unfold probe_sector_size
    rcases hv with h | h | h <;> rw [h] <;> rcases hx with hx | hx | hx | hx <;> rw [hx] <;>
      decide
  have hbase : (probe_reset bank).base = bank.base := rfl
  rw [probe_eq_resolve tp bank tr hex hid]
  rcases hclass with h | h | h | ⟨h, hR⟩
  · rw [probe_resolve_otp _ _ _ _ (hbase.trans h)]
    show _ ∣ (artery_probe_finish _ _ _).size
    rw [(probe_finish_fields _ _ _ rfl rfl).1]
  · rw [probe_resolve_bank2 _ _ _ _ (Or.inl (hbase.trans h))]
    show _ ∣ (artery_probe_finish _ _ _).size
    rw [(probe_finish_fields _ _ _ rfl rfl).1]
    apply hd
    by_cases h1 : probe_flash_size tp tr = 4032
    · rw [if_pos h1]; exact Or.inl rfl
    · rw [if_neg h1]
      by_cases h2 : probe_flash_size tp tr = 1024
      · rw [if_pos h2]; exact Or.inr (Or.inl rfl)
      · rw [if_neg h2]; exact Or.inr (Or.inr (Or.inr rfl))
  · rw [probe_resolve_bank2 _ _ _ _ (Or.inr (hbase.trans h))]
    show _ ∣ (artery_probe_finish _ _ _).size
    rw [(probe_finish_fields _ _ _ rfl rfl).1]
    apply hd
    by_cases h1 : probe_flash_size tp tr = 4032
    · rw [if_pos h1]; exact Or.inl rfl
    · rw [if_neg h1]
      by_cases h2 : probe_flash_size tp tr = 1024
      · rw [if_pos h2]; exact Or.inr (Or.inl rfl)
      · rw [if_neg h2]; exact Or.inr (Or.inr (Or.inr rfl))
  · rw [probe_resolve_bank1 _ _ _ _ (h.imp hbase.trans hbase.trans)]
    show _ ∣ (artery_probe_finish _ _ _).size
    rw [(probe_finish_fields _ _ _ rfl rfl).1]
    apply hd
    rcases hR with hR | hR
    · rw [if_pos hR]; exact Or.inr (Or.inr (Or.inl rfl))
    · rw [if_neg (by rw [hR]; decide), if_pos hR]; exact Or.inr (Or.inl rfl)

set_option maxRecDepth 100000 in
theorem C15_probe_table_size_witness :
    (artery_probe (scenario_transport 0x70084549 4032) (scenario_bank FLASH_BASE_BANK2_4032K)
      []).retval = ERROR_OK ∧
    (artery_probe (scenario_transport 0x70084549 4032) (scenario_bank FLASH_BASE_BANK2_4032K)
      []).bank.size = 1984 * 1024 ∧
    (artery_probe (scenario_transport 0x70084549 4032) (scenario_bank FLASH_BASE_BANK2_4032K)
      []).bank.sectors.length *
        (artery_probe (scenario_transport 0x70084549 4032)
          (scenario_bank FLASH_BASE_BANK2_4032K) []).sector_size =
      (artery_probe (scenario_transport 0x70084549 4032) (scenario_bank FLASH_BASE_BANK2_4032K)
        []).bank.size :=
  ⟨by decide, by decide,
    (C15_probe_table_size (scenario_transport 0x70084549 4032)
      (scenario_bank FLASH_BASE_BANK2_4032K) [] (by decide)).2.2 (Or.inr (Or.inl rfl))⟩


/-! ### Option-area write -/

theorem write_halfwords_accesses_zero (bank : flash_bank) (buffer : List Nat) (d wa : Nat) :
    write_halfwords_accesses bank buffer d wa 0 = [] := by
  simp [write_halfwords_accesses]

theorem write_halfwords_accesses_succ (bank : flash_bank) (buffer : List Nat) (d wa n : Nat)
    (hwa : wa < 2 ^ 64) :
    write_halfwords_accesses bank buffer d wa (n + 1) =
      write_halfword_accesses bank buffer d wa ++
        write_halfwords_accesses bank buffer (d + 1) ((wa + 2) % 2 ^ 64) n := by
  unfold write_halfwords_accesses
  rw [List.range_succ_eq_map, List.map_cons, List.flatten_cons, List.map_map]
  congr 1
  · rw [Nat.mul_zero, Nat.add_zero, Nat.add_zero, Nat.mod_eq_of_lt hwa]
  · congr 1
    apply List.map_congr_left
    intro j _
    simp only [Function.comp, Nat.reducePow] at *
    rw [show d + 1 + j = d + (j + 1) from by omega,
      show ((wa + 2) % 18446744073709551616 + 2 * j) % 18446744073709551616
        = (wa + 2 * (j + 1)) % 18446744073709551616 from by omega]

theorem write_halfwords_accesses_mod (bank : flash_bank) (buffer : List Nat) (d wa n : Nat) :
    write_halfwords_accesses bank buffer d (wa % 2 ^ 64) n =
      write_halfwords_accesses bank buffer d wa n := by
  unfold write_halfwords_accesses
  congr 1
  apply List.map_congr_left
  intro j _
  rw [Nat.mod_add_mod]

theorem write_user_loop_idle (tp : Transport) (bank : flash_bank) (buffer : List Nat)
    (count : Nat) (hok : TransportSucceeds tp) (hidle : StatusIdle tp bank)
    (hc0 : 0 < count) (hc : count < 2 ^ 32) :
    ∀ (n fuel bw wa d : Nat) (tr : List Access), wa < 2 ^ 64 → bw + 2 * n = count →
      n ≤ fuel →
      artery_write_user_loop tp bank buffer count fuel bw wa d tr =
        LoopExit.done (bw + 2 * n) ((wa + 2 * n) % 2 ^ 64)
          (tr ++ write_halfwords_accesses bank buffer d wa n) := by
  have hbound : (count + 2 ^ 32 - 1) % 2 ^ 32 = count - 1 := by
    simp only [Nat.reducePow] at *; omega
  intro n
  induction n with
  | zero =>
    intro fuel bw wa d tr hwa hbw _
    have hcond : ¬ bw < (count + 2 ^ 32 - 1) % 2 ^ 32 := by rw [hbound]; omega
    rw [write_halfwords_accesses_zero, List.append_nil, Nat.mul_zero, Nat.add_zero,
      Nat.add_zero, Nat.mod_eq_of_lt hwa]
    cases fuel <;> simp only [artery_write_user_loop, if_neg hcond]
  | succ k ih =>
    intro fuel bw wa d tr hwa hbw hfuel
    have hcond : bw < (count + 2 ^ 32 - 1) % 2 ^ 32 := by rw [hbound]; omega
    obtain ⟨f, rfl⟩ : ∃ f, fuel = f + 1 := ⟨fuel - 1, by omega⟩
    have hbw1 : (bw + 2) % 2 ^ 32 = bw + 2 := Nat.mod_eq_of_lt (by omega)
    have hwa1 : (wa + 2) % 2 ^ 64 < 2 ^ 64 := Nat.mod_lt _ (by decide)
    have e1 : bw + 2 + 2 * k = bw + 2 * (k + 1) := by omega
    have e2 : ((wa + 2) % 2 ^ 64 + 2 * k) % 2 ^ 64 = (wa + 2 * (k + 1)) % 2 ^ 64 := by
      simp only [Nat.reducePow]; omega
    have hbody := ih f (bw + 2) ((wa + 2) % 2 ^ 64) (d + 1)
      (tr ++ write_halfword_accesses bank buffer d wa) hwa1 (by omega) (by omega)
    rw [e1, e2] at hbody
    simp only [artery_write_user_loop, if_pos hcond, artery_write_flash_reg, target_write_u32,
      target_write_u16, hok _ _, ne_eq, not_true_eq_false, if_false,
      checked_wait_idle tp bank _ _ hok hidle, hbw1]
    have ht : tr ++
        [Access.write_u32 (artery_get_flash_reg bank EFC_CTRL_REG)
          ((EFC_USD_PRGM_BIT ||| EFC_USD_UNLOCK_BIT) % 2 ^ 32)] ++
        [Access.write_u16 wa (buffer.getD (2 * d) 0 + 256 * buffer.getD (2 * d + 1) 0)] ++
        [Access.read_u32 (artery_get_flash_reg bank EFC_STS_REG)] =
        tr ++ write_halfword_accesses bank buffer d wa := by
      rw [List.append_assoc, List.append_assoc]
      rfl
    rw [write_halfwords_accesses_succ bank buffer d wa k hwa, ← List.append_assoc, ← hbody, ht]

theorem lock_otp_idle (tp : Transport) (bank : flash_bank) (tr : List Access)
    (hotp : bank.base = OTP_BANK_BASE_ADDR) (hok : TransportSucceeds tp) :
    artery_lock tp bank tr =
      ⟨ERROR_OK, tr ++ [Access.write_u32 (artery_get_flash_reg bank EFC_CTRL_REG) 0]⟩ := by
  have ho : artery_is_otp bank = true := by
    unfold artery_is_otp
    rw [hotp]
    exact beq_self_eq_true _
  unfold artery_lock
  rw [if_pos ho]
  unfold artery_write_flash_reg target_write_u32
  simp only [hok _ _]
  rfl

theorem status_clear_idle (tp : Transport) (bank : flash_bank) (tr : List Access) :
    (artery_write_flash_reg tp bank EFC_STS_REG
      (EFC_PRCDN_BIT ||| EFC_PRGMERR_BIT ||| EFC_EPPERR_BIT) tr).trace =
      tr ++ [status_clear bank] := rfl

/-- For every even offset and every even count from 2 on, a fully successful option-area
write clears the status flags once, performs `count / 2` halfword units at consecutive
addresses from `base + offset`, and ends by writing `0` to the control register. -/
theorem write_user_idle (fuel : Nat) (tp : Transport) (bank : flash_bank) (buffer : List Nat)
    (offset count : Nat) (tr : List Access)
    (hotp : bank.base = OTP_BANK_BASE_ADDR)
    (hhalt : bank.target.state = target_state.TARGET_HALTED)
    (hunlock : (artery_unlock tp bank tr).retval = ERROR_OK)
    (hok : TransportSucceeds tp) (hidle : StatusIdle tp bank)
    (heo : offset % 2 = 0) (hec : count % 2 = 0) (hc0 : 0 < count) (hc : count < 2 ^ 32)
    (hfuel : count / 2 ≤ fuel) :
    artery_write_user fuel tp bank buffer offset count tr =
      ⟨some ERROR_OK,
        (artery_unlock tp bank tr).trace ++ [status_clear bank] ++
          write_halfwords_accesses bank buffer 0 (bank.base + offset) (count / 2) ++
          [Access.write_u32 (artery_get_flash_reg bank EFC_CTRL_REG) 0]⟩ := by
  have hwa0 : (bank.base + offset) % 2 ^ 64 < 2 ^ 64 := Nat.mod_lt _ (by decide)
  have hal : ¬ (offset &&& 0x01 ≠ 0 ∨ count &&& 0x01 ≠ 0) := by
    simp only [Nat.and_one_is_mod]
    omega
  have e1 := write_user_loop_idle tp bank buffer count hok hidle hc0 hc (count / 2) fuel 0
    ((bank.base + offset) % 2 ^ 64) 0 ((artery_unlock tp bank tr).trace ++ [status_clear bank])
    hwa0 (by omega) hfuel
  unfold artery_write_user
  simp only [hhalt, ne_eq, not_true_eq_false, if_false, hunlock, hal, status_clear_idle, e1,
    lock_otp_idle tp bank _ hotp hok, write_halfwords_accesses_mod]

theorem write_user_loop_runaway (tp : Transport) (bank : flash_bank) (buffer : List Nat)
    (hok : TransportSucceeds tp) (hidle : StatusIdle tp bank) :
    ∀ (fuel bw wa d : Nat) (tr : List Access), bw % 2 = 0 → bw < 2 ^ 32 →
      ∃ t, artery_write_user_loop tp bank buffer 0 fuel bw wa d tr =
        LoopExit.out_of_fuel (tr ++ t) ∧
        (0 < fuel → ∃ t2, t = write_halfword_accesses bank buffer d wa ++ t2) := by
  intro fuel
  induction fuel with
  | zero =>
    intro bw wa d tr h2 hlt
    have hcond : bw < (0 + 2 ^ 32 - 1) % 2 ^ 32 := by
      simp only [Nat.reducePow] at *; omega
    refine ⟨[], ?_, fun h => absurd h (by decide)⟩
    simp only [artery_write_user_loop, if_pos hcond, List.append_nil]
  | succ f ih =>
    intro bw wa d tr h2 hlt
    have hcond : bw < (0 + 2 ^ 32 - 1) % 2 ^ 32 := by
      simp only [Nat.reducePow] at *; omega
    obtain ⟨t, ht, -⟩ := ih ((bw + 2) % 2 ^ 32) ((wa + 2) % 2 ^ 64) (d + 1)
      (tr ++ write_halfword_accesses bank buffer d wa)
      (by simp only [Nat.reducePow] at *; omega) (Nat.mod_lt _ (by decide))
    refine ⟨write_halfword_accesses bank buffer d wa ++ t, ?_, fun _ => ⟨t, rfl⟩⟩
    have htr : tr ++
        [Access.write_u32 (artery_get_flash_reg bank EFC_CTRL_REG)
          ((EFC_USD_PRGM_BIT ||| EFC_USD_UNLOCK_BIT) % 2 ^ 32)] ++
        [Access.write_u16 wa (buffer.getD (2 * d) 0 + 256 * buffer.getD (2 * d + 1) 0)] ++
        [Access.read_u32 (artery_get_flash_reg bank EFC_STS_REG)] =
        tr ++ write_halfword_accesses bank buffer d wa := by
      rw [List.append_assoc, List.append_assoc]
      rfl
    simp only [artery_write_user_loop, if_pos hcond, artery_write_flash_reg, target_write_u32,
      target_write_u16, hok _ _, ne_eq, not_true_eq_false, if_false,
      checked_wait_idle tp bank _ _ hok hidle]
    rw [htr, ht, List.append_assoc]

theorem write_user_runaway (tp : Transport) (bank : flash_bank) (buffer : List Nat)
    (offset fuel : Nat) (tr : List Access) (hfuel : 0 < fuel)
    (heo : offset % 2 = 0)
    (hhalt : bank.target.state = target_state.TARGET_HALTED)
    (hunlock : (artery_unlock tp bank tr).retval = ERROR_OK)
    (hok : TransportSucceeds tp) (hidle : StatusIdle tp bank) :
    (artery_write_user fuel tp bank buffer offset 0 tr).retval = none ∧
    Access.write_u16 ((bank.base + offset) % 2 ^ 64)
        (buffer.getD 0 0 + 256 * buffer.getD 1 0) ∈
      (artery_write_user fuel tp bank buffer offset 0 tr).trace := by
  have hal : ¬ (offset &&& 0x01 ≠ 0 ∨ 0 &&& 0x01 ≠ 0) := by
    simp only [Nat.and_one_is_mod]
    omega
  obtain ⟨t, e2, hfirst⟩ := write_user_loop_runaway tp bank buffer hok hidle fuel 0
    ((bank.base + offset) % 2 ^ 64) 0 ((artery_unlock tp bank tr).trace ++ [status_clear bank])
    rfl (by decide)
  obtain ⟨t2, rfl⟩ := hfirst hfuel
  unfold artery_write_user
  simp only [hhalt, ne_eq, not_true_eq_false, if_false, hunlock, hal, status_clear_idle, e2]
  refine ⟨trivial, ?_⟩
  simp [write_halfword_accesses]

theorem scenario_transport_ctrl_idle_otp (ctrl : Nat) :
    StatusIdle (scenario_transport_ctrl ctrl) scenario_bank_otp := by
  intro h
  simp [scenario_transport_ctrl, artery_get_flash_reg, scenario_bank_otp, EFC_STS_REG,
    EFC_BASE, EFC_CTRL_REG]

/-- C11 (code defect): for `count = 0` (even) at an even offset, with the option area
already unlocked, every access succeeding and the status register idle, the option-area
write programs a halfword at `base + offset` although nothing is to be written, and it
does not return within any number of loop iterations: the loop bound `count - 1` wraps
around. -/
theorem C11_write_user_zero_count_runs_away :
    ∀ fuel : Nat,
      (artery_write (fuel + 1) (scenario_transport_ctrl 0x200) scenario_bank_otp [] 0 0
        []).retval = none ∧
      Access.write_u16 OTP_BANK_BASE_ADDR 0 ∈
        (artery_write (fuel + 1) (scenario_transport_ctrl 0x200) scenario_bank_otp [] 0 0
          []).trace := by
  intro fuel
  have h := write_user_runaway (scenario_transport_ctrl 0x200) scenario_bank_otp [] 0
    (fuel + 1) [] (Nat.succ_pos fuel) rfl rfl (by decide)
    (scenario_transport_ctrl_succeeds 0x200) (scenario_transport_ctrl_idle_otp 0x200)
  rw [write_otp_eq (fuel + 1) _ scenario_bank_otp [] 0 0 [] rfl]
  exact h


/-! ### Transport failures -/

theorem failStop_refl (tp : Transport) (bank : flash_bank) (tr : List Access)
    (rv : Option Int) : FailStop tp bank tr rv tr := by
  refine ⟨[], (List.append_nil tr).symm, ?_⟩
  intro pre a post h
  exact absurd h (by simp)

/-- A single access whose code is the result. -/
theorem failStop_one (tp : Transport) (bank : flash_bank) (tr : List Access) (a : Access) :
    FailStop tp bank tr (some (tp tr a).retval) (tr ++ [a]) := by
  refine ⟨[a], rfl, ?_⟩
  intro pre a2 post h _ _
  have hpre : pre = [] := by
    cases pre with
    | nil => rfl
    | cons x xs =>
      have := congrArg List.length h
      simp at this
  subst hpre
  simp only [List.nil_append, List.cons.injEq] at h
  obtain ⟨rfl, rfl⟩ := h
  exact ⟨rfl, by rw [List.append_nil]⟩

/-- A single access that is not checked, whatever the result. -/
theorem failStop_skip (tp : Transport) (bank : flash_bank) (tr : List Access) (a : Access)
    (rv : Option Int) (ha : ¬ Checked bank a) : FailStop tp bank tr rv (tr ++ [a]) := by
  refine ⟨[a], rfl, ?_⟩
  intro pre a2 post h hc _
  have hpre : pre = [] := by
    cases pre with
    | nil => rfl
    | cons x xs =>
      have := congrArg List.length h
      simp at this
  subst hpre
  simp only [List.nil_append, List.cons.injEq] at h
  obtain ⟨rfl, rfl⟩ := h
  exact absurd hc ha

/-- A run in which no checked access failed may carry any result. -/
theorem failStop_of_ok (tp : Transport) (bank : flash_bank) (tr0 tr1 : List Access)
    (rv : Option Int) (h : FailStop tp bank tr0 (some ERROR_OK) tr1) :
    FailStop tp bank tr0 rv tr1 := by
  obtain ⟨ext, he, hall⟩ := h
  refine ⟨ext, he, ?_⟩
  intro pre a post hsplit hc hf
  have := (hall pre a post hsplit hc hf).2
  exact absurd (Option.some.inj this).symm hf

/-- A run that succeeded, followed by a second run. -/
theorem failStop_trans (tp : Transport) (bank : flash_bank) (tr0 tr1 tr2 : List Access)
    (rv : Option Int) (h1 : FailStop tp bank tr0 (some ERROR_OK) tr1)
    (h2 : FailStop tp bank tr1 rv tr2) : FailStop tp bank tr0 rv tr2 := by
  obtain ⟨ext1, he1, hall1⟩ := h1
  obtain ⟨ext2, he2, hall2⟩ := h2
  refine ⟨ext1 ++ ext2, by rw [he2, he1, List.append_assoc], ?_⟩
  intro pre a post hsplit hc hf
  rcases List.append_eq_append_iff.mp hsplit with ⟨a', hpre, hext2⟩ | ⟨c', hext1, hrest⟩
  · -- the access lies in the second run
    have := hall2 a' a post hext2 hc (by rw [he1, List.append_assoc, ← hpre]; exact hf)
    rw [he1, List.append_assoc, ← hpre] at this
    exact this
  · -- the access lies in the first run
    cases c' with
    | nil =>
      simp only [List.append_nil, List.nil_append] at hext1 hrest
      have := hall2 [] a post (by rw [hrest]; rfl) hc
        (by rw [he1, List.append_nil, hext1]; exact hf)
      rw [he1, List.append_nil, hext1] at this
      exact this
    | cons x xs =>
      simp only [List.cons_append, List.cons.injEq] at hrest
      obtain ⟨rfl, hpost⟩ := hrest
      have := (hall1 pre a xs hext1 hc hf).2
      exact absurd (Option.some.inj this).symm hf


theorem failStop_bind (tp : Transport) (bank : flash_bank) (tr : List Access) (s r : Result)
    (hs : FailStop tp bank tr (some s.retval) s.trace)
    (hr : s.retval = ERROR_OK → FailStop tp bank s.trace (some r.retval) r.trace) :
    FailStop tp bank tr (some (if s.retval ≠ ERROR_OK then s else r).retval)
      (if s.retval ≠ ERROR_OK then s else r).trace := by
  by_cases h : s.retval = ERROR_OK
  · rw [if_neg (not_not.mpr h)]
    rw [h] at hs
    exact failStop_trans tp bank tr s.trace r.trace _ hs (hr h)
  · rw [if_pos h]
    exact hs

theorem write_reg_failStop (tp : Transport) (bank : flash_bank) (off v : Nat)
    (tr : List Access) :
    FailStop tp bank tr (some (artery_write_flash_reg tp bank off v tr).retval)
      (artery_write_flash_reg tp bank off v tr).trace :=
  failStop_one tp bank tr _

theorem read_reg_failStop (tp : Transport) (bank : flash_bank) (off : Nat)
    (tr : List Access) :
    FailStop tp bank tr (some (artery_read_flash_reg tp bank off tr).retval)
      (artery_read_flash_reg tp bank off tr).trace :=
  failStop_one tp bank tr _

theorem status_clear_failStop (tp : Transport) (bank : flash_bank) (tr : List Access)
    (rv : Option Int) :
    FailStop tp bank tr rv
      (artery_write_flash_reg tp bank EFC_STS_REG
        (EFC_PRCDN_BIT ||| EFC_PRGMERR_BIT ||| EFC_EPPERR_BIT) tr).trace := by
  rw [status_clear_idle]
  exact failStop_skip tp bank tr _ rv (fun h => h.1 rfl)

theorem lock_failStop (tp : Transport) (bank : flash_bank) (tr : List Access) :
    FailStop tp bank tr (some (artery_lock tp bank tr).retval) (artery_lock tp bank tr).trace := by
  unfold artery_lock
  split_ifs
  · exact write_reg_failStop tp bank _ _ tr
  · exact write_reg_failStop tp bank _ _ tr

theorem failStop_bind_read (tp : Transport) (bank : flash_bank) (tr : List Access)
    (rd : ReadResult) (r : Result)
    (hs : FailStop tp bank tr (some rd.retval) rd.trace)
    (hr : rd.retval = ERROR_OK → FailStop tp bank rd.trace (some r.retval) r.trace) :
    FailStop tp bank tr
      (some (if rd.retval ≠ ERROR_OK then (⟨rd.retval, rd.trace⟩ : Result) else r).retval)
      (if rd.retval ≠ ERROR_OK then (⟨rd.retval, rd.trace⟩ : Result) else r).trace := by
  by_cases h : rd.retval = ERROR_OK
  · rw [if_neg (not_not.mpr h)]
    rw [h] at hs
    exact failStop_trans tp bank tr rd.trace r.trace _ hs (hr h)
  · rw [if_pos h]
    exact hs

theorem failStop_read_ok (tp : Transport) (bank : flash_bank) (tr : List Access)
    (rd : ReadResult) (rv : Option Int)
    (hs : FailStop tp bank tr (some rd.retval) rd.trace) (h : rd.retval = ERROR_OK) :
    FailStop tp bank tr rv rd.trace := by
  rw [h] at hs
  exact failStop_of_ok tp bank _ _ _ hs

theorem unlock_flash_failStop (tp : Transport) (bank : flash_bank) (tr : List Access) :
    FailStop tp bank tr (some (artery_unlock_flash tp bank tr).retval)
      (artery_unlock_flash tp bank tr).trace := by
  unfold artery_unlock_flash
  simp only []
  apply failStop_bind_read
  · exact read_reg_failStop tp bank _ tr
  · intro _
    by_cases h2 : (artery_read_flash_reg tp bank EFC_CTRL_REG tr).value &&& EFC_LOCK_BIT = 0
    · rw [if_pos h2]
      exact failStop_refl tp bank _ _
    · rw [if_neg h2]
      apply failStop_bind
      · exact write_reg_failStop tp bank _ _ _
      · intro _
        apply failStop_bind
        · exact write_reg_failStop tp bank _ _ _
        · intro _
          apply failStop_bind_read
          · exact read_reg_failStop tp bank _ _
          · intro _
            split_ifs
            · exact failStop_refl tp bank _ _
            · exact failStop_refl tp bank _ _

theorem unlock_user_poll_failStop (tp : Transport) (bank : flash_bank) (n : Nat) :
    ∀ tr : List Access,
      FailStop tp bank tr (some (artery_unlock_user_poll tp bank n tr).retval)
        (artery_unlock_user_poll tp bank n tr).trace := by
  induction n with
  | zero =>
    intro tr
    unfold artery_unlock_user_poll
    simp only []
    apply failStop_bind_read
    · exact read_reg_failStop tp bank _ tr
    · intro _
      split_ifs
      · exact failStop_refl tp bank _ _
      · exact failStop_refl tp bank _ _
  | succ n ih =>
    intro tr
    unfold artery_unlock_user_poll
    simp only []
    apply failStop_bind_read
    · exact read_reg_failStop tp bank _ tr
    · intro _
      split_ifs
      · exact failStop_refl tp bank _ _
      · exact ih _

theorem unlock_user_failStop (tp : Transport) (bank : flash_bank) (tr : List Access) :
    FailStop tp bank tr (some (artery_unlock_user tp bank tr).retval)
      (artery_unlock_user tp bank tr).trace := by
  unfold artery_unlock_user
  simp only []
  apply failStop_bind_read
  · exact read_reg_failStop tp bank _ tr
  · intro _
    by_cases h2 : (artery_read_flash_reg tp bank EFC_CTRL_REG tr).value &&& EFC_USD_UNLOCK_BIT
        = EFC_USD_UNLOCK_BIT
    · rw [if_pos h2]
      exact failStop_refl tp bank _ _
    · rw [if_neg h2]
      apply failStop_bind
      · exact write_reg_failStop tp bank _ _ _
      · intro _
        apply failStop_bind
        · exact write_reg_failStop tp bank _ _ _
        · intro _
          apply failStop_bind
          · exact write_reg_failStop tp bank _ _ _
          · intro _
            apply failStop_bind
            · exact write_reg_failStop tp bank _ _ _
            · intro _
              exact unlock_user_poll_failStop tp bank _ _

theorem unlock_failStop (tp : Transport) (bank : flash_bank) (tr : List Access) :
    FailStop tp bank tr (some (artery_unlock tp bank tr).retval)
      (artery_unlock tp bank tr).trace := by
  unfold artery_unlock
  split_ifs
  · exact unlock_user_failStop tp bank tr
  · exact unlock_flash_failStop tp bank tr


theorem wait_loop_failStop (tp : Transport) (bank : flash_bank) (n : Nat) :
    ∀ tr : List Access,
      FailStop tp bank tr (some (artery_wait_status_busy_loop tp bank n tr).1.retval)
        (artery_wait_status_busy_loop tp bank n tr).1.trace := by
  induction n with
  | zero =>
    intro tr
    have hrd := read_reg_failStop tp bank EFC_STS_REG tr
    unfold artery_wait_status_busy_loop
    simp only []
    by_cases h1 : (artery_read_flash_reg tp bank EFC_STS_REG tr).retval = ERROR_OK
    · rw [if_neg (not_not.mpr h1)]
      split_ifs
      · exact hrd
      · exact failStop_read_ok tp bank tr _ _ hrd h1
    · rw [if_pos h1]
      exact hrd
  | succ n ih =>
    intro tr
    have hrd := read_reg_failStop tp bank EFC_STS_REG tr
    unfold artery_wait_status_busy_loop
    simp only []
    by_cases h1 : (artery_read_flash_reg tp bank EFC_STS_REG tr).retval = ERROR_OK
    · rw [if_neg (not_not.mpr h1)]
      split_ifs
      · exact hrd
      · refine failStop_trans tp bank tr _ _ _ (failStop_read_ok tp bank tr _ _ hrd h1) ?_
        refine failStop_trans tp bank _ _ _ _ ?_ (ih _)
        exact failStop_skip tp bank _ _ _ (fun h => h.2 1 rfl)
    · rw [if_pos h1]
      exact hrd

theorem wait_loop_status_ok (tp : Transport) (bank : flash_bank) (n : Nat) :
    ∀ (tr : List Access) (s : Nat),
      (artery_wait_status_busy_loop tp bank n tr).2 = some s →
      (artery_wait_status_busy_loop tp bank n tr).1.retval = ERROR_OK := by
  induction n with
  | zero =>
    intro tr s
    unfold artery_wait_status_busy_loop
    simp only []
    split_ifs with h1 h2
    · intro h; exact absurd h (by simp)
    · intro _; exact not_not.mp h1
    · intro h; exact absurd h (by simp)
  | succ n ih =>
    intro tr s
    unfold artery_wait_status_busy_loop
    simp only []
    split_ifs with h1 h2
    · intro h; exact absurd h (by simp)
    · intro _; exact not_not.mp h1
    · exact ih _ s

theorem wait_busy_failStop (tp : Transport) (bank : flash_bank) (timeout : Int)
    (tr : List Access) :
    FailStop tp bank tr (some (artery_wait_status_busy tp bank timeout tr).retval)
      (artery_wait_status_busy tp bank timeout tr).trace :=
  wait_loop_failStop tp bank _ tr

theorem wait_check_failStop (tp : Transport) (bank : flash_bank) (timeout : Int)
    (tr : List Access) :
    FailStop tp bank tr (some (artery_wait_status_busy_and_check tp bank timeout tr).retval)
      (artery_wait_status_busy_and_check tp bank timeout tr).trace := by
  have hl := wait_loop_failStop tp bank timeout.toNat tr
  have hs := wait_loop_status_ok tp bank timeout.toNat tr
  unfold artery_wait_status_busy_and_check
  generalize artery_wait_status_busy_loop tp bank timeout.toNat tr = p at hl hs
  obtain ⟨r, st⟩ := p
  cases st with
  | none => exact hl
  | some s =>
    have hok : r.retval = ERROR_OK := hs s rfl
    simp only [] at hl ⊢
    rw [hok] at hl
    exact failStop_of_ok tp bank _ _ _ hl


theorem mass_erase_failStop (tp : Transport) (bank : flash_bank) (tr : List Access) :
    FailStop tp bank tr (some (artery_mass_erase tp bank tr).retval)
      (artery_mass_erase tp bank tr).trace := by
  unfold artery_mass_erase
  simp only []
  by_cases hh : bank.target.state ≠ target_state.TARGET_HALTED
  · rw [if_pos hh]
    exact failStop_refl tp bank _ _
  · rw [if_neg hh]
    by_cases ho : artery_is_otp bank = true
    · rw [if_pos ho]
      exact failStop_refl tp bank _ _
    · rw [if_neg ho]
      apply failStop_bind
      · exact unlock_failStop tp bank tr
      · intro _
        apply failStop_bind
        · exact wait_busy_failStop tp bank _ _
        · intro _
          refine failStop_trans tp bank _ _ _ _ (status_clear_failStop tp bank _ _) ?_
          apply failStop_bind
          · exact write_reg_failStop tp bank _ _ _
          · intro _
            apply failStop_bind
            · exact write_reg_failStop tp bank _ _ _
            · intro _
              apply failStop_bind
              · exact wait_check_failStop tp bank _ _
              · intro _
                exact lock_failStop tp bank _

theorem erase_start_failStop (tp : Transport) (bank : flash_bank) (i : Nat)
    (tr : List Access) :
    FailStop tp bank tr (some (artery_erase_start tp bank i tr).retval)
      (artery_erase_start tp bank i tr).trace := by
  unfold artery_erase_start
  simp only []
  refine failStop_trans tp bank _ _ _ _ (status_clear_failStop tp bank _ (some ERROR_OK)) ?_
  apply failStop_bind
  · exact write_reg_failStop tp bank _ _ _
  · intro _
    apply failStop_bind
    · split_ifs
      · exact write_reg_failStop tp bank _ _ _
      · exact failStop_refl tp bank _ _
    · intro _
      exact write_reg_failStop tp bank _ _ _

theorem erase_loop_failStop (tp : Transport) (bank : flash_bank) (n : Nat) :
    ∀ (i : Nat) (tr : List Access),
      FailStop tp bank tr (some (artery_erase_loop tp bank n i tr).retval)
        (artery_erase_loop tp bank n i tr).trace := by
  induction n with
  | zero =>
    intro i tr
    unfold artery_erase_loop
    exact failStop_refl tp bank _ _
  | succ n ih =>
    intro i tr
    unfold artery_erase_loop
    simp only []
    apply failStop_bind
    · exact erase_start_failStop tp bank _ _
    · intro _
      apply failStop_bind
      · exact wait_check_failStop tp bank _ _
      · intro _
        exact ih _ _

theorem erase_failStop (tp : Transport) (bank : flash_bank) (first last : Nat)
    (tr : List Access) (r : Result) (h : artery_erase tp bank first last tr = some r) :
    FailStop tp bank tr (some r.retval) r.trace := by
  unfold artery_erase at h
  simp only [] at h
  by_cases ha : ¬ (first ≤ last ∧ last < bank.num_sectors)
  · rw [if_pos ha] at h
    exact absurd h (by simp)
  · rw [if_neg ha] at h
    by_cases hh : bank.target.state ≠ target_state.TARGET_HALTED
    · rw [if_pos hh] at h
      rw [← Option.some.inj h]
      exact failStop_refl tp bank _ _
    · rw [if_neg hh] at h
      have key : FailStop tp bank tr
          (some (if (artery_unlock tp bank tr).retval ≠ ERROR_OK then artery_unlock tp bank tr
            else if (artery_wait_status_busy tp bank FLASH_ERASE_TIMEOUT
                (artery_unlock tp bank tr).trace).retval ≠ ERROR_OK then
              artery_wait_status_busy tp bank FLASH_ERASE_TIMEOUT (artery_unlock tp bank tr).trace
            else if (artery_erase_loop tp bank (last + 1 - first) first
                (artery_wait_status_busy tp bank FLASH_ERASE_TIMEOUT
                  (artery_unlock tp bank tr).trace).trace).retval ≠ ERROR_OK then
              artery_erase_loop tp bank (last + 1 - first) first
                (artery_wait_status_busy tp bank FLASH_ERASE_TIMEOUT
                  (artery_unlock tp bank tr).trace).trace
            else artery_lock tp bank (artery_erase_loop tp bank (last + 1 - first) first
                (artery_wait_status_busy tp bank FLASH_ERASE_TIMEOUT
                  (artery_unlock tp bank tr).trace).trace).trace).retval)
          (if (artery_unlock tp bank tr).retval ≠ ERROR_OK then artery_unlock tp bank tr
            else if (artery_wait_status_busy tp bank FLASH_ERASE_TIMEOUT
                (artery_unlock tp bank tr).trace).retval ≠ ERROR_OK then
              artery_wait_status_busy tp bank FLASH_ERASE_TIMEOUT (artery_unlock tp bank tr).trace
            else if (artery_erase_loop tp bank (last + 1 - first) first
                (artery_wait_status_busy tp bank FLASH_ERASE_TIMEOUT
                  (artery_unlock tp bank tr).trace).trace).retval ≠ ERROR_OK then
              artery_erase_loop tp bank (last + 1 - first) first
                (artery_wait_status_busy tp bank FLASH_ERASE_TIMEOUT
                  (artery_unlock tp bank tr).trace).trace
            else artery_lock tp bank (artery_erase_loop tp bank (last + 1 - first) first
                (artery_wait_status_busy tp bank FLASH_ERASE_TIMEOUT
                  (artery_unlock tp bank tr).trace).trace).trace).trace := by
        apply failStop_bind
        · exact unlock_failStop tp bank tr
        · intro _
          apply failStop_bind
          · exact wait_busy_failStop tp bank _ _
          · intro _
            apply failStop_bind
            · exact erase_loop_failStop tp bank _ _ _
            · intro _
              exact lock_failStop tp bank _
      have hr : r = (if (artery_unlock tp bank tr).retval ≠ ERROR_OK then artery_unlock tp bank tr
            else if (artery_wait_status_busy tp bank FLASH_ERASE_TIMEOUT
                (artery_unlock tp bank tr).trace).retval ≠ ERROR_OK then
              artery_wait_status_busy tp bank FLASH_ERASE_TIMEOUT (artery_unlock tp bank tr).trace
            else if (artery_erase_loop tp bank (last + 1 - first) first
                (artery_wait_status_busy tp bank FLASH_ERASE_TIMEOUT
                  (artery_unlock tp bank tr).trace).trace).retval ≠ ERROR_OK then
              artery_erase_loop tp bank (last + 1 - first) first
                (artery_wait_status_busy tp bank FLASH_ERASE_TIMEOUT
                  (artery_unlock tp bank tr).trace).trace
            else artery_lock tp bank (artery_erase_loop tp bank (last + 1 - first) first
                (artery_wait_status_busy tp bank FLASH_ERASE_TIMEOUT
                  (artery_unlock tp bank tr).trace).trace).trace) := by
        split_ifs at h ⊢ <;> exact (Option.some.inj h).symm
      rw [hr]
      exact key


theorem loopFailStop_trans (tp : Transport) (bank : flash_bank) (tr0 tr1 : List Access)
    (e : LoopExit) (h0 : FailStop tp bank tr0 (some ERROR_OK) tr1)
    (h1 : LoopFailStop tp bank tr1 e) : LoopFailStop tp bank tr0 e := by
  cases e with
  | done a b t => exact failStop_trans tp bank _ _ _ _ h0 h1
  | ret rv t => exact failStop_trans tp bank _ _ _ _ h0 h1
  | out_of_fuel t => exact failStop_trans tp bank _ _ _ _ h0 h1

theorem write_user_loop_failStop (tp : Transport) (bank : flash_bank) (buffer : List Nat)
    (count fuel : Nat) :
    ∀ (bw wa d : Nat) (tr : List Access) (e : LoopExit),
      artery_write_user_loop tp bank buffer count fuel bw wa d tr = e →
      LoopFailStop tp bank tr e := by
  induction fuel with
  | zero =>
    intro bw wa d tr e he
    simp only [artery_write_user_loop] at he
    by_cases hlt : bw < (count + 2 ^ 32 - 1) % 2 ^ 32
    · rw [if_pos hlt] at he
      rw [← he]
      exact failStop_refl tp bank _ _
    · rw [if_neg hlt] at he
      rw [← he]
      exact failStop_refl tp bank _ _
  | succ fuel ih =>
    intro bw wa d tr e he
    simp only [artery_write_user_loop] at he
    by_cases hlt : bw < (count + 2 ^ 32 - 1) % 2 ^ 32
    · rw [if_pos hlt] at he
      have hc := write_reg_failStop tp bank EFC_CTRL_REG
        (EFC_USD_PRGM_BIT ||| EFC_USD_UNLOCK_BIT) tr
      by_cases h1 : (artery_write_flash_reg tp bank EFC_CTRL_REG
          (EFC_USD_PRGM_BIT ||| EFC_USD_UNLOCK_BIT) tr).retval = ERROR_OK
      · rw [if_neg (not_not.mpr h1)] at he
        rw [h1] at hc
        have hw : FailStop tp bank
            (artery_write_flash_reg tp bank EFC_CTRL_REG
              (EFC_USD_PRGM_BIT ||| EFC_USD_UNLOCK_BIT) tr).trace
            (some (target_write_u16 tp wa
              (buffer.getD (2 * d) 0 + 256 * buffer.getD (2 * d + 1) 0)
              (artery_write_flash_reg tp bank EFC_CTRL_REG
                (EFC_USD_PRGM_BIT ||| EFC_USD_UNLOCK_BIT) tr).trace).retval)
            (target_write_u16 tp wa
              (buffer.getD (2 * d) 0 + 256 * buffer.getD (2 * d + 1) 0)
              (artery_write_flash_reg tp bank EFC_CTRL_REG
                (EFC_USD_PRGM_BIT ||| EFC_USD_UNLOCK_BIT) tr).trace).trace :=
          failStop_one tp bank _ _
        have hw2 := failStop_trans tp bank _ _ _ _ hc hw
        by_cases h2 : (target_write_u16 tp wa
              (buffer.getD (2 * d) 0 + 256 * buffer.getD (2 * d + 1) 0)
              (artery_write_flash_reg tp bank EFC_CTRL_REG
                (EFC_USD_PRGM_BIT ||| EFC_USD_UNLOCK_BIT) tr).trace).retval = ERROR_OK
        · rw [if_neg (not_not.mpr h2)] at he
          rw [h2] at hw2
          have hk := wait_check_failStop tp bank FLASH_WRITE_TIMEOUT
            (target_write_u16 tp wa
              (buffer.getD (2 * d) 0 + 256 * buffer.getD (2 * d + 1) 0)
              (artery_write_flash_reg tp bank EFC_CTRL_REG
                (EFC_USD_PRGM_BIT ||| EFC_USD_UNLOCK_BIT) tr).trace).trace
          have hk2 := failStop_trans tp bank _ _ _ _ hw2 hk
          by_cases h3 : (artery_wait_status_busy_and_check tp bank FLASH_WRITE_TIMEOUT
            (target_write_u16 tp wa
              (buffer.getD (2 * d) 0 + 256 * buffer.getD (2 * d + 1) 0)
              (artery_write_flash_reg tp bank EFC_CTRL_REG
                (EFC_USD_PRGM_BIT ||| EFC_USD_UNLOCK_BIT) tr).trace).trace).retval = ERROR_OK
          · rw [if_neg (not_not.mpr h3)] at he
            rw [h3] at hk2
            exact loopFailStop_trans tp bank _ _ _ hk2 (ih _ _ _ _ e he)
          · rw [if_pos h3] at he
            rw [← he]
            exact hk2
        · rw [if_pos h2] at he
          rw [← he]
          exact hw2
      · rw [if_pos h1] at he
        rw [← he]
        exact hc
    · rw [if_neg hlt] at he
      rw [← he]
      exact failStop_refl tp bank _ _

theorem write_user_failStop (fuel : Nat) (tp : Transport) (bank : flash_bank)
    (buffer : List Nat) (offset count : Nat) (tr : List Access) :
    FailStop tp bank tr (artery_write_user fuel tp bank buffer offset count tr).retval
      (artery_write_user fuel tp bank buffer offset count tr).trace := by
  unfold artery_write_user
  simp only []
  by_cases hh : bank.target.state ≠ target_state.TARGET_HALTED
  · rw [if_pos hh]
    exact failStop_refl tp bank _ _
  · rw [if_neg hh]
    have hu := unlock_failStop tp bank tr
    by_cases h1 : (artery_unlock tp bank tr).retval = ERROR_OK
    · rw [if_neg (not_not.mpr h1)]
      rw [h1] at hu
      by_cases h2 : offset &&& 0x01 ≠ 0 ∨ count &&& 0x01 ≠ 0
      · rw [if_pos h2]
        exact failStop_of_ok tp bank _ _ _ hu
      · rw [if_neg h2]
        have hc := failStop_trans tp bank _ _ _ _ hu
          (status_clear_failStop tp bank (artery_unlock tp bank tr).trace (some ERROR_OK))
        have hl := write_user_loop_failStop tp bank buffer count fuel 0
          ((bank.base + offset) % 2 ^ 64) 0
          (artery_write_flash_reg tp bank EFC_STS_REG
            (EFC_PRCDN_BIT ||| EFC_PRGMERR_BIT ||| EFC_EPPERR_BIT)
            (artery_unlock tp bank tr).trace).trace _ rfl
        have hl2 := loopFailStop_trans tp bank _ _ _ hc hl
        revert hl2
        generalize artery_write_user_loop tp bank buffer count fuel 0
          ((bank.base + offset) % 2 ^ 64) 0
          (artery_write_flash_reg tp bank EFC_STS_REG
            (EFC_PRCDN_BIT ||| EFC_PRGMERR_BIT ||| EFC_EPPERR_BIT)
            (artery_unlock tp bank tr).trace).trace = e
        intro hl2
        cases e with
        | done a b t =>
          exact failStop_trans tp bank _ _ _ _ hl2 (lock_failStop tp bank t)
        | ret rv t => exact hl2
        | out_of_fuel t => exact failStop_of_ok tp bank _ _ _ hl2
    · rw [if_pos h1]
      exact hu


theorem erase_returns (tp : Transport) (bank : flash_bank) (first last : Nat)
    (tr : List Access) (h1 : first ≤ last) (h2 : last < bank.num_sectors) :
    ∃ r, artery_erase tp bank first last tr = some r := by
  unfold artery_erase
  rw [if_neg (not_not.mpr ⟨h1, h2⟩)]
  simp only []
  split_ifs
  · exact ⟨_, rfl⟩
  · exact ⟨_, rfl⟩
  · exact ⟨_, rfl⟩
  · exact ⟨_, rfl⟩
  · exact ⟨_, rfl⟩

set_option maxRecDepth 100000 in
/-- C12 (counterexample): in a mass erase of a halted, unlocked main bank whose transport
fails exactly the status-flag clear write (`0x34` to the status register), that write
fails with `ERROR_FAIL`, yet the operation goes on with four more accesses and returns
`ERROR_OK`. -/
theorem C12_transport_failure_fatal_counterexample :
    status_clear scenario_bank_main = Access.write_u32 0x40023C0C 0x34 ∧
    (scenario_transport_failing (status_clear scenario_bank_main)
      [Access.read_u32 0x40023C10, Access.read_u32 0x40023C0C]
      (status_clear scenario_bank_main)).retval = ERROR_FAIL ∧
    artery_mass_erase (scenario_transport_failing (status_clear scenario_bank_main))
        scenario_bank_main [] =
      ⟨ERROR_OK,
        [Access.read_u32 0x40023C10, Access.read_u32 0x40023C0C,
          Access.write_u32 0x40023C0C 0x34, Access.write_u32 0x40023C10 0x04,
          Access.write_u32 0x40023C10 0x44, Access.read_u32 0x40023C0C,
          Access.write_u32 0x40023C10 0x80]⟩ := by
  decide

/-- C12 (amended): in mass erase, sector erase and option-area write, every transport
failure of an access other than the status-flag clear write is fatal: when the transport
fails a register read, a register write other than the write of `0x34` to the status
register, or a 16-bit data write issued by the operation, that access is the last one of
the operation and the operation returns the transport's code.  (`FailStop` says this of
the accesses appended to the trace; sector erase returns whenever its range is valid.) -/
theorem C12_transport_failure_fatal (tp : Transport) (bank : flash_bank) (tr : List Access) :
    FailStop tp bank tr (some (artery_mass_erase tp bank tr).retval)
      (artery_mass_erase tp bank tr).trace ∧
    (∀ first last : Nat, first ≤ last → last < bank.num_sectors →
      ∃ r, artery_erase tp bank first last tr = some r ∧
        FailStop tp bank tr (some r.retval) r.trace) ∧
    (∀ (fuel : Nat) (buffer : List Nat) (offset count : Nat),
      FailStop tp bank tr (artery_write_user fuel tp bank buffer offset count tr).retval
        (artery_write_user fuel tp bank buffer offset count tr).trace) := by
  refine ⟨mass_erase_failStop tp bank tr, ?_, ?_⟩
  · intro first last h1 h2
    obtain ⟨r, hr⟩ := erase_returns tp bank first last tr h1 h2
    exact ⟨r, hr, erase_failStop tp bank first last tr r hr⟩
  · intro fuel buffer offset count
    exact write_user_failStop fuel tp bank buffer offset count tr

set_option maxRecDepth 100000 in
theorem C12_transport_failure_fatal_witness :
    (scenario_transport_failing (Access.write_u32 0x40023C10 0x04)
      [Access.read_u32 0x40023C10, Access.read_u32 0x40023C0C,
        Access.write_u32 0x40023C0C 0x34]
      (Access.write_u32 0x40023C10 0x04)).retval = ERROR_FAIL ∧
    Checked scenario_bank_main (Access.write_u32 0x40023C10 0x04) ∧
    FailStop (scenario_transport_failing (Access.write_u32 0x40023C10 0x04))
      scenario_bank_main [] (some ERROR_FAIL)
      [Access.read_u32 0x40023C10, Access.read_u32 0x40023C0C,
        Access.write_u32 0x40023C0C 0x34, Access.write_u32 0x40023C10 0x04] := by
  refine ⟨by decide, ⟨by decide, fun ms h => Access.noConfusion h⟩, ?_⟩
  have h := (C12_transport_failure_fatal
    (scenario_transport_failing (Access.write_u32 0x40023C10 0x04)) scenario_bank_main []).1
  have e : artery_mass_erase (scenario_transport_failing (Access.write_u32 0x40023C10 0x04))
      scenario_bank_main [] =
      ⟨ERROR_FAIL, [Access.read_u32 0x40023C10, Access.read_u32 0x40023C0C,
        Access.write_u32 0x40023C0C 0x34, Access.write_u32 0x40023C10 0x04]⟩ := by decide
  rw [e] at h
  exact h


theorem wait_rounds_zero (bank : flash_bank) : wait_rounds bank 0 = [] := rfl

theorem wait_rounds_succ (bank : flash_bank) (k : Nat) :
    wait_rounds bank (k + 1) =
      [status_read bank, Access.alive_sleep 1] ++ wait_rounds bank k := by
  unfold wait_rounds
  rw [List.replicate_succ, List.flatten_cons]

theorem wait_read_shift (tp : Transport) (bank : flash_bank) (tr : List Access) (k : Nat) :
    wait_read tp bank (tr ++ [status_read bank, Access.alive_sleep 1]) k =
      wait_read tp bank tr (k + 1) := by
  unfold wait_read
  rw [wait_rounds_succ, List.append_assoc]

theorem wait_read_trace (tp : Transport) (bank : flash_bank) (tr : List Access) (k : Nat) :
    (wait_read tp bank tr k).trace = tr ++ wait_rounds bank k ++ [status_read bank] := rfl

theorem wait_read_zero (tp : Transport) (bank : flash_bank) (tr : List Access) :
    wait_read tp bank tr 0 = artery_read_flash_reg tp bank EFC_STS_REG tr := by
  unfold wait_read
  rw [wait_rounds_zero, List.append_nil]

/-- A failed status read ends the poll at once, whatever the budget. -/
theorem wait_loop_read_fails (tp : Transport) (bank : flash_bank) (n : Nat)
    (tr : List Access)
    (h : (artery_read_flash_reg tp bank EFC_STS_REG tr).retval ≠ ERROR_OK) :
    artery_wait_status_busy_loop tp bank n tr =
      (⟨(artery_read_flash_reg tp bank EFC_STS_REG tr).retval, tr ++ [status_read bank]⟩,
        none) := by
  cases n with
  | zero =>
    unfold artery_wait_status_busy_loop
    simp only []
    rw [if_pos h]
    rfl
  | succ n =>
    unfold artery_wait_status_busy_loop
    simp only []
    rw [if_pos h]
    rfl

/-- A successful status read that shows busy clear ends the poll in success, whatever
the budget. -/
theorem wait_loop_read_idle (tp : Transport) (bank : flash_bank) (n : Nat)
    (tr : List Access)
    (h : (artery_read_flash_reg tp bank EFC_STS_REG tr).retval = ERROR_OK)
    (hb : (artery_read_flash_reg tp bank EFC_STS_REG tr).value &&& EFC_BSY_BIT = 0) :
    artery_wait_status_busy_loop tp bank n tr =
      (⟨ERROR_OK, tr ++ [status_read bank]⟩,
        some (artery_read_flash_reg tp bank EFC_STS_REG tr).value) := by
  cases n with
  | zero =>
    unfold artery_wait_status_busy_loop
    simp only []
    rw [if_neg (not_not.mpr h), if_pos hb, h]
    rfl
  | succ n =>
    unfold artery_wait_status_busy_loop
    simp only []
    rw [if_neg (not_not.mpr h), if_pos hb, h]
    rfl

/-- A busy status read with the budget used up is the timeout. -/
theorem wait_loop_read_timeout (tp : Transport) (bank : flash_bank) (tr : List Access)
    (h : (artery_read_flash_reg tp bank EFC_STS_REG tr).retval = ERROR_OK)
    (hb : (artery_read_flash_reg tp bank EFC_STS_REG tr).value &&& EFC_BSY_BIT ≠ 0) :
    artery_wait_status_busy_loop tp bank 0 tr =
      (⟨ERROR_FAIL, tr ++ [status_read bank]⟩, none) := by
  unfold artery_wait_status_busy_loop
  simp only []
  rw [if_neg (not_not.mpr h), if_neg hb]
  rfl

/-- A busy status read with budget left consumes one unit and sleeps. -/
theorem wait_loop_read_busy (tp : Transport) (bank : flash_bank) (n : Nat)
    (tr : List Access)
    (h : (artery_read_flash_reg tp bank EFC_STS_REG tr).retval = ERROR_OK)
    (hb : (artery_read_flash_reg tp bank EFC_STS_REG tr).value &&& EFC_BSY_BIT ≠ 0) :
    artery_wait_status_busy_loop tp bank (n + 1) tr =
      artery_wait_status_busy_loop tp bank n
        (tr ++ [status_read bank, Access.alive_sleep 1]) := by
  have e : tr ++ [status_read bank, Access.alive_sleep 1] =
      alive_sleep 1 (artery_read_flash_reg tp bank EFC_STS_REG tr).trace := by
    show _ = (tr ++ [status_read bank]) ++ [Access.alive_sleep 1]
    rw [List.append_assoc]
    rfl
  rw [e]
  conv_lhs => unfold artery_wait_status_busy_loop
  simp only []
  rw [if_neg (not_not.mpr h), if_neg hb]

/-- After `k` busy reads the poll goes on with `k` units less, `k` rounds later. -/
theorem wait_loop_rounds (tp : Transport) (bank : flash_bank) (k : Nat) :
    ∀ (n : Nat) (tr : List Access), (∀ j, j < k → wait_read_busy tp bank tr j) →
      artery_wait_status_busy_loop tp bank (n + k) tr =
        artery_wait_status_busy_loop tp bank n (tr ++ wait_rounds bank k) := by
  induction k with
  | zero =>
    intro n tr _
    rw [wait_rounds_zero, List.append_nil, Nat.add_zero]
  | succ k ih =>
    intro n tr hb
    have h0 := hb 0 (Nat.succ_pos k)
    unfold wait_read_busy at h0
    rw [wait_read_zero] at h0
    rw [show n + (k + 1) = (n + k) + 1 from by omega,
      wait_loop_read_busy tp bank (n + k) tr h0.1 h0.2, ih n _ ?_, wait_rounds_succ,
      List.append_assoc]
    intro j hj
    have := hb (j + 1) (by omega)
    unfold wait_read_busy at this ⊢
    rw [wait_read_shift]
    exact this


theorem wait_rounds_count (bank : flash_bank) (k : Nat) :
    (wait_rounds bank k ++ [status_read bank]).count (status_read bank) = k + 1 := by
  induction k with
  | zero => simp [wait_rounds_zero]
  | succ k ih =>
    rw [wait_rounds_succ, List.append_assoc, List.count_append, ih]
    simp [status_read]
    omega

theorem wait_busy_eq_loop (tp : Transport) (bank : flash_bank) (N : Nat) (tr : List Access) :
    artery_wait_status_busy tp bank (N : Int) tr =
      (artery_wait_status_busy_loop tp bank N tr).1 := by
  unfold artery_wait_status_busy
  rw [Int.toNat_ofNat]

/-- The plain wait when status read `k` is the first one not busy. -/
theorem wait_busy_idle_at (tp : Transport) (bank : flash_bank) (N k : Nat)
    (tr : List Access) (hk : k ≤ N) (hidle : wait_read_idle tp bank tr k)
    (hbusy : ∀ j, j < k → wait_read_busy tp bank tr j) :
    artery_wait_status_busy_loop tp bank N tr =
      (⟨ERROR_OK, tr ++ wait_rounds bank k ++ [status_read bank]⟩,
        some (wait_read tp bank tr k).value) := by
  rw [show N = (N - k) + k from by omega, wait_loop_rounds tp bank k _ tr hbusy]
  exact wait_loop_read_idle tp bank _ _ hidle.1 hidle.2

/-- The plain wait when status read `k` is the first one to fail. -/
theorem wait_busy_fails_at (tp : Transport) (bank : flash_bank) (N k : Nat)
    (tr : List Access) (hk : k ≤ N) (hfail : (wait_read tp bank tr k).retval ≠ ERROR_OK)
    (hbusy : ∀ j, j < k → wait_read_busy tp bank tr j) :
    artery_wait_status_busy_loop tp bank N tr =
      (⟨(wait_read tp bank tr k).retval, tr ++ wait_rounds bank k ++ [status_read bank]⟩,
        none) := by
  rw [show N = (N - k) + k from by omega, wait_loop_rounds tp bank k _ tr hbusy]
  exact wait_loop_read_fails tp bank _ _ hfail

/-- The plain wait when every status read up to number `N` shows busy. -/
theorem wait_busy_timeout (tp : Transport) (bank : flash_bank) (N : Nat)
    (tr : List Access) (hbusy : ∀ j, j ≤ N → wait_read_busy tp bank tr j) :
    artery_wait_status_busy_loop tp bank N tr =
      (⟨ERROR_FAIL, tr ++ wait_rounds bank N ++ [status_read bank]⟩, none) := by
  have h := wait_loop_rounds tp bank N 0 tr (fun j hj => hbusy j (Nat.le_of_lt hj))
  rw [Nat.zero_add] at h
  rw [h]
  exact wait_loop_read_timeout tp bank _ (hbusy N (Nat.le_refl N)).1 (hbusy N (Nat.le_refl N)).2

/-- C22: for every timeout `N >= 0`, with `wait_read k` the status read issued after `k`
busy rounds: when the status reads succeed, `artery_wait_status_busy` returns success
exactly when the first read showing busy clear is preceded by at most `N` busy reads, and
then it has issued those rounds and that read; when the status stays busy it returns
`ERROR_FAIL` after exactly `N + 1` status reads; and a failed status read ends the wait
at once with the transport's code. -/
theorem C22_wait_status_busy (tp : Transport) (bank : flash_bank) (N : Nat)
    (tr : List Access) :
    ((∀ k, k ≤ N → (wait_read tp bank tr k).retval = ERROR_OK) →
      ((artery_wait_status_busy tp bank (N : Int) tr).retval = ERROR_OK ↔
        ∃ k, k ≤ N ∧ wait_read_idle tp bank tr k ∧
          ∀ j, j < k → wait_read_busy tp bank tr j)) ∧
    (∀ k, k ≤ N → wait_read_idle tp bank tr k →
      (∀ j, j < k → wait_read_busy tp bank tr j) →
      artery_wait_status_busy tp bank (N : Int) tr =
        ⟨ERROR_OK, tr ++ wait_rounds bank k ++ [status_read bank]⟩) ∧
    ((∀ j, j ≤ N → wait_read_busy tp bank tr j) →
      artery_wait_status_busy tp bank (N : Int) tr =
        ⟨ERROR_FAIL, tr ++ wait_rounds bank N ++ [status_read bank]⟩ ∧
      (wait_rounds bank N ++ [status_read bank]).count (status_read bank) = N + 1) ∧
    (∀ k, k ≤ N → (∀ j, j < k → wait_read_busy tp bank tr j) →
      (wait_read tp bank tr k).retval ≠ ERROR_OK →
      artery_wait_status_busy tp bank (N : Int) tr =
        ⟨(wait_read tp bank tr k).retval,
          tr ++ wait_rounds bank k ++ [status_read bank]⟩) := by
  have e1 : ERROR_FAIL ≠ ERROR_OK := by decide
  refine ⟨?_, ?_, ?_, ?_⟩
  · intro hok
    constructor
    · intro hret
      by_cases hex : ∃ k, k ≤ N ∧ wait_read_idle tp bank tr k
      · classical
        have hk := Nat.find_spec hex
        refine ⟨Nat.find hex, hk.1, hk.2, ?_⟩
        intro j hj
        have hj2 := Nat.find_min hex hj
        have hjN : j ≤ N := Nat.le_trans (Nat.le_of_lt hj) hk.1
        refine ⟨hok j hjN, ?_⟩
        intro hz
        exact hj2 ⟨hjN, hok j hjN, hz⟩
      · exfalso
        have hbusy : ∀ j, j ≤ N → wait_read_busy tp bank tr j := by
          intro j hj
          refine ⟨hok j hj, ?_⟩
          intro hz
          exact hex ⟨j, hj, hok j hj, hz⟩
        rw [wait_busy_eq_loop, wait_busy_timeout tp bank N tr hbusy] at hret
        exact e1 hret
    · rintro ⟨k, hk, hidle, hbusy⟩
      rw [wait_busy_eq_loop, wait_busy_idle_at tp bank N k tr hk hidle hbusy]
  · intro k hk hidle hbusy
    rw [wait_busy_eq_loop, wait_busy_idle_at tp bank N k tr hk hidle hbusy]
  · intro hbusy
    refine ⟨?_, wait_rounds_count bank N⟩
    rw [wait_busy_eq_loop, wait_busy_timeout tp bank N tr hbusy]
  · intro k hk hbusy hfail
    rw [wait_busy_eq_loop, wait_busy_fails_at tp bank N k tr hk hfail hbusy]

set_option maxRecDepth 100000 in
theorem C22_wait_status_busy_witness :
    ((2 : Nat) ≤ 5 ∧
      wait_read_idle (scenario_transport_busy 2) scenario_bank_main
        [Access.read_u32 0x40023C0C] 2 ∧
      ∀ j, j < 2 → wait_read_busy (scenario_transport_busy 2) scenario_bank_main
        [Access.read_u32 0x40023C0C] j) ∧
    artery_wait_status_busy (scenario_transport_busy 2) scenario_bank_main 5
        [Access.read_u32 0x40023C0C] =
      ⟨ERROR_OK, [Access.read_u32 0x40023C0C,
        Access.read_u32 0x40023C0C, Access.alive_sleep 1,
        Access.read_u32 0x40023C0C, Access.alive_sleep 1,
        Access.read_u32 0x40023C0C]⟩ :=
  ⟨by decide,
    ((C22_wait_status_busy (scenario_transport_busy 2) scenario_bank_main 5
      [Access.read_u32 0x40023C0C]).2.1 2 (by decide) (by decide) (by decide)).trans
      (by decide)⟩


/-- How the shared poll ends: with a status word exactly when it succeeded, and that
word is the value of the last read; without one, the code is a failure. -/
theorem wait_loop_status (tp : Transport) (bank : flash_bank) (n : Nat) :
    ∀ tr : List Access,
      (∀ s, (artery_wait_status_busy_loop tp bank n tr).2 = some s →
        (artery_wait_status_busy_loop tp bank n tr).1.retval = ERROR_OK ∧
        s = last_status tp bank (artery_wait_status_busy_loop tp bank n tr).1.trace) ∧
      ((artery_wait_status_busy_loop tp bank n tr).2 = none →
        (artery_wait_status_busy_loop tp bank n tr).1.retval ≠ ERROR_OK) := by
  have e1 : ERROR_FAIL ≠ ERROR_OK := by decide
  induction n with
  | zero =>
    intro tr
    by_cases h : (artery_read_flash_reg tp bank EFC_STS_REG tr).retval = ERROR_OK
    · by_cases hb : (artery_read_flash_reg tp bank EFC_STS_REG tr).value &&& EFC_BSY_BIT = 0
      · rw [wait_loop_read_idle tp bank 0 tr h hb]
        refine ⟨fun s hs => ⟨rfl, ?_⟩, fun hn => absurd hn (by simp)⟩
        unfold last_status
        simp only [List.dropLast_concat]
        exact (Option.some.inj hs).symm
      · rw [wait_loop_read_timeout tp bank tr h hb]
        exact ⟨fun s hs => absurd hs (by simp), fun _ => e1⟩
    · rw [wait_loop_read_fails tp bank 0 tr h]
      exact ⟨fun s hs => absurd hs (by simp), fun _ => h⟩
  | succ n ih =>
    intro tr
    by_cases h : (artery_read_flash_reg tp bank EFC_STS_REG tr).retval = ERROR_OK
    · by_cases hb : (artery_read_flash_reg tp bank EFC_STS_REG tr).value &&& EFC_BSY_BIT = 0
      · rw [wait_loop_read_idle tp bank (n + 1) tr h hb]
        refine ⟨fun s hs => ⟨rfl, ?_⟩, fun hn => absurd hn (by simp)⟩
        unfold last_status
        simp only [List.dropLast_concat]
        exact (Option.some.inj hs).symm
      · rw [wait_loop_read_busy tp bank n tr h hb]
        exact ih _
    · rw [wait_loop_read_fails tp bank (n + 1) tr h]
      exact ⟨fun s hs => absurd hs (by simp), fun _ => h⟩

theorem result_ext (r1 r2 : Result) (h1 : r1.retval = r2.retval)
    (h2 : r1.trace = r2.trace) : r1 = r2 := by
  cases r1
  cases r2
  simp only [Result.mk.injEq]
  exact ⟨h1, h2⟩

/-- The checked wait in terms of the plain wait: the plain wait's result when that
failed, and otherwise the flag test on the last status read. -/
theorem wait_check_cases (tp : Transport) (bank : flash_bank) (timeout : Int)
    (tr : List Access) :
    ((artery_wait_status_busy tp bank timeout tr).retval ≠ ERROR_OK →
      artery_wait_status_busy_and_check tp bank timeout tr =
        artery_wait_status_busy tp bank timeout tr) ∧
    ((artery_wait_status_busy tp bank timeout tr).retval = ERROR_OK →
      artery_wait_status_busy_and_check tp bank timeout tr =
        ⟨if last_status tp bank (artery_wait_status_busy tp bank timeout tr).trace
              &&& EFC_PRGMERR_BIT ≠ 0 then ERROR_FAIL
          else if last_status tp bank (artery_wait_status_busy tp bank timeout tr).trace
              &&& EFC_EPPERR_BIT ≠ 0 then ERROR_FAIL
          else ERROR_OK,
          (artery_wait_status_busy tp bank timeout tr).trace⟩) := by
  have hst := wait_loop_status tp bank timeout.toNat tr
  unfold artery_wait_status_busy_and_check artery_wait_status_busy
  generalize artery_wait_status_busy_loop tp bank timeout.toNat tr = p at hst ⊢
  obtain ⟨r, st⟩ := p
  cases st with
  | none =>
    have hne : r.retval ≠ ERROR_OK := hst.2 rfl
    exact ⟨fun _ => rfl, fun h => absurd h hne⟩
  | some s =>
    obtain ⟨hok, hs⟩ := hst.1 s rfl
    refine ⟨fun h => absurd hok h, fun _ => ?_⟩
    have hs2 : s = last_status tp bank r.trace := hs
    have hok2 : r.retval = ERROR_OK := hok
    show (⟨if s &&& EFC_PRGMERR_BIT ≠ 0 then ERROR_FAIL
      else if s &&& EFC_EPPERR_BIT ≠ 0 then ERROR_FAIL else r.retval, r.trace⟩ : Result) = _
    rw [← hs2, hok2]

/-- C23: for every timeout and every transport, `artery_wait_status_busy_and_check` is
the plain wait followed by the inspection of the last status value read: it issues the
same accesses as `artery_wait_status_busy`; it returns success exactly when the plain
wait returns success and that status has the protection-error flag (bit 4) and the
program-error flag (bit 2) clear; when the plain wait succeeds and either flag is set it
returns `ERROR_FAIL`; and when the plain wait fails it returns the plain wait's code. -/
theorem C23_wait_check_refines (tp : Transport) (bank : flash_bank) (timeout : Int)
    (tr : List Access) :
    artery_wait_status_busy_and_check tp bank timeout tr =
      wait_not_busy_and_check tp bank timeout tr ∧
    (artery_wait_status_busy_and_check tp bank timeout tr).trace =
      (artery_wait_status_busy tp bank timeout tr).trace ∧
    ((artery_wait_status_busy_and_check tp bank timeout tr).retval = ERROR_OK ↔
      ((artery_wait_status_busy tp bank timeout tr).retval = ERROR_OK ∧
        (last_status tp bank (artery_wait_status_busy tp bank timeout tr).trace).testBit 4
          = false ∧
        (last_status tp bank (artery_wait_status_busy tp bank timeout tr).trace).testBit 2
          = false)) ∧
    ((artery_wait_status_busy tp bank timeout tr).retval = ERROR_OK →
      ((last_status tp bank (artery_wait_status_busy tp bank timeout tr).trace).testBit 4
          = true ∨
        (last_status tp bank (artery_wait_status_busy tp bank timeout tr).trace).testBit 2
          = true) →
      (artery_wait_status_busy_and_check tp bank timeout tr).retval = ERROR_FAIL) ∧
    ((artery_wait_status_busy tp bank timeout tr).retval ≠ ERROR_OK →
      (artery_wait_status_busy_and_check tp bank timeout tr).retval =
        (artery_wait_status_busy tp bank timeout tr).retval) := by
  have e1 : ERROR_FAIL ≠ ERROR_OK := by decide
  have h4 : ∀ v : Nat, v &&& EFC_EPPERR_BIT = 0 ↔ v.testBit 4 = false :=
    fun v => and_two_pow_eq_zero_iff v 4
  have h2 : ∀ v : Nat, v &&& EFC_PRGMERR_BIT = 0 ↔ v.testBit 2 = false :=
    fun v => and_two_pow_eq_zero_iff v 2
  obtain ⟨hfail, hsucc⟩ := wait_check_cases tp bank timeout tr
  unfold wait_not_busy_and_check
  simp only []
  generalize artery_wait_status_busy_and_check tp bank timeout tr = c at hfail hsucc ⊢
  generalize artery_wait_status_busy tp bank timeout tr = w at hfail hsucc ⊢
  by_cases hw : w.retval = ERROR_OK
  · have hc := hsucc hw
    rw [if_neg (not_not.mpr hw)]
    by_cases hE : last_status tp bank w.trace &&& EFC_EPPERR_BIT = 0
    · by_cases hP : last_status tp bank w.trace &&& EFC_PRGMERR_BIT = 0
      · rw [if_neg (not_not.mpr hP), if_neg (not_not.mpr hE)] at hc
        rw [if_neg (not_not.mpr hE), if_neg (not_not.mpr hP)]
        have hcr : c.retval = ERROR_OK := by rw [hc]
        have hct : c.trace = w.trace := by rw [hc]
        refine ⟨result_ext c w (hcr.trans hw.symm) hct, hct, ?_, ?_, ?_⟩
        · exact ⟨fun _ => ⟨hw, (h4 _).mp hE, (h2 _).mp hP⟩, fun _ => hcr⟩
        · intro _ hor
          rcases hor with h | h
          · rw [(h4 _).mp hE] at h
            exact absurd h Bool.false_ne_true
          · rw [(h2 _).mp hP] at h
            exact absurd h Bool.false_ne_true
        · intro h
          exact absurd hw h
      · rw [if_pos hP] at hc
        rw [if_neg (not_not.mpr hE), if_pos hP]
        have hcr : c.retval = ERROR_FAIL := by rw [hc]
        have hct : c.trace = w.trace := by rw [hc]
        refine ⟨hc, hct, ?_, ?_, ?_⟩
        · refine ⟨fun h => absurd (hcr.symm.trans h) e1, fun h => ?_⟩
          exact absurd ((h2 _).mpr h.2.2) hP
        · intro _ _
          exact hcr
        · intro h
          exact absurd hw h
    · have hcr : c.retval = ERROR_FAIL := by
        rw [hc]
        by_cases hP : last_status tp bank w.trace &&& EFC_PRGMERR_BIT = 0
        · rw [if_neg (not_not.mpr hP), if_pos hE]
        · rw [if_pos hP]
      have hct : c.trace = w.trace := by rw [hc]
      rw [if_pos hE]
      refine ⟨result_ext c _ hcr hct, hct, ?_, ?_, ?_⟩
      · refine ⟨fun h => absurd (hcr.symm.trans h) e1, fun h => ?_⟩
        exact absurd ((h4 _).mpr h.2.1) hE
      · intro _ _
        exact hcr
      · intro h
        exact absurd hw h
  · have hc := hfail hw
    rw [if_pos hw]
    refine ⟨hc, by rw [hc], ?_, ?_, ?_⟩
    · rw [hc]
      exact ⟨fun h => absurd h hw, fun h => absurd h.1 hw⟩
    · intro h
      exact absurd h hw
    · intro _
      rw [hc]

set_option maxRecDepth 100000 in
theorem C23_wait_check_refines_witness :
    (artery_wait_status_busy (scenario_transport_sts_error 0) scenario_bank_main 10 []).retval
      = ERROR_OK ∧
    (last_status (scenario_transport_sts_error 0) scenario_bank_main
      (artery_wait_status_busy (scenario_transport_sts_error 0) scenario_bank_main 10
        []).trace).testBit 4 = true ∧
    (artery_wait_status_busy_and_check (scenario_transport_sts_error 0) scenario_bank_main 10
      []).retval = ERROR_FAIL :=
  ⟨by decide, by decide,
    (C23_wait_check_refines (scenario_transport_sts_error 0) scenario_bank_main 10
      []).2.2.2.1 (by decide) (Or.inl (by decide))⟩


theorem is_otp_false (bank : flash_bank) (hmain : bank.base ≠ OTP_BANK_BASE_ADDR) :
    artery_is_otp bank = false := by
  simp [artery_is_otp, hmain]

theorem is_otp_true (bank : flash_bank) (hotp : bank.base = OTP_BANK_BASE_ADDR) :
    artery_is_otp bank = true := by
  simp [artery_is_otp, hotp]

/-- A register write on a transport that accepts it. -/
theorem write_reg_ok (tp : Transport) (bank : flash_bank) (off v : Nat) (tr : List Access)
    (h : (tp tr (Access.write_u32 (artery_get_flash_reg bank off) (v % 2 ^ 32))).retval
      = ERROR_OK) :
    artery_write_flash_reg tp bank off v tr =
      ⟨ERROR_OK, tr ++ [Access.write_u32 (artery_get_flash_reg bank off) (v % 2 ^ 32)]⟩ := by
  unfold artery_write_flash_reg target_write_u32
  simp only []
  rw [h]

/-- The result of the lock write is the transport's answer to it. -/
theorem lock_eq (tp : Transport) (bank : flash_bank) (tr : List Access) :
    artery_lock tp bank tr = ⟨(tp tr (lock_write bank)).retval, tr ++ [lock_write bank]⟩ := by
  unfold artery_lock lock_write ctrl_write
  by_cases h : bank.base = OTP_BANK_BASE_ADDR
  · rw [if_pos (is_otp_true bank h), if_pos h]
    rfl
  · rw [is_otp_false bank h, if_neg h, if_neg (by decide)]
    rfl

/-- Main-bank unlock when the control register shows the lock bit clear. -/
theorem unlock_main_idle (tp : Transport) (bank : flash_bank) (tr : List Access)
    (hmain : bank.base ≠ OTP_BANK_BASE_ADDR)
    (hread : (artery_read_flash_reg tp bank EFC_CTRL_REG tr).retval = ERROR_OK)
    (hbit : (artery_read_flash_reg tp bank EFC_CTRL_REG tr).value &&& EFC_LOCK_BIT = 0) :
    artery_unlock tp bank tr = ⟨ERROR_OK, tr ++ [ctrl_read bank]⟩ := by
  unfold artery_unlock
  rw [is_otp_false bank hmain, if_neg (by decide)]
  unfold artery_unlock_flash
  simp only []
  rw [if_neg (not_not.mpr hread), if_pos hbit]
  rfl

/-- Option-area unlock when the control register shows the user-unlock bit set. -/
theorem unlock_otp_idle (tp : Transport) (bank : flash_bank) (tr : List Access)
    (hotp : bank.base = OTP_BANK_BASE_ADDR)
    (hread : (artery_read_flash_reg tp bank EFC_CTRL_REG tr).retval = ERROR_OK)
    (hbit : (artery_read_flash_reg tp bank EFC_CTRL_REG tr).value &&& EFC_USD_UNLOCK_BIT
      = EFC_USD_UNLOCK_BIT) :
    artery_unlock tp bank tr = ⟨ERROR_OK, tr ++ [ctrl_read bank]⟩ := by
  unfold artery_unlock
  rw [if_pos (is_otp_true bank hotp)]
  unfold artery_unlock_user
  simp only []
  rw [if_neg (not_not.mpr hread), if_pos hbit]
  rfl

/-- The plain wait on a status register that is not busy: one read. -/
theorem wait_busy_one_read (tp : Transport) (bank : flash_bank) (timeout : Int)
    (tr : List Access)
    (h : (artery_read_flash_reg tp bank EFC_STS_REG tr).retval = ERROR_OK)
    (hb : (artery_read_flash_reg tp bank EFC_STS_REG tr).value &&& EFC_BSY_BIT = 0) :
    artery_wait_status_busy tp bank timeout tr = ⟨ERROR_OK, tr ++ [status_read bank]⟩ := by
  unfold artery_wait_status_busy
  rw [wait_loop_read_idle tp bank _ tr h hb]

/-- Mass erase of a halted, unlocked, idle main bank up to its checked wait: the
accesses before the wait are fixed, and the outcome is that of the wait followed by the
lock write. -/
theorem mass_erase_steps (tp : Transport) (bank : flash_bank) (tr : List Access)
    (hmain : bank.base ≠ OTP_BANK_BASE_ADDR)
    (hhalt : bank.target.state = target_state.TARGET_HALTED)
    (hok : TransportSucceeds tp)
    (hbit : (artery_read_flash_reg tp bank EFC_CTRL_REG tr).value &&& EFC_LOCK_BIT = 0)
    (hb : (artery_read_flash_reg tp bank EFC_STS_REG (tr ++ [ctrl_read bank])).value
      &&& EFC_BSY_BIT = 0) :
    artery_mass_erase tp bank tr =
      if (artery_wait_status_busy_and_check tp bank FLASH_ERASE_TIMEOUT
          (tr ++ [ctrl_read bank, status_read bank, status_clear bank,
            ctrl_write bank 0x04, ctrl_write bank 0x44])).retval ≠ ERROR_OK then
        artery_wait_status_busy_and_check tp bank FLASH_ERASE_TIMEOUT
          (tr ++ [ctrl_read bank, status_read bank, status_clear bank,
            ctrl_write bank 0x04, ctrl_write bank 0x44])
      else
        artery_lock tp bank
          (artery_wait_status_busy_and_check tp bank FLASH_ERASE_TIMEOUT
            (tr ++ [ctrl_read bank, status_read bank, status_clear bank,
              ctrl_write bank 0x04, ctrl_write bank 0x44])).trace := by
  have hu := unlock_main_idle tp bank tr hmain (hok _ _) hbit
  have hw := wait_busy_one_read tp bank FLASH_ERASE_TIMEOUT (tr ++ [ctrl_read bank])
    (hok _ _) hb
  have hm := write_reg_ok tp bank EFC_CTRL_REG EFC_BANKERS_BIT
    (tr ++ [ctrl_read bank] ++ [status_read bank] ++ [status_clear bank]) (hok _ _)
  have hs := write_reg_ok tp bank EFC_CTRL_REG (EFC_BANKERS_BIT ||| EFC_RSTR_BIT)
    (tr ++ [ctrl_read bank] ++ [status_read bank] ++ [status_clear bank] ++
      [Access.write_u32 (artery_get_flash_reg bank EFC_CTRL_REG)
        (EFC_BANKERS_BIT % 2 ^ 32)]) (hok _ _)
  have etr : tr ++ [ctrl_read bank] ++ [status_read bank] ++ [status_clear bank] ++
      [Access.write_u32 (artery_get_flash_reg bank EFC_CTRL_REG) (EFC_BANKERS_BIT % 2 ^ 32)] ++
      [Access.write_u32 (artery_get_flash_reg bank EFC_CTRL_REG)
        ((EFC_BANKERS_BIT ||| EFC_RSTR_BIT) % 2 ^ 32)] =
      tr ++ [ctrl_read bank, status_read bank, status_clear bank,
        ctrl_write bank 0x04, ctrl_write bank 0x44] := by
    simp only [List.append_assoc, List.cons_append, List.nil_append]
    rfl
  unfold artery_mass_erase
  simp only []
  rw [if_neg (not_not.mpr hhalt), is_otp_false bank hmain, if_neg (by decide), hu]
  simp only []
  rw [if_neg (by decide), hw]
  simp only []
  rw [if_neg (by decide), status_clear_idle, hm]
  simp only []
  rw [if_neg (by decide), hs]
  simp only []
  rw [if_neg (by decide), etr]


/-- The start writes of one sector erase on a transport on which every access
succeeds. -/
theorem erase_start_ok (tp : Transport) (bank : flash_bank) (i : Nat) (tr : List Access)
    (hok : TransportSucceeds tp) :
    artery_erase_start tp bank i tr = ⟨ERROR_OK, tr ++ erase_start_accesses bank i⟩ := by
  unfold artery_erase_start erase_start_accesses artery_erase_mode
  simp only []
  by_cases h : bank.base = OTP_BANK_BASE_ADDR
  · have hm := write_reg_ok tp bank EFC_CTRL_REG (EFC_USD_ERS_BIT ||| EFC_USD_UNLOCK_BIT)
      (tr ++ [status_clear bank]) (hok _ _)
    have hs := write_reg_ok tp bank EFC_CTRL_REG
      (EFC_USD_ERS_BIT ||| EFC_USD_UNLOCK_BIT ||| EFC_RSTR_BIT)
      (tr ++ [status_clear bank] ++
        [Access.write_u32 (artery_get_flash_reg bank EFC_CTRL_REG)
          ((EFC_USD_ERS_BIT ||| EFC_USD_UNLOCK_BIT) % 2 ^ 32)]) (hok _ _)
    rw [if_pos (is_otp_true bank h), if_pos h, status_clear_idle, hm]
    simp only []
    rw [if_neg (by decide), is_otp_true bank h]
    simp only [Bool.not_true]
    rw [if_neg Bool.false_ne_true]
    simp only []
    rw [if_neg (by decide), hs]
    simp only [List.append_assoc, List.cons_append, List.nil_append]
    rfl
  · have hm := write_reg_ok tp bank EFC_CTRL_REG EFC_PGERS_BIT
      (tr ++ [status_clear bank]) (hok _ _)
    have ha := write_reg_ok tp bank EFC_ADDR_REG
      ((bank.base + (bank.sectors.getD i default).offset) % 2 ^ 64)
      (tr ++ [status_clear bank] ++
        [Access.write_u32 (artery_get_flash_reg bank EFC_CTRL_REG)
          (EFC_PGERS_BIT % 2 ^ 32)]) (hok _ _)
    have hs := write_reg_ok tp bank EFC_CTRL_REG (EFC_PGERS_BIT ||| EFC_RSTR_BIT)
      (tr ++ [status_clear bank] ++
        [Access.write_u32 (artery_get_flash_reg bank EFC_CTRL_REG)
          (EFC_PGERS_BIT % 2 ^ 32)] ++
        [Access.write_u32 (artery_get_flash_reg bank EFC_ADDR_REG)
          ((bank.base + (bank.sectors.getD i default).offset) % 2 ^ 64 % 2 ^ 32)])
      (hok _ _)
    have hmod : (bank.base + (bank.sectors.getD i default).offset) % 2 ^ 64 % 2 ^ 32 =
        (bank.base + (bank.sectors.getD i default).offset) % 2 ^ 32 :=
      Nat.mod_mod_of_dvd _ (by decide)
    rw [is_otp_false bank h, if_neg h, if_neg Bool.false_ne_true, status_clear_idle, hm]
    simp only []
    rw [if_neg (by decide)]
    simp only [Bool.not_false, if_true]
    rw [ha]
    simp only []
    rw [if_neg (by decide), hs, hmod]
    simp only [List.append_assoc, List.cons_append, List.nil_append]
    rfl


theorem erase_accesses_zero (bank : flash_bank) (first : Nat) :
    erase_accesses bank first 0 = [] := by
  simp [erase_accesses]

theorem erase_accesses_succ (bank : flash_bank) (first n : Nat) :
    erase_accesses bank first (n + 1) =
      erase_sector_accesses bank first ++ erase_accesses bank (first + 1) n := by
  unfold erase_accesses
  rw [List.range_succ_eq_map, List.map_cons, List.flatten_cons, List.map_map, Nat.add_zero]
  congr 2
  apply List.map_congr_left
  intro j _
  simp only [Function.comp]
  rw [show first + 1 + j = first + (j + 1) from by omega]

/-- One round of the sector loop on a transport on which every access succeeds: the start
writes, then the checked wait decides. -/
theorem erase_loop_step (tp : Transport) (bank : flash_bank) (n i : Nat) (tr : List Access)
    (hok : TransportSucceeds tp) :
    artery_erase_loop tp bank (n + 1) i tr =
      if (artery_wait_status_busy_and_check tp bank FLASH_ERASE_TIMEOUT
          (tr ++ erase_start_accesses bank i)).retval ≠ ERROR_OK then
        artery_wait_status_busy_and_check tp bank FLASH_ERASE_TIMEOUT
          (tr ++ erase_start_accesses bank i)
      else
        artery_erase_loop tp bank n (i + 1)
          (artery_wait_status_busy_and_check tp bank FLASH_ERASE_TIMEOUT
            (tr ++ erase_start_accesses bank i)).trace := by
  conv_lhs => unfold artery_erase_loop
  simp only []
  rw [erase_start_ok tp bank i tr hok]
  simp only []
  rw [if_neg (by decide)]

/-- The sector loop on an idle controller: every sector is started and its checked wait
is one status read. -/
theorem erase_loop_idle (tp : Transport) (bank : flash_bank) (hok : TransportSucceeds tp)
    (hidle : StatusIdle tp bank) :
    ∀ (n i : Nat) (tr : List Access),
      artery_erase_loop tp bank n i tr = ⟨ERROR_OK, tr ++ erase_accesses bank i n⟩ := by
  intro n
  induction n with
  | zero =>
    intro i tr
    rw [erase_accesses_zero, List.append_nil]
    unfold artery_erase_loop
    rfl
  | succ n ih =>
    intro i tr
    rw [erase_loop_step tp bank n i tr hok, checked_wait_idle tp bank _ _ hok hidle]
    simp only []
    rw [if_neg (by decide), ih, erase_accesses_succ]
    unfold erase_sector_accesses status_read
    simp only [List.append_assoc]

/-- Sector erase of a halted, unlocked, idle bank over a valid range, up to its sector
loop: the accesses before the loop are the unlock's control-register read and the first
wait's status read, and the outcome is that of the loop followed by the lock write. -/
theorem erase_steps (tp : Transport) (bank : flash_bank) (first last : Nat)
    (tr : List Access)
    (hrange : first ≤ last ∧ last < bank.num_sectors)
    (hhalt : bank.target.state = target_state.TARGET_HALTED)
    (hunlock : artery_unlock tp bank tr = ⟨ERROR_OK, tr ++ [ctrl_read bank]⟩)
    (hr : (artery_read_flash_reg tp bank EFC_STS_REG (tr ++ [ctrl_read bank])).retval
      = ERROR_OK)
    (hb : (artery_read_flash_reg tp bank EFC_STS_REG (tr ++ [ctrl_read bank])).value
      &&& EFC_BSY_BIT = 0) :
    artery_erase tp bank first last tr =
      some (if (artery_erase_loop tp bank (last + 1 - first) first
            (tr ++ [ctrl_read bank, status_read bank])).retval ≠ ERROR_OK then
          artery_erase_loop tp bank (last + 1 - first) first
            (tr ++ [ctrl_read bank, status_read bank])
        else
          artery_lock tp bank
            (artery_erase_loop tp bank (last + 1 - first) first
              (tr ++ [ctrl_read bank, status_read bank])).trace) := by
  have hw := wait_busy_one_read tp bank FLASH_ERASE_TIMEOUT (tr ++ [ctrl_read bank]) hr hb
  have etr : tr ++ [ctrl_read bank] ++ [status_read bank] =
      tr ++ [ctrl_read bank, status_read bank] := by
    rw [List.append_assoc]
    rfl
  unfold artery_erase
  rw [if_neg (not_not.mpr hrange), if_neg (not_not.mpr hhalt)]
  simp only []
  rw [hunlock]
  simp only []
  rw [if_neg (by decide), hw]
  simp only []
  rw [if_neg (by decide), etr]
  split_ifs <;> rfl


theorem scenario_transport_busy_succeeds (n : Nat) :
    TransportSucceeds (scenario_transport_busy n) := by
  intro h a
  unfold scenario_transport_busy
  split_ifs <;> rfl

theorem status_read_main : status_read scenario_bank_main =
    Access.read_u32 (EFC_BASE + EFC_STS_REG) := by
  decide

theorem wait_rounds_count_reads (bank : flash_bank) (k : Nat) :
    (wait_rounds bank k).count (status_read bank) = k := by
  induction k with
  | zero => simp [wait_rounds_zero]
  | succ k ih =>
    rw [wait_rounds_succ, List.count_append, ih]
    simp [status_read]
    omega

/-- The status value the busy scenario shows on a trace holding `c` status reads. -/
theorem scenario_busy_status (n : Nat) (h : List Access) :
    (artery_read_flash_reg (scenario_transport_busy n) scenario_bank_main EFC_STS_REG h).value =
      if 1 ≤ h.count (status_read scenario_bank_main) ∧
          h.count (status_read scenario_bank_main) ≤ n then 1 else 0 := by
  rw [status_read_main]
  show ((scenario_transport_busy n) h (Access.read_u32 (EFC_BASE + EFC_STS_REG))).value % 2 ^ 32
    = _
  unfold scenario_transport_busy
  by_cases hc : 1 ≤ h.count (Access.read_u32 (EFC_BASE + EFC_STS_REG)) ∧
      h.count (Access.read_u32 (EFC_BASE + EFC_STS_REG)) ≤ n
  · rw [if_pos ⟨rfl, hc⟩, if_pos hc]
    rfl
  · rw [if_neg (fun hx => hc hx.2), if_neg hc]
    rfl

theorem scenario_busy_ctrl (n : Nat) (h : List Access) :
    (artery_read_flash_reg (scenario_transport_busy n) scenario_bank_main EFC_CTRL_REG h).value
      = 0 := by
  show ((scenario_transport_busy n) h
    (Access.read_u32 (artery_get_flash_reg scenario_bank_main EFC_CTRL_REG))).value % 2 ^ 32 = 0
  unfold scenario_transport_busy
  rw [if_neg (fun hx => absurd hx.1 (by decide))]
  rfl

/-- In the busy scenario, on a trace that already holds one status read, status read
number `k` of a wait shows busy exactly when `k < n`. -/
theorem scenario_busy_wait_read (n k : Nat) (tr : List Access)
    (htr : tr.count (status_read scenario_bank_main) = 1) :
    (wait_read (scenario_transport_busy n) scenario_bank_main tr k).retval = ERROR_OK ∧
    (wait_read (scenario_transport_busy n) scenario_bank_main tr k).value =
      if k < n then 1 else 0 := by
  refine ⟨scenario_transport_busy_succeeds n _ _, ?_⟩
  unfold wait_read
  rw [scenario_busy_status, List.count_append, htr, wait_rounds_count_reads]
  by_cases hk : k < n
  · rw [if_pos hk, if_pos ⟨by omega, by omega⟩]
  · rw [if_neg hk, if_neg (fun hx => hk (by omega))]

/-- The checked wait of an erase in the busy scenario: it succeeds after `n` busy rounds
when `n <= 100` and times out after 101 status reads otherwise. -/
theorem scenario_busy_checked_wait (n : Nat) (tr : List Access)
    (htr : tr.count (status_read scenario_bank_main) = 1) :
    (n ≤ 100 →
      artery_wait_status_busy_and_check (scenario_transport_busy n) scenario_bank_main
          FLASH_ERASE_TIMEOUT tr =
        ⟨ERROR_OK, tr ++ wait_rounds scenario_bank_main n ++
          [status_read scenario_bank_main]⟩) ∧
    (100 < n →
      artery_wait_status_busy_and_check (scenario_transport_busy n) scenario_bank_main
          FLASH_ERASE_TIMEOUT tr =
        ⟨ERROR_FAIL, tr ++ wait_rounds scenario_bank_main 100 ++
          [status_read scenario_bank_main]⟩) := by
  have hN : FLASH_ERASE_TIMEOUT.toNat = 100 := by decide
  have hbusy : ∀ j, j < n →
      wait_read_busy (scenario_transport_busy n) scenario_bank_main tr j := by
    intro j hj
    obtain ⟨h1, h2⟩ := scenario_busy_wait_read n j tr htr
    refine ⟨h1, ?_⟩
    rw [h2, if_pos hj]
    decide
  constructor
  · intro hn
    obtain ⟨h1, h2⟩ := scenario_busy_wait_read n n tr htr
    rw [if_neg (Nat.lt_irrefl n)] at h2
    have hidle : wait_read_idle (scenario_transport_busy n) scenario_bank_main tr n := by
      refine ⟨h1, ?_⟩
      rw [h2]
      decide
    unfold artery_wait_status_busy_and_check
    rw [hN, wait_busy_idle_at _ _ 100 n tr hn hidle hbusy, h2]
    rfl
  · intro hn
    unfold artery_wait_status_busy_and_check
    rw [hN, wait_busy_timeout _ _ 100 tr (fun j hj => hbusy j (by omega))]

/-- C21 (code defect): the checked wait of `artery_mass_erase` runs on the per-sector
budget `FLASH_ERASE_TIMEOUT` (100), the one `artery_erase` uses, and not on
`FLSAH_MASS_ERASE_TIMEOUT` (100000).  When the status register shows busy on the `n`
reads that follow the start of the erase, mass erase and the erase of one sector both
complete for `n <= 100` and both time out with `ERROR_FAIL`, after 101 status reads and
without the lock write, for every larger `n`: no number of busy reads separates them. -/
theorem C21_mass_erase_budget (n : Nat) :
    FLASH_ERASE_TIMEOUT < FLSAH_MASS_ERASE_TIMEOUT ∧
    (n ≤ 100 →
      artery_mass_erase (scenario_transport_busy n) scenario_bank_main [] =
        ⟨ERROR_OK,
          [Access.read_u32 0x40023C10, Access.read_u32 0x40023C0C,
            Access.write_u32 0x40023C0C 0x34, Access.write_u32 0x40023C10 0x04,
            Access.write_u32 0x40023C10 0x44] ++ wait_rounds scenario_bank_main n ++
          [Access.read_u32 0x40023C0C, Access.write_u32 0x40023C10 0x80]⟩ ∧
      artery_erase (scenario_transport_busy n) scenario_bank_main 0 0 [] =
        some ⟨ERROR_OK,
          [Access.read_u32 0x40023C10, Access.read_u32 0x40023C0C,
            Access.write_u32 0x40023C0C 0x34, Access.write_u32 0x40023C10 0x02,
            Access.write_u32 0x40023C14 0x08000000, Access.write_u32 0x40023C10 0x42] ++
          wait_rounds scenario_bank_main n ++
          [Access.read_u32 0x40023C0C, Access.write_u32 0x40023C10 0x80]⟩) ∧
    (100 < n →
      artery_mass_erase (scenario_transport_busy n) scenario_bank_main [] =
        ⟨ERROR_FAIL,
          [Access.read_u32 0x40023C10, Access.read_u32 0x40023C0C,
            Access.write_u32 0x40023C0C 0x34, Access.write_u32 0x40023C10 0x04,
            Access.write_u32 0x40023C10 0x44] ++ wait_rounds scenario_bank_main 100 ++
          [Access.read_u32 0x40023C0C]⟩ ∧
      artery_erase (scenario_transport_busy n) scenario_bank_main 0 0 [] =
        some ⟨ERROR_FAIL,
          [Access.read_u32 0x40023C10, Access.read_u32 0x40023C0C,
            Access.write_u32 0x40023C0C 0x34, Access.write_u32 0x40023C10 0x02,
            Access.write_u32 0x40023C14 0x08000000, Access.write_u32 0x40023C10 0x42] ++
          wait_rounds scenario_bank_main 100 ++
          [Access.read_u32 0x40023C0C]⟩) := by
  have hok := scenario_transport_busy_succeeds n
  have hmain : scenario_bank_main.base ≠ OTP_BANK_BASE_ADDR := by decide
  have hbit : (artery_read_flash_reg (scenario_transport_busy n) scenario_bank_main
      EFC_CTRL_REG []).value &&& EFC_LOCK_BIT = 0 := by
    rw [scenario_busy_ctrl]
    decide
  have hb : (artery_read_flash_reg (scenario_transport_busy n) scenario_bank_main
      EFC_STS_REG ([] ++ [ctrl_read scenario_bank_main])).value &&& EFC_BSY_BIT = 0 := by
    rw [scenario_busy_status, if_neg (fun hx => absurd hx.1 (by decide))]
    decide
  have hmass := mass_erase_steps (scenario_transport_busy n) scenario_bank_main [] hmain rfl
    hok hbit hb
  have hu := unlock_main_idle (scenario_transport_busy n) scenario_bank_main [] hmain
    (hok _ _) hbit
  have her := erase_steps (scenario_transport_busy n) scenario_bank_main 0 0 []
    ⟨Nat.le_refl 0, by decide⟩ rfl hu (hok _ _) hb
  rw [show 0 + 1 - 0 = 0 + 1 from rfl, erase_loop_step _ _ 0 0 _ hok] at her
  have hm := scenario_busy_checked_wait n
    ([] ++ [ctrl_read scenario_bank_main, status_read scenario_bank_main,
      status_clear scenario_bank_main, ctrl_write scenario_bank_main 0x04,
      ctrl_write scenario_bank_main 0x44]) (by decide)
  have he := scenario_busy_checked_wait n
    ([] ++ [ctrl_read scenario_bank_main, status_read scenario_bank_main] ++
      erase_start_accesses scenario_bank_main 0) (by decide)
  have e1 : ERROR_FAIL ≠ ERROR_OK := by decide
  refine ⟨by decide, ?_, ?_⟩
  · intro hn
    constructor
    · rw [hmass, (hm.1 hn)]
      simp only []
      rw [if_neg (by decide), lock_eq, hok _ _]
      simp only [List.append_assoc, List.nil_append, List.cons_append]
      rfl
    · rw [her, (he.1 hn)]
      simp only [ne_eq, not_true_eq_false, if_false, artery_erase_loop]
      rw [lock_eq, hok _ _]
      simp only [List.append_assoc, List.nil_append, List.cons_append]
      rfl
  · intro hn
    constructor
    · rw [hmass, (hm.2 hn)]
      simp only []
      rw [if_pos e1]
      simp only [List.append_assoc, List.nil_append, List.cons_append]
      rfl
    · rw [her, (he.2 hn)]
      simp only []
      rw [if_pos e1, if_pos e1]
      simp only [List.append_assoc, List.nil_append, List.cons_append]
      rfl

theorem C21_mass_erase_budget_witness :
    (100 : Nat) < 101 ∧
    (artery_mass_erase (scenario_transport_busy 101) scenario_bank_main []).retval
      = ERROR_FAIL ∧
    (artery_erase (scenario_transport_busy 101) scenario_bank_main 0 0 []).map Result.retval
      = some ERROR_FAIL :=
  ⟨by decide,
    congrArg Result.retval ((C21_mass_erase_budget 101).2.2 (by decide)).1,
    congrArg (Option.map Result.retval) ((C21_mass_erase_budget 101).2.2 (by decide)).2⟩


theorem key_write_eq (bank : flash_bank) (v : Nat) :
    Access.write_u32 (artery_get_flash_reg bank EFC_FCKEY_REG) v = key_write bank v := by
  unfold key_write artery_get_flash_reg EFC_FCKEY_REG
  rw [Nat.add_comm]

theorem usd_unlock_write_eq (bank : flash_bank) (v : Nat) :
    Access.write_u32 (artery_get_flash_reg bank EFC_USD_UNLOCK_REG) v =
      usd_unlock_write bank v := by
  unfold usd_unlock_write artery_get_flash_reg EFC_USD_UNLOCK_REG
  rw [Nat.add_comm]

theorem ctrl_read_addr (bank : flash_bank) :
    ctrl_read bank = Access.read_u32 ((bank.driver_priv.flash_regs_base + 0x10) % 2 ^ 32) := by
  unfold ctrl_read artery_get_flash_reg EFC_CTRL_REG
  rw [Nat.add_comm]

/-- A register write in terms of the transport's answer. -/
theorem write_reg_eq (tp : Transport) (bank : flash_bank) (off v : Nat) (tr : List Access) :
    artery_write_flash_reg tp bank off v tr =
      ⟨(tp tr (Access.write_u32 (artery_get_flash_reg bank off) (v % 2 ^ 32))).retval,
        tr ++ [Access.write_u32 (artery_get_flash_reg bank off) (v % 2 ^ 32)]⟩ := rfl

theorem ctrl_read_trace (tp : Transport) (bank : flash_bank) (tr : List Access) :
    (artery_read_flash_reg tp bank EFC_CTRL_REG tr).trace = tr ++ [ctrl_read bank] := rfl

theorem read_reg_trace (tp : Transport) (bank : flash_bank) (off : Nat) (tr : List Access) :
    (artery_read_flash_reg tp bank off tr).trace =
      tr ++ [Access.read_u32 (artery_get_flash_reg bank off)] := rfl

/-- C24: when the first control-register read succeeds and shows the lock bit (bit 7)
set, main-bank unlock writes key1 (`0x45670123`) and then key2 (`0xCDEF89AB`) to the key
register at register base + `0x04`, reads the control register again, and returns success
if the lock bit is then clear and `ERROR_TARGET_FAILURE` if it is still set; a transport
failure of any of these three accesses is returned unchanged and is the last access. -/
theorem C24_unlock_flash_sequence (tp : Transport) (bank : flash_bank) (tr : List Access)
    (hmain : bank.base ≠ OTP_BANK_BASE_ADDR)
    (hread : (artery_read_flash_reg tp bank EFC_CTRL_REG tr).retval = ERROR_OK)
    (hlock : (artery_read_flash_reg tp bank EFC_CTRL_REG tr).value.testBit 7 = true) :
    artery_unlock tp bank tr =
      (if (tp (tr ++ [ctrl_read bank]) (key_write bank 0x45670123)).retval ≠ ERROR_OK then
        ⟨(tp (tr ++ [ctrl_read bank]) (key_write bank 0x45670123)).retval,
          tr ++ [ctrl_read bank, key_write bank 0x45670123]⟩
      else if (tp (tr ++ [ctrl_read bank, key_write bank 0x45670123])
          (key_write bank 0xCDEF89AB)).retval ≠ ERROR_OK then
        ⟨(tp (tr ++ [ctrl_read bank, key_write bank 0x45670123])
            (key_write bank 0xCDEF89AB)).retval,
          tr ++ [ctrl_read bank, key_write bank 0x45670123, key_write bank 0xCDEF89AB]⟩
      else if (artery_read_flash_reg tp bank EFC_CTRL_REG
          (tr ++ [ctrl_read bank, key_write bank 0x45670123, key_write bank 0xCDEF89AB])).retval
          ≠ ERROR_OK then
        ⟨(artery_read_flash_reg tp bank EFC_CTRL_REG
            (tr ++ [ctrl_read bank, key_write bank 0x45670123,
              key_write bank 0xCDEF89AB])).retval,
          tr ++ [ctrl_read bank, key_write bank 0x45670123, key_write bank 0xCDEF89AB,
            ctrl_read bank]⟩
      else if (artery_read_flash_reg tp bank EFC_CTRL_REG
          (tr ++ [ctrl_read bank, key_write bank 0x45670123,
            key_write bank 0xCDEF89AB])).value.testBit 7 = true then
        ⟨ERROR_TARGET_FAILURE,
          tr ++ [ctrl_read bank, key_write bank 0x45670123, key_write bank 0xCDEF89AB,
            ctrl_read bank]⟩
      else
        ⟨ERROR_OK,
          tr ++ [ctrl_read bank, key_write bank 0x45670123, key_write bank 0xCDEF89AB,
            ctrl_read bank]⟩) := by
  have hl : ¬ (artery_read_flash_reg tp bank EFC_CTRL_REG tr).value &&& EFC_LOCK_BIT = 0 := by
    intro h0
    rw [(and_two_pow_eq_zero_iff _ 7).mp h0] at hlock
    exact Bool.false_ne_true hlock
  have e1 : tr ++ [ctrl_read bank] ++ [key_write bank 0x45670123] =
      tr ++ [ctrl_read bank, key_write bank 0x45670123] := by
    rw [List.append_assoc]; rfl
  have e2 : tr ++ [ctrl_read bank, key_write bank 0x45670123] ++
      [key_write bank 0xCDEF89AB] =
      tr ++ [ctrl_read bank, key_write bank 0x45670123, key_write bank 0xCDEF89AB] := by
    rw [List.append_assoc]; rfl
  have e3 : tr ++ [ctrl_read bank, key_write bank 0x45670123, key_write bank 0xCDEF89AB] ++
      [ctrl_read bank] =
      tr ++ [ctrl_read bank, key_write bank 0x45670123, key_write bank 0xCDEF89AB,
        ctrl_read bank] := by
    rw [List.append_assoc]; rfl
  have k1 : EFC_KEY1 % 2 ^ 32 = 0x45670123 := by decide
  have k2 : EFC_KEY2 % 2 ^ 32 = 0xCDEF89AB := by decide
  have hz : ∀ v : Nat, v &&& EFC_LOCK_BIT = 0 ↔ v.testBit 7 = false :=
    fun v => and_two_pow_eq_zero_iff v 7
  have hbit : ∀ v : Nat, (v &&& EFC_LOCK_BIT ≠ 0) ↔ v.testBit 7 = true := by
    intro v
    rw [ne_eq, hz v]
    cases v.testBit 7 <;> simp
  unfold artery_unlock
  rw [is_otp_false bank hmain, if_neg Bool.false_ne_true]
  unfold artery_unlock_flash
  simp only []
  rw [if_neg (not_not.mpr hread), if_neg hl, write_reg_eq, ctrl_read_trace, k1, key_write_eq]
  simp only []
  rw [write_reg_eq, k2, key_write_eq]
  simp only []
  rw [ctrl_read_trace]
  by_cases c1 : (tp (tr ++ [ctrl_read bank]) (key_write bank 0x45670123)).retval ≠ ERROR_OK
  · rw [if_pos c1, if_pos c1, e1]
  · rw [if_neg c1, if_neg c1, e1]
    by_cases c2 : (tp (tr ++ [ctrl_read bank, key_write bank 0x45670123])
        (key_write bank 0xCDEF89AB)).retval ≠ ERROR_OK
    · rw [if_pos c2, if_pos c2, e2]
    · rw [if_neg c2, if_neg c2, e2]
      by_cases c3 : (artery_read_flash_reg tp bank EFC_CTRL_REG
          (tr ++ [ctrl_read bank, key_write bank 0x45670123,
            key_write bank 0xCDEF89AB])).retval ≠ ERROR_OK
      · rw [if_pos c3, if_pos c3]
        show (⟨_, _ ++ [ctrl_read bank]⟩ : Result) = _
        rw [e3]
      · rw [if_neg c3, if_neg c3]
        by_cases c4 : (artery_read_flash_reg tp bank EFC_CTRL_REG
            (tr ++ [ctrl_read bank, key_write bank 0x45670123,
              key_write bank 0xCDEF89AB])).value.testBit 7 = true
        · rw [if_pos ((hbit _).mpr c4), if_pos c4]
          show (⟨_, _ ++ [ctrl_read bank]⟩ : Result) = _
          rw [e3]
        · rw [if_neg (fun h => c4 ((hbit _).mp h)), if_neg c4]
          show (⟨_, _ ++ [ctrl_read bank]⟩ : Result) = _
          rw [e3]

set_option maxRecDepth 100000 in
theorem C24_unlock_flash_sequence_witness :
    scenario_bank_main.base ≠ OTP_BANK_BASE_ADDR ∧
    (artery_read_flash_reg (scenario_transport_ctrl 0x80) scenario_bank_main EFC_CTRL_REG
      []).retval = ERROR_OK ∧
    (artery_read_flash_reg (scenario_transport_ctrl 0x80) scenario_bank_main EFC_CTRL_REG
      []).value.testBit 7 = true ∧
    artery_unlock (scenario_transport_ctrl 0x80) scenario_bank_main [] =
      ⟨ERROR_TARGET_FAILURE,
        [Access.read_u32 0x40023C10, Access.write_u32 0x40023C04 0x45670123,
          Access.write_u32 0x40023C04 0xCDEF89AB, Access.read_u32 0x40023C10]⟩ :=
  ⟨by decide, by decide, by decide,
    (C24_unlock_flash_sequence (scenario_transport_ctrl 0x80) scenario_bank_main []
      (by decide) (by decide) (by decide)).trans (by decide)⟩


theorem replicate_snoc (k : Nat) (a : Access) :
    List.replicate k a ++ [a] = List.replicate (k + 1) a := by
  induction k with
  | zero => rfl
  | succ k ih =>
    show a :: (List.replicate k a ++ [a]) = a :: List.replicate (k + 1) a
    rw [ih]

theorem poll_read_zero (tp : Transport) (bank : flash_bank) (tr : List Access) :
    poll_read tp bank tr 0 = artery_read_flash_reg tp bank EFC_CTRL_REG tr := by
  unfold poll_read
  rw [List.replicate_zero, List.append_nil]

theorem poll_read_shift (tp : Transport) (bank : flash_bank) (tr : List Access) (k : Nat) :
    poll_read tp bank (tr ++ [ctrl_read bank]) k = poll_read tp bank tr (k + 1) := by
  unfold poll_read
  rw [List.replicate_succ, List.append_assoc]
  rfl

theorem usd_bit_iff (v : Nat) :
    v &&& EFC_USD_UNLOCK_BIT = EFC_USD_UNLOCK_BIT ↔ v.testBit 9 = true :=
  and_two_pow_eq_self_iff v 9

/-- A poll read that shows the user-unlock bit ends the poll in success. -/
theorem poll_bit_set (tp : Transport) (bank : flash_bank) (n : Nat) (tr : List Access)
    (h : (artery_read_flash_reg tp bank EFC_CTRL_REG tr).retval = ERROR_OK)
    (hb : (artery_read_flash_reg tp bank EFC_CTRL_REG tr).value.testBit 9 = true) :
    artery_unlock_user_poll tp bank n tr = ⟨ERROR_OK, tr ++ [ctrl_read bank]⟩ := by
  cases n with
  | zero =>
    unfold artery_unlock_user_poll
    simp only []
    rw [if_neg (not_not.mpr h), if_pos ((usd_bit_iff _).mpr hb)]
    rfl
  | succ n =>
    unfold artery_unlock_user_poll
    simp only []
    rw [if_neg (not_not.mpr h), if_pos ((usd_bit_iff _).mpr hb)]
    rfl

/-- A poll read without the bit, with the counter at zero, is the failure. -/
theorem poll_exhausted (tp : Transport) (bank : flash_bank) (tr : List Access)
    (h : (artery_read_flash_reg tp bank EFC_CTRL_REG tr).retval = ERROR_OK)
    (hb : (artery_read_flash_reg tp bank EFC_CTRL_REG tr).value.testBit 9 = false) :
    artery_unlock_user_poll tp bank 0 tr = ⟨ERROR_TARGET_FAILURE, tr ++ [ctrl_read bank]⟩ := by
  have hn : ¬ (artery_read_flash_reg tp bank EFC_CTRL_REG tr).value &&& EFC_USD_UNLOCK_BIT
      = EFC_USD_UNLOCK_BIT := by
    intro hx
    rw [(usd_bit_iff _).mp hx] at hb
    exact Bool.false_ne_true hb.symm
  unfold artery_unlock_user_poll
  simp only []
  rw [if_neg (not_not.mpr h), if_neg hn]
  rfl

/-- A poll read without the bit, with the counter above zero, polls again. -/
theorem poll_again (tp : Transport) (bank : flash_bank) (n : Nat) (tr : List Access)
    (h : (artery_read_flash_reg tp bank EFC_CTRL_REG tr).retval = ERROR_OK)
    (hb : (artery_read_flash_reg tp bank EFC_CTRL_REG tr).value.testBit 9 = false) :
    artery_unlock_user_poll tp bank (n + 1) tr =
      artery_unlock_user_poll tp bank n (tr ++ [ctrl_read bank]) := by
  have hn : ¬ (artery_read_flash_reg tp bank EFC_CTRL_REG tr).value &&& EFC_USD_UNLOCK_BIT
      = EFC_USD_UNLOCK_BIT := by
    intro hx
    rw [(usd_bit_iff _).mp hx] at hb
    exact Bool.false_ne_true hb.symm
  conv_lhs => unfold artery_unlock_user_poll
  simp only []
  rw [if_neg (not_not.mpr h), if_neg hn]
  rfl

/-- After `k` poll reads without the bit the poll goes on with the counter `k` lower. -/
theorem poll_rounds (tp : Transport) (bank : flash_bank) (hok : TransportSucceeds tp)
    (k : Nat) :
    ∀ (n : Nat) (tr : List Access),
      (∀ j, j < k → (poll_read tp bank tr j).value.testBit 9 = false) →
      artery_unlock_user_poll tp bank (n + k) tr =
        artery_unlock_user_poll tp bank n (tr ++ List.replicate k (ctrl_read bank)) := by
  induction k with
  | zero =>
    intro n tr _
    rw [List.replicate_zero, List.append_nil, Nat.add_zero]
  | succ k ih =>
    intro n tr hb
    have h0 := hb 0 (Nat.succ_pos k)
    rw [poll_read_zero] at h0
    rw [show n + (k + 1) = (n + k) + 1 from by omega,
      poll_again tp bank (n + k) tr (hok _ _) h0, ih n _ ?_, List.replicate_succ,
      List.append_assoc]
    · rfl
    · intro j hj
      rw [poll_read_shift]
      exact hb (j + 1) (by omega)

/-- The option-area unlock up to its poll, when the first read does not show the
user-unlock bit. -/
theorem unlock_user_steps (tp : Transport) (bank : flash_bank) (tr : List Access)
    (hotp : bank.base = OTP_BANK_BASE_ADDR) (hok : TransportSucceeds tp)
    (hfirst : (artery_read_flash_reg tp bank EFC_CTRL_REG tr).value.testBit 9 = false) :
    artery_unlock tp bank tr =
      artery_unlock_user_poll tp bank 1000 (tr ++ unlock_user_writes bank) := by
  have hn : ¬ (artery_read_flash_reg tp bank EFC_CTRL_REG tr).value &&& EFC_USD_UNLOCK_BIT
      = EFC_USD_UNLOCK_BIT := by
    intro hx
    rw [(usd_bit_iff _).mp hx] at hfirst
    exact Bool.false_ne_true hfirst.symm
  have k1 : EFC_KEY1 % 2 ^ 32 = 0x45670123 := by decide
  have k2 : EFC_KEY2 % 2 ^ 32 = 0xCDEF89AB := by decide
  have h1 := write_reg_ok tp bank EFC_FCKEY_REG EFC_KEY1 (tr ++ [ctrl_read bank]) (hok _ _)
  have h2 := write_reg_ok tp bank EFC_FCKEY_REG EFC_KEY2
    (tr ++ [ctrl_read bank] ++ [key_write bank 0x45670123]) (hok _ _)
  have h3 := write_reg_ok tp bank EFC_USD_UNLOCK_REG EFC_KEY1
    (tr ++ [ctrl_read bank] ++ [key_write bank 0x45670123] ++ [key_write bank 0xCDEF89AB])
    (hok _ _)
  have h4 := write_reg_ok tp bank EFC_USD_UNLOCK_REG EFC_KEY2
    (tr ++ [ctrl_read bank] ++ [key_write bank 0x45670123] ++ [key_write bank 0xCDEF89AB] ++
      [usd_unlock_write bank 0x45670123]) (hok _ _)
  rw [k1, key_write_eq] at h1
  rw [k2, key_write_eq] at h2
  rw [k1, usd_unlock_write_eq] at h3
  rw [k2, usd_unlock_write_eq] at h4
  have etr : tr ++ [ctrl_read bank] ++ [key_write bank 0x45670123] ++
      [key_write bank 0xCDEF89AB] ++ [usd_unlock_write bank 0x45670123] ++
      [usd_unlock_write bank 0xCDEF89AB] = tr ++ unlock_user_writes bank := by
    unfold unlock_user_writes
    simp only [List.append_assoc, List.cons_append, List.nil_append]
  have hr : (artery_read_flash_reg tp bank EFC_CTRL_REG tr).retval = ERROR_OK := hok _ _
  unfold artery_unlock
  rw [if_pos (is_otp_true bank hotp)]
  unfold artery_unlock_user
  simp only []
  rw [if_neg (not_not.mpr hr), if_neg hn, ctrl_read_trace, h1]
  simp only []
  rw [if_neg (by decide), h2]
  simp only []
  rw [if_neg (by decide), h3]
  simp only []
  rw [if_neg (by decide), h4]
  simp only []
  rw [if_neg (by decide), etr]

/-- The option-area unlock when the user-unlock bit is clear on the first read: it fails
after 1001 poll reads without the bit, and succeeds at the first poll read with it. -/
theorem unlock_user_poll_cases (tp : Transport) (bank : flash_bank) (tr : List Access)
    (hotp : bank.base = OTP_BANK_BASE_ADDR) (hok : TransportSucceeds tp)
    (hfirst : (artery_read_flash_reg tp bank EFC_CTRL_REG tr).value.testBit 9 = false) :
    ((∀ k, k ≤ 1000 →
        (poll_read tp bank (tr ++ unlock_user_writes bank) k).value.testBit 9 = false) →
      artery_unlock tp bank tr =
        ⟨ERROR_TARGET_FAILURE,
          tr ++ unlock_user_writes bank ++ List.replicate 1001 (ctrl_read bank)⟩) ∧
    (∀ k, k ≤ 1000 →
      (∀ j, j < k →
        (poll_read tp bank (tr ++ unlock_user_writes bank) j).value.testBit 9 = false) →
      (poll_read tp bank (tr ++ unlock_user_writes bank) k).value.testBit 9 = true →
      artery_unlock tp bank tr =
        ⟨ERROR_OK,
          tr ++ unlock_user_writes bank ++ List.replicate (k + 1) (ctrl_read bank)⟩) := by
  rw [unlock_user_steps tp bank tr hotp hok hfirst]
  constructor
  · intro hclear
    have h := poll_rounds tp bank hok 1000 0 (tr ++ unlock_user_writes bank)
      (fun j hj => hclear j (Nat.le_of_lt hj))
    rw [Nat.zero_add] at h
    rw [h, poll_exhausted tp bank _ (hok _ _) (hclear 1000 (Nat.le_refl _)),
      List.append_assoc _ (List.replicate 1000 (ctrl_read bank)),
      show List.replicate 1000 (ctrl_read bank) ++ [ctrl_read bank] =
        List.replicate 1001 (ctrl_read bank) from replicate_snoc _ _]
  · intro k hk hclear hset
    rw [show 1000 = (1000 - k) + k from by omega,
      poll_rounds tp bank hok k _ (tr ++ unlock_user_writes bank) hclear,
      poll_bit_set tp bank _ _ (hok _ _) hset,
      List.append_assoc _ (List.replicate k (ctrl_read bank)),
      show List.replicate k (ctrl_read bank) ++ [ctrl_read bank] =
        List.replicate (k + 1) (ctrl_read bank) from replicate_snoc _ _]


theorem scenario_transport_ctrl_after_succeeds (m : Nat) :
    TransportSucceeds (scenario_transport_ctrl_after m) := by
  intro h a
  unfold scenario_transport_ctrl_after
  cases a <;> simp only []
  split_ifs <;> rfl

theorem scenario_ctrl_zero_poll (tr : List Access) (k : Nat) :
    (poll_read (scenario_transport_ctrl 0) scenario_bank_otp tr k).value.testBit 9 = false := by
  simp [poll_read, artery_read_flash_reg, target_read_u32, scenario_transport_ctrl]

/-- C25 (counterexample): when the control register never shows the user-unlock bit, the
option-area unlock reads it 1001 times after the four key writes, not at most 1000
times, before it fails with `ERROR_TARGET_FAILURE`. -/
theorem C25_unlock_user_poll_bound_counterexample :
    artery_unlock (scenario_transport_ctrl 0) scenario_bank_otp [] =
      ⟨ERROR_TARGET_FAILURE,
        [Access.read_u32 0x40023C10,
          Access.write_u32 0x40023C04 0x45670123, Access.write_u32 0x40023C04 0xCDEF89AB,
          Access.write_u32 0x40023C08 0x45670123, Access.write_u32 0x40023C08 0xCDEF89AB] ++
        List.replicate 1001 (Access.read_u32 0x40023C10)⟩ := by
  rw [(unlock_user_poll_cases (scenario_transport_ctrl 0) scenario_bank_otp [] rfl
    (scenario_transport_ctrl_succeeds 0) rfl).1 (fun k _ => scenario_ctrl_zero_poll _ k)]
  rfl

/-- C25 (amended): when the first control-register read does not show the user-unlock
bit (bit 9), the option-area unlock writes key1 then key2 to the key register, then key1
then key2 to the user-unlock register (register base + `0x08`), then polls the control
register up to 1001 times (a first read and one more for each of the 1000 units of the
counter): if none of the 1001 reads shows the bit it fails with `ERROR_TARGET_FAILURE`,
and if the bit appears on one of them it returns success at that read. -/
theorem C25_unlock_user_poll_bound (tp : Transport) (bank : flash_bank) (tr : List Access)
    (hotp : bank.base = OTP_BANK_BASE_ADDR) (hok : TransportSucceeds tp)
    (hfirst : (artery_read_flash_reg tp bank EFC_CTRL_REG tr).value.testBit 9 = false) :
    ((∀ k, k ≤ 1000 →
        (poll_read tp bank (tr ++ unlock_user_writes bank) k).value.testBit 9 = false) →
      artery_unlock tp bank tr =
        ⟨ERROR_TARGET_FAILURE,
          tr ++ unlock_user_writes bank ++ List.replicate 1001 (ctrl_read bank)⟩) ∧
    (∀ k, k ≤ 1000 →
      (∀ j, j < k →
        (poll_read tp bank (tr ++ unlock_user_writes bank) j).value.testBit 9 = false) →
      (poll_read tp bank (tr ++ unlock_user_writes bank) k).value.testBit 9 = true →
      artery_unlock tp bank tr =
        ⟨ERROR_OK,
          tr ++ unlock_user_writes bank ++ List.replicate (k + 1) (ctrl_read bank)⟩) :=
  unlock_user_poll_cases tp bank tr hotp hok hfirst

set_option maxRecDepth 100000 in
theorem C25_unlock_user_poll_bound_witness :
    scenario_bank_otp.base = OTP_BANK_BASE_ADDR ∧
    (artery_read_flash_reg (scenario_transport_ctrl_after 7) scenario_bank_otp EFC_CTRL_REG
      []).value.testBit 9 = false ∧
    (∀ j, j < 2 → (poll_read (scenario_transport_ctrl_after 7) scenario_bank_otp
      ([] ++ unlock_user_writes scenario_bank_otp) j).value.testBit 9 = false) ∧
    (poll_read (scenario_transport_ctrl_after 7) scenario_bank_otp
      ([] ++ unlock_user_writes scenario_bank_otp) 2).value.testBit 9 = true ∧
    artery_unlock (scenario_transport_ctrl_after 7) scenario_bank_otp [] =
      ⟨ERROR_OK,
        [Access.read_u32 0x40023C10,
          Access.write_u32 0x40023C04 0x45670123, Access.write_u32 0x40023C04 0xCDEF89AB,
          Access.write_u32 0x40023C08 0x45670123, Access.write_u32 0x40023C08 0xCDEF89AB,
          Access.read_u32 0x40023C10, Access.read_u32 0x40023C10,
          Access.read_u32 0x40023C10]⟩ :=
  ⟨rfl, by decide, by decide, by decide,
    ((C25_unlock_user_poll_bound (scenario_transport_ctrl_after 7) scenario_bank_otp [] rfl
      (scenario_transport_ctrl_after_succeeds 7) (by decide)).2 2 (by decide) (by decide)
      (by decide)).trans (by decide)⟩


theorem noLock_refl (bank : flash_bank) (tr : List Access) : NoLockWrite bank tr tr :=
  ⟨[], (List.append_nil tr).symm, List.not_mem_nil _⟩

theorem noLock_one (bank : flash_bank) (tr : List Access) (a : Access)
    (ha : a ≠ lock_write bank) : NoLockWrite bank tr (tr ++ [a]) := by
  refine ⟨[a], rfl, ?_⟩
  intro hm
  rw [List.mem_singleton] at hm
  exact ha hm.symm

theorem noLock_trans (bank : flash_bank) (tr0 tr1 tr2 : List Access)
    (h1 : NoLockWrite bank tr0 tr1) (h2 : NoLockWrite bank tr1 tr2) :
    NoLockWrite bank tr0 tr2 := by
  obtain ⟨e1, rfl, hn1⟩ := h1
  obtain ⟨e2, rfl, hn2⟩ := h2
  refine ⟨e1 ++ e2, List.append_assoc _ _ _, ?_⟩
  intro hm
  rcases List.mem_append.mp hm with h | h
  · exact hn1 h
  · exact hn2 h

theorem read_reg_noLock (tp : Transport) (bank : flash_bank) (off : Nat) (tr : List Access) :
    NoLockWrite bank tr (artery_read_flash_reg tp bank off tr).trace :=
  noLock_one bank tr _ (fun h => Access.noConfusion h)

theorem sleep_noLock (bank : flash_bank) (tr : List Access) :
    NoLockWrite bank tr (alive_sleep 1 tr) :=
  noLock_one bank tr _ (fun h => Access.noConfusion h)

/-- A register write of a value other than the lock value is not the lock write. -/
theorem write_reg_noLock (tp : Transport) (bank : flash_bank) (off v : Nat) (tr : List Access)
    (hv : v % 2 ^ 32 ≠ (if bank.base = OTP_BANK_BASE_ADDR then 0 else 0x80)) :
    NoLockWrite bank tr (artery_write_flash_reg tp bank off v tr).trace := by
  refine noLock_one bank tr _ ?_
  intro h
  unfold lock_write ctrl_write at h
  injection h with _ h2
  exact hv h2

theorem unlock_flash_noLock (tp : Transport) (bank : flash_bank) (tr : List Access)
    (hmain : bank.base ≠ OTP_BANK_BASE_ADDR) :
    NoLockWrite bank tr (artery_unlock_flash tp bank tr).trace := by
  have hrd := read_reg_noLock tp bank EFC_CTRL_REG tr
  have hw1 := write_reg_noLock tp bank EFC_FCKEY_REG EFC_KEY1
    (artery_read_flash_reg tp bank EFC_CTRL_REG tr).trace
    (by rw [if_neg hmain]; decide)
  have hw2 := write_reg_noLock tp bank EFC_FCKEY_REG EFC_KEY2
    (artery_write_flash_reg tp bank EFC_FCKEY_REG EFC_KEY1
      (artery_read_flash_reg tp bank EFC_CTRL_REG tr).trace).trace
    (by rw [if_neg hmain]; decide)
  have hr2 := read_reg_noLock tp bank EFC_CTRL_REG
    (artery_write_flash_reg tp bank EFC_FCKEY_REG EFC_KEY2
      (artery_write_flash_reg tp bank EFC_FCKEY_REG EFC_KEY1
        (artery_read_flash_reg tp bank EFC_CTRL_REG tr).trace).trace).trace
  have h1 := noLock_trans bank _ _ _ hrd hw1
  have h2 := noLock_trans bank _ _ _ h1 hw2
  have h3 := noLock_trans bank _ _ _ h2 hr2
  unfold artery_unlock_flash
  simp only []
  split_ifs
  · exact hrd
  · exact hrd
  · exact h1
  · exact h2
  · exact h3
  · exact h3
  · exact h3

theorem wait_loop_noLock (tp : Transport) (bank : flash_bank) (n : Nat) :
    ∀ tr : List Access,
      NoLockWrite bank tr (artery_wait_status_busy_loop tp bank n tr).1.trace := by
  induction n with
  | zero =>
    intro tr
    have hrd := read_reg_noLock tp bank EFC_STS_REG tr
    unfold artery_wait_status_busy_loop
    simp only []
    split_ifs
    · exact hrd
    · exact hrd
    · exact hrd
  | succ n ih =>
    intro tr
    have hrd := read_reg_noLock tp bank EFC_STS_REG tr
    unfold artery_wait_status_busy_loop
    simp only []
    split_ifs
    · exact hrd
    · exact hrd
    · exact noLock_trans bank _ _ _ (noLock_trans bank _ _ _ hrd (sleep_noLock bank _)) (ih _)

theorem wait_busy_noLock (tp : Transport) (bank : flash_bank) (timeout : Int)
    (tr : List Access) :
    NoLockWrite bank tr (artery_wait_status_busy tp bank timeout tr).trace :=
  wait_loop_noLock tp bank _ tr

theorem wait_check_noLock (tp : Transport) (bank : flash_bank) (timeout : Int)
    (tr : List Access) :
    NoLockWrite bank tr (artery_wait_status_busy_and_check tp bank timeout tr).trace := by
  rw [wait_and_check_trace]
  exact wait_loop_noLock tp bank _ tr


/-- The status read of an idle status register: busy bit clear. -/
theorem status_idle_not_busy (tp : Transport) (bank : flash_bank) (tr : List Access)
    (hidle : StatusIdle tp bank) :
    (artery_read_flash_reg tp bank EFC_STS_REG tr).value &&& EFC_BSY_BIT = 0 :=
  (and_mask_zero _ (hidle tr)).1

/-- Mass erase of a halted main bank as the chain of its steps: the first step that does
not succeed is the result, and the lock write follows only when all of them succeeded. -/
theorem mass_erase_chain (tp : Transport) (bank : flash_bank) (tr : List Access)
    (hmain : bank.base ≠ OTP_BANK_BASE_ADDR)
    (hhalt : bank.target.state = target_state.TARGET_HALTED) :
    artery_mass_erase tp bank tr =
      (if (artery_unlock tp bank tr).retval ≠ ERROR_OK then artery_unlock tp bank tr
      else if (artery_wait_status_busy tp bank FLASH_ERASE_TIMEOUT
          (artery_unlock tp bank tr).trace).retval ≠ ERROR_OK then
        artery_wait_status_busy tp bank FLASH_ERASE_TIMEOUT (artery_unlock tp bank tr).trace
      else if (artery_write_flash_reg tp bank EFC_CTRL_REG 0x04
          ((artery_wait_status_busy tp bank FLASH_ERASE_TIMEOUT
            (artery_unlock tp bank tr).trace).trace ++ [status_clear bank])).retval
          ≠ ERROR_OK then
        artery_write_flash_reg tp bank EFC_CTRL_REG 0x04
          ((artery_wait_status_busy tp bank FLASH_ERASE_TIMEOUT
            (artery_unlock tp bank tr).trace).trace ++ [status_clear bank])
      else if (artery_write_flash_reg tp bank EFC_CTRL_REG 0x44
          (artery_write_flash_reg tp bank EFC_CTRL_REG 0x04
            ((artery_wait_status_busy tp bank FLASH_ERASE_TIMEOUT
              (artery_unlock tp bank tr).trace).trace ++ [status_clear bank])).trace).retval
          ≠ ERROR_OK then
        artery_write_flash_reg tp bank EFC_CTRL_REG 0x44
          (artery_write_flash_reg tp bank EFC_CTRL_REG 0x04
            ((artery_wait_status_busy tp bank FLASH_ERASE_TIMEOUT
              (artery_unlock tp bank tr).trace).trace ++ [status_clear bank])).trace
      else if (artery_wait_status_busy_and_check tp bank FLASH_ERASE_TIMEOUT
          (artery_write_flash_reg tp bank EFC_CTRL_REG 0x44
            (artery_write_flash_reg tp bank EFC_CTRL_REG 0x04
              ((artery_wait_status_busy tp bank FLASH_ERASE_TIMEOUT
                (artery_unlock tp bank tr).trace).trace ++ [status_clear bank])).trace).trace).retval
          ≠ ERROR_OK then
        artery_wait_status_busy_and_check tp bank FLASH_ERASE_TIMEOUT
          (artery_write_flash_reg tp bank EFC_CTRL_REG 0x44
            (artery_write_flash_reg tp bank EFC_CTRL_REG 0x04
              ((artery_wait_status_busy tp bank FLASH_ERASE_TIMEOUT
                (artery_unlock tp bank tr).trace).trace ++ [status_clear bank])).trace).trace
      else
        artery_lock tp bank
          (artery_wait_status_busy_and_check tp bank FLASH_ERASE_TIMEOUT
            (artery_write_flash_reg tp bank EFC_CTRL_REG 0x44
              (artery_write_flash_reg tp bank EFC_CTRL_REG 0x04
                ((artery_wait_status_busy tp bank FLASH_ERASE_TIMEOUT
                  (artery_unlock tp bank tr).trace).trace
                    ++ [status_clear bank])).trace).trace).trace) := by
  unfold artery_mass_erase
  rw [if_neg (not_not.mpr hhalt), is_otp_false bank hmain, if_neg Bool.false_ne_true]
  rfl

/-- C26: on a halted main bank.  (1) If the bank is already unlocked (the first
control-register read shows the lock bit clear), every access succeeds and the status
register is idle and free of error flags, `artery_mass_erase` returns success and issues
exactly: the control-register read of the unlock, the status read of the first wait, the
write of `0x34` to the status register, `0x04` and then `0x44` to the control register,
the status read of the checked wait, and `0x80` to the control register.  (2) For every
transport, with `u`, `w`, `m`, `s`, `k` the unlock, the first wait, the two control
writes and the checked wait: the first of them that does not succeed is the result of
`artery_mass_erase`, and none of them issues the lock write; the lock write follows only
when all five succeeded. -/
theorem C26_mass_erase_sequence (tp : Transport) (bank : flash_bank) (tr : List Access)
    (hmain : bank.base ≠ OTP_BANK_BASE_ADDR)
    (hhalt : bank.target.state = target_state.TARGET_HALTED) :
    (TransportSucceeds tp → StatusIdle tp bank →
      (artery_read_flash_reg tp bank EFC_CTRL_REG tr).value.testBit 7 = false →
      artery_mass_erase tp bank tr =
        ⟨ERROR_OK,
          tr ++ [ctrl_read bank, status_read bank,
            Access.write_u32 (artery_get_flash_reg bank EFC_STS_REG) 0x34,
            ctrl_write bank 0x04, ctrl_write bank 0x44, status_read bank,
            ctrl_write bank 0x80]⟩) ∧
    (∀ u w m s k : Result,
      u = artery_unlock tp bank tr →
      w = artery_wait_status_busy tp bank FLASH_ERASE_TIMEOUT u.trace →
      m = artery_write_flash_reg tp bank EFC_CTRL_REG 0x04 (w.trace ++ [status_clear bank]) →
      s = artery_write_flash_reg tp bank EFC_CTRL_REG 0x44 m.trace →
      k = artery_wait_status_busy_and_check tp bank FLASH_ERASE_TIMEOUT s.trace →
      artery_mass_erase tp bank tr =
        (if u.retval ≠ ERROR_OK then u
        else if w.retval ≠ ERROR_OK then w
        else if m.retval ≠ ERROR_OK then m
        else if s.retval ≠ ERROR_OK then s
        else if k.retval ≠ ERROR_OK then k
        else artery_lock tp bank k.trace) ∧
      NoLockWrite bank tr u.trace ∧ NoLockWrite bank tr w.trace ∧
      NoLockWrite bank tr m.trace ∧ NoLockWrite bank tr s.trace ∧
      NoLockWrite bank tr k.trace) := by
  constructor
  · intro hok hidle hbit
    have hb := (and_two_pow_eq_zero_iff _ 7).mpr hbit
    rw [mass_erase_steps tp bank tr hmain hhalt hok hb (status_idle_not_busy tp bank _ hidle),
      checked_wait_idle tp bank _ _ hok hidle]
    simp only []
    rw [if_neg (by decide), lock_idle tp bank _ hmain hok]
    simp only [List.append_assoc, List.cons_append, List.nil_append]
    rfl
  · intro u w m s k hu hw hm hs hk
    subst hu hw hm hs hk
    refine ⟨mass_erase_chain tp bank tr hmain hhalt, ?_⟩
    have h1 : NoLockWrite bank tr (artery_unlock tp bank tr).trace := by
      unfold artery_unlock
      rw [is_otp_false bank hmain, if_neg Bool.false_ne_true]
      exact unlock_flash_noLock tp bank tr hmain
    have h2 := noLock_trans bank _ _ _ h1
      (wait_busy_noLock tp bank FLASH_ERASE_TIMEOUT (artery_unlock tp bank tr).trace)
    have hc : NoLockWrite bank
        (artery_wait_status_busy tp bank FLASH_ERASE_TIMEOUT (artery_unlock tp bank tr).trace).trace
        ((artery_wait_status_busy tp bank FLASH_ERASE_TIMEOUT
          (artery_unlock tp bank tr).trace).trace ++ [status_clear bank]) := by
      refine noLock_one bank _ _ ?_
      intro h
      unfold status_clear lock_write ctrl_write at h
      rw [if_neg hmain] at h
      injection h with _ h2
      exact absurd h2 (by decide)
    have h3 := noLock_trans bank _ _ _ (noLock_trans bank _ _ _ h2 hc)
      (write_reg_noLock tp bank EFC_CTRL_REG 0x04
        ((artery_wait_status_busy tp bank FLASH_ERASE_TIMEOUT
          (artery_unlock tp bank tr).trace).trace ++ [status_clear bank])
        (by rw [if_neg hmain]; decide))
    have h4 := noLock_trans bank _ _ _ h3
      (write_reg_noLock tp bank EFC_CTRL_REG 0x44
        (artery_write_flash_reg tp bank EFC_CTRL_REG 0x04
          ((artery_wait_status_busy tp bank FLASH_ERASE_TIMEOUT
            (artery_unlock tp bank tr).trace).trace ++ [status_clear bank])).trace
        (by rw [if_neg hmain]; decide))
    have h5 := noLock_trans bank _ _ _ h4
      (wait_check_noLock tp bank FLASH_ERASE_TIMEOUT
        (artery_write_flash_reg tp bank EFC_CTRL_REG 0x44
          (artery_write_flash_reg tp bank EFC_CTRL_REG 0x04
            ((artery_wait_status_busy tp bank FLASH_ERASE_TIMEOUT
              (artery_unlock tp bank tr).trace).trace ++ [status_clear bank])).trace).trace)
    exact ⟨h1, h2, h3, h4, h5⟩

set_option maxRecDepth 100000 in
theorem C26_mass_erase_sequence_witness :
    scenario_bank_main.base ≠ OTP_BANK_BASE_ADDR ∧
    scenario_bank_main.target.state = target_state.TARGET_HALTED ∧
    (artery_read_flash_reg (scenario_transport_ctrl 0) scenario_bank_main EFC_CTRL_REG
      []).value.testBit 7 = false ∧
    artery_mass_erase (scenario_transport_ctrl 0) scenario_bank_main [] =
      ⟨ERROR_OK,
        [Access.read_u32 0x40023C10, Access.read_u32 0x40023C0C,
          Access.write_u32 0x40023C0C 0x34, Access.write_u32 0x40023C10 0x04,
          Access.write_u32 0x40023C10 0x44, Access.read_u32 0x40023C0C,
          Access.write_u32 0x40023C10 0x80]⟩ :=
  ⟨by decide, rfl, by decide,
    ((C26_mass_erase_sequence (scenario_transport_ctrl 0) scenario_bank_main []
      (by decide) rfl).1 (scenario_transport_ctrl_succeeds 0) (scenario_transport_ctrl_idle 0)
      (by decide)).trans (by decide)⟩


theorem addr_reg_ne_sts (bank : flash_bank) :
    artery_get_flash_reg bank EFC_ADDR_REG ≠ artery_get_flash_reg bank EFC_STS_REG := by
  unfold artery_get_flash_reg EFC_ADDR_REG EFC_STS_REG
  simp only [Nat.reducePow]
  omega

theorem addr_reg_ne_ctrl (bank : flash_bank) :
    artery_get_flash_reg bank EFC_ADDR_REG ≠ artery_get_flash_reg bank EFC_CTRL_REG := by
  unfold artery_get_flash_reg EFC_ADDR_REG EFC_CTRL_REG
  simp only [Nat.reducePow]
  omega

/-- The erase accesses of the option area hold no write to the address register. -/
theorem erase_accesses_otp_no_addr (bank : flash_bank) (hotp : bank.base = OTP_BANK_BASE_ADDR)
    (first n v : Nat) :
    Access.write_u32 (artery_get_flash_reg bank EFC_ADDR_REG) v ∉
      erase_accesses bank first n := by
  intro hm
  unfold erase_accesses at hm
  obtain ⟨l, hl, ha⟩ := List.mem_flatten.mp hm
  obtain ⟨j, _, rfl⟩ := List.mem_map.mp hl
  unfold erase_sector_accesses erase_start_accesses at ha
  rw [if_pos hotp] at ha
  simp only [List.cons_append, List.nil_append, List.mem_cons, List.mem_singleton,
    List.not_mem_nil, or_false] at ha
  rcases ha with h | h | h | h
  · unfold status_clear at h
    injection h with h1 _
    exact addr_reg_ne_sts bank h1
  · unfold ctrl_write at h
    injection h with h1 _
    exact addr_reg_ne_ctrl bank h1
  · unfold ctrl_write at h
    injection h with h1 _
    exact addr_reg_ne_ctrl bank h1
  · unfold status_read at h
    exact Access.noConfusion h

/-- C27: for every range `first <= last < num_sectors` on a halted, already unlocked bank
(lock bit clear for a main bank, user-unlock bit set for the option area) with every
access succeeding and the status register idle and free of error flags, `artery_erase`
issues, after the unlock's control-register read and the first wait's status read, for
each sector `i = first, ..., last` in increasing order: `0x34` to the status register,
the mode to the control register, (main banks only) `base + sectors[i].offset`, as a
32-bit value, to the address register, the mode plus `0x40` to the control register, and
the status read of the checked wait; the mode is `0x02` for a main bank and `0x220` for
the option area, for which no write to the address register occurs.  The last access is
the lock write (`0x80` for a main bank, `0` for the option area, to the control
register), and `artery_erase` returns the transport's answer to it. -/
theorem C27_erase_sequence (tp : Transport) (bank : flash_bank) (first last : Nat)
    (tr : List Access)
    (hrange : first ≤ last ∧ last < bank.num_sectors)
    (hhalt : bank.target.state = target_state.TARGET_HALTED)
    (hok : TransportSucceeds tp) (hidle : StatusIdle tp bank)
    (hbit :
      (bank.base ≠ OTP_BANK_BASE_ADDR ∧
        (artery_read_flash_reg tp bank EFC_CTRL_REG tr).value.testBit 7 = false) ∨
      (bank.base = OTP_BANK_BASE_ADDR ∧
        (artery_read_flash_reg tp bank EFC_CTRL_REG tr).value.testBit 9 = true)) :
    artery_erase tp bank first last tr =
      some ⟨(tp (tr ++ [ctrl_read bank, status_read bank] ++
            erase_accesses bank first (last + 1 - first)) (lock_write bank)).retval,
        tr ++ [ctrl_read bank, status_read bank] ++
          erase_accesses bank first (last + 1 - first) ++ [lock_write bank]⟩ ∧
    (bank.base = OTP_BANK_BASE_ADDR → ∀ v,
      Access.write_u32 (artery_get_flash_reg bank EFC_ADDR_REG) v ∉
        erase_accesses bank first (last + 1 - first)) ∧
    (bank.base ≠ OTP_BANK_BASE_ADDR → ∀ i,
      bank.base + (bank.sectors.getD i default).offset < 2 ^ 32 →
      erase_sector_accesses bank i =
        [Access.write_u32 (artery_get_flash_reg bank EFC_STS_REG) 0x34,
          ctrl_write bank 0x02,
          Access.write_u32 (artery_get_flash_reg bank EFC_ADDR_REG)
            (bank.base + (bank.sectors.getD i default).offset),
          ctrl_write bank 0x42, status_read bank]) := by
  have hr : (artery_read_flash_reg tp bank EFC_CTRL_REG tr).retval = ERROR_OK := hok _ _
  have hunlock : artery_unlock tp bank tr = ⟨ERROR_OK, tr ++ [ctrl_read bank]⟩ := by
    rcases hbit with ⟨hm, hb⟩ | ⟨ho, hb⟩
    · exact unlock_main_idle tp bank tr hm hr ((and_two_pow_eq_zero_iff _ 7).mpr hb)
    · exact unlock_otp_idle tp bank tr ho hr ((and_two_pow_eq_self_iff _ 9).mpr hb)
  refine ⟨?_, fun ho v => erase_accesses_otp_no_addr bank ho first _ v, ?_⟩
  · rw [erase_steps tp bank first last tr hrange hhalt hunlock (hok _ _)
      (status_idle_not_busy tp bank _ hidle), erase_loop_idle tp bank hok hidle]
    simp only []
    rw [if_neg (by decide), lock_eq]
  · intro hm i hfit
    unfold erase_sector_accesses erase_start_accesses
    rw [if_neg hm, Nat.mod_eq_of_lt hfit]
    rfl

set_option maxRecDepth 100000 in
theorem C27_erase_sequence_witness :
    ((1 : Nat) ≤ 2 ∧ 2 < scenario_bank_main.num_sectors) ∧
    scenario_bank_main.target.state = target_state.TARGET_HALTED ∧
    (scenario_bank_main.base ≠ OTP_BANK_BASE_ADDR ∧
      (artery_read_flash_reg (scenario_transport_ctrl 0) scenario_bank_main EFC_CTRL_REG
        []).value.testBit 7 = false) ∧
    artery_erase (scenario_transport_ctrl 0) scenario_bank_main 1 2 [] =
      some ⟨ERROR_OK,
        [Access.read_u32 0x40023C10, Access.read_u32 0x40023C0C,
          Access.write_u32 0x40023C0C 0x34, Access.write_u32 0x40023C10 0x02,
          Access.write_u32 0x40023C14 0x08000400, Access.write_u32 0x40023C10 0x42,
          Access.read_u32 0x40023C0C,
          Access.write_u32 0x40023C0C 0x34, Access.write_u32 0x40023C10 0x02,
          Access.write_u32 0x40023C14 0x08000800, Access.write_u32 0x40023C10 0x42,
          Access.read_u32 0x40023C0C,
          Access.write_u32 0x40023C10 0x80]⟩ ∧
    artery_erase (scenario_transport_ctrl 0x200) scenario_bank_otp 0 0 [] =
      some ⟨ERROR_OK,
        [Access.read_u32 0x40023C10, Access.read_u32 0x40023C0C,
          Access.write_u32 0x40023C0C 0x34, Access.write_u32 0x40023C10 0x220,
          Access.write_u32 0x40023C10 0x260, Access.read_u32 0x40023C0C,
          Access.write_u32 0x40023C10 0]⟩ :=
  ⟨by decide, rfl, ⟨by decide, by decide⟩,
    ((C27_erase_sequence (scenario_transport_ctrl 0) scenario_bank_main 1 2 []
      (by decide) rfl (scenario_transport_ctrl_succeeds 0) (scenario_transport_ctrl_idle 0)
      (Or.inl ⟨by decide, by decide⟩)).1).trans (by decide),
    ((C27_erase_sequence (scenario_transport_ctrl 0x200) scenario_bank_otp 0 0 []
      (by decide) rfl (scenario_transport_ctrl_succeeds 0x200)
      (scenario_transport_ctrl_idle_otp 0x200)
      (Or.inr ⟨by decide, by decide⟩)).1).trans (by decide)⟩


end Artery
